import Mathlib

/-!
Koolo: the item requirement evaluator, the safety search and the combat loops.

A shallow embedding of

* `internal/action/itemchecks.go` (`requiredChecks`, `CheckAllItemsForStats`,
  `AreAllRequiredItemsFound`),
* `internal/character/lightning_sorceress.go` (`needsRepositioning`, `findSafePosition`,
  `isPlayerDead2`, `shouldCastStaticField`, `KillMonsterSequence`, `KillDiablo`), and
* `internal/character/barbarian_leveling.go` (`KillMonsterSequence` and the boss methods
  `KillAndariel`, `KillDuriel`, `KillMephisto`, `KillIzual`, `KillDiablo`, `KillBaal`),

followed by theorems about them.

Conventions of the embedding:

* Go `int` values (unit identifiers, stat values, distances) are `Int`; the embedded
  code compares them and adds small constants, far from the bounds of the machine type.
* A Go `map[string]V` is a `GoMap V`: an association list with unique keys. Reading a
  missing key gives the zero value, which the reader passes explicitly.
* `context.Get()` is an explicit `Context` value that is threaded through; the debug
  logger is the list of lines written so far.
* What the sources use but do not contain (`pather.DistanceFromPoint`, the constants
  `dangerDistance` and `safeDistance`, the walkability and line-of-sight queries, the
  library sort, the `npc` identifiers, `PreBattleChecks`) is a parameter, gathered in
  `SafetyEnv` and `CombatEnv`.
* The float64 scores of `findSafePosition` are rational numbers or `+Inf` (`Score`), and
  the float64 life fraction of `shouldCastStaticField` is a rational quotient.
* A `for` loop without condition is its body, one pass as a function of the loop
  variables, run by `runLoop` for a bounded number of passes. What a pass reads from
  outside (the snapshot `s.Data`, the clock, the results of the attack primitives) is
  the `Tick` of that pass; what it calls is recorded, in order, as a list of `Action`.
-/

namespace Koolo

/-! ## Go maps with string keys -/

/-- A Go `map[string]V`: key/value entries, keys unique. -/
structure GoMap (V : Type) where
  entries : List (String × V)
deriving DecidableEq, Repr

namespace GoMap

variable {V : Type}

/-- The result of `make(map[string]V)`. -/
def empty : GoMap V := ⟨[]⟩

/-- Entry lookup in an entry list. -/
def findEntries (k : String) : List (String × V) → Option V
  | [] => none
  | (k', v) :: rest => if k' = k then some v else findEntries k rest

/-- Entry update in an entry list: overwrite the entry of `k`, or add one. -/
def setEntries (k : String) (v : V) : List (String × V) → List (String × V)
  | [] => [(k, v)]
  | (k', v') :: rest => if k' = k then (k, v) :: rest else (k', v') :: setEntries k v rest

/-- The two-result read `v, ok := m[k]`, as an option. -/
def find? (m : GoMap V) (k : String) : Option V := findEntries k m.entries

/-- The read `m[k]`; `zero` is the zero value of `V`, returned for a missing key. -/
def get (m : GoMap V) (k : String) (zero : V) : V := (m.find? k).getD zero

/-- The assignment `m[k] = v`. -/
def set (m : GoMap V) (k : String) (v : V) : GoMap V := ⟨setEntries k v m.entries⟩

/-- The keys of the map. -/
def keys (m : GoMap V) : List String := m.entries.map Prod.fst

/-- The values of the map, as `for _, v := range m` visits them. -/
def values (m : GoMap V) : List V := m.entries.map Prod.snd

/-- The builtin `len(m)`. -/
def len (m : GoMap V) : Nat := m.entries.length

end GoMap

/-! ## Items (d2go `data.Item`, `stat.Data`) -/

/-- The stat kinds (`stat.ID`) the embedded code names, and any other kind. -/
inductive StatID where
  | Strength
  | Energy
  | Life
  | MaxLife
  | MinDamage
  | FireResist
  | LightningResist
  | LifeSteal
  | FasterCastRate
  | AllSkills
  | Other (n : Nat)
deriving DecidableEq, Repr

/-- One stat of an item (`stat.Data`): kind, layer and value. -/
structure StatData where
  ID : StatID
  Layer : Int
  Value : Int
deriving DecidableEq, Repr

/-- The zero value `stat.Data{}`. -/
def StatData.zero : StatData := ⟨StatID.Strength, 0, 0⟩

/-- Modelled from the spec: `data.Item` of the d2go library, which is not part of the
sources. An item has an identifier (`0` is the invalid placeholder), a type code
(`itm.Type().Code`), a display name, and stats that may sit on several layers. -/
structure Item where
  UnitID : Int
  IdentifiedName : String
  Code : String
  Stats : List StatData
deriving DecidableEq, Repr

/-- Modelled from the spec: `itm.FindStat(id, layer)` of the d2go library: the first stat
of that kind on that layer and `true`, or the zero `stat.Data` and `false`. -/
def Item.FindStat (itm : Item) (id : StatID) (layer : Int) : StatData × Bool :=
  match itm.Stats.find? (fun s => decide (s.ID = id) && decide (s.Layer = layer)) with
  | some s => (s, true)
  | none => (StatData.zero, false)

/-! ## `requiredChecks` -/

/-- The struct `statRequirement`: a name and a check returning the verdict and a
diagnostic line. -/
structure statRequirement where
  Name : String
  Check : Item → Bool × String

/-- Formatting of a `bool` with `%t`. -/
def fmtBool (b : Bool) : String := if b then "true" else "false"

/-- Formatting of an `int` with `%d`. -/
def fmtInt (n : Int) : String := toString n

/-- Check 1, merc helm: type `helmet` and lifesteal at least 1. -/
def checkMercHelm (itm : Item) : Bool × String :=
  let itemTypeCode := itm.Code
  if itemTypeCode ≠ "helmet" then
    (false, "Type: FAIL (Found: " ++ itemTypeCode ++ ", Req: helmet)")
  else
    let (s, f) := itm.FindStat StatID.LifeSteal 0
    let val : Int := if f then s.Value else 0
    let success := f && decide (val ≥ 1)
    (success, "Type: PASS, Lifesteal: Found=" ++ fmtBool f ++ ", Value=" ++ fmtInt val
      ++ " (Req: >=1)")

/-- Check 2, merc weapon: type `polearm`, faster cast rate 35 and minimum damage 9. -/
def checkMercWeapon (itm : Item) : Bool × String :=
  let itemTypeCode := itm.Code
  if itemTypeCode ≠ "polearm" then
    (false, "Type: FAIL (Found: " ++ itemTypeCode ++ ", Req: polearm)")
  else
    let (fcr, fFCR) := itm.FindStat StatID.FasterCastRate 0
    let (minDmg, fMinDmg) := itm.FindStat StatID.MinDamage 0
    let success := fFCR && fMinDmg && decide (fcr.Value = 35) && decide (minDmg.Value = 9)
    (success, "Type: PASS, FCR: " ++ fmtInt fcr.Value ++ " (Req: 35), MinDmg: "
      ++ fmtInt minDmg.Value ++ " (Req: 9)")

/-- Check 3, merc armor: type `armor`, fire resistance 50 and energy 10. -/
def checkMercArmor (itm : Item) : Bool × String :=
  let itemTypeCode := itm.Code
  if itemTypeCode ≠ "armor" then
    (false, "Type: FAIL (Found: " ++ itemTypeCode ++ ", Req: armor)")
  else
    let (fireRes, fFireRes) := itm.FindStat StatID.FireResist 0
    let (energy, fEnergy) := itm.FindStat StatID.Energy 0
    let success := fFireRes && fEnergy && decide (fireRes.Value = 50)
      && decide (energy.Value = 10)
    (success, "Type: PASS, FireRes: " ++ fmtInt fireRes.Value ++ " (Req: 50), Energy: "
      ++ fmtInt energy.Value ++ " (Req: 10)")

/-- Check 4, player armor: type `armor`, fire resistance 50 and energy 10. -/
def checkPlayerArmor (itm : Item) : Bool × String :=
  let itemTypeCode := itm.Code
  if itemTypeCode ≠ "armor" then
    (false, "Type: FAIL (Found: " ++ itemTypeCode ++ ", Req: armor)")
  else
    let (fireRes, fFireRes) := itm.FindStat StatID.FireResist 0
    let (energy, fEnergy) := itm.FindStat StatID.Energy 0
    let success := fFireRes && fEnergy && decide (fireRes.Value = 50)
      && decide (energy.Value = 10)
    (success, "Type: PASS, FireRes: " ++ fmtInt fireRes.Value ++ " (Req: 50), Energy: "
      ++ fmtInt energy.Value ++ " (Req: 10)")

/-- Check 5, player weapon: type `sword`, all skills 2 and faster cast rate at least 25. -/
def checkPlayerWeapon (itm : Item) : Bool × String :=
  let itemTypeCode := itm.Code
  if itemTypeCode ≠ "sword" then
    (false, "Type: FAIL (Found: " ++ itemTypeCode ++ ", Req: sword)")
  else
    let (allSkills, fAllSkills) := itm.FindStat StatID.AllSkills 0
    let (fcr, fFCR) := itm.FindStat StatID.FasterCastRate 0
    let success := fAllSkills && fFCR && decide (allSkills.Value = 2)
      && decide (fcr.Value ≥ 25)
    (success, "Type: PASS, AllSkills: " ++ fmtInt allSkills.Value ++ " (Req: 2), FCR: "
      ++ fmtInt fcr.Value ++ " (Req: >=25)")

/-- Check 6, player helm: type `helmet`, all skills 1 and lightning resistance 35. -/
def checkPlayerHelm (itm : Item) : Bool × String :=
  let itemTypeCode := itm.Code
  if itemTypeCode ≠ "helmet" then
    (false, "Type: FAIL (Found: " ++ itemTypeCode ++ ", Req: helmet)")
  else
    let (allSkills, fAllSkills) := itm.FindStat StatID.AllSkills 0
    let (lightRes, fLightRes) := itm.FindStat StatID.LightningResist 0
    let success := fAllSkills && fLightRes && decide (allSkills.Value = 1)
      && decide (lightRes.Value = 35)
    (success, "Type: PASS, AllSkills: " ++ fmtInt allSkills.Value ++ " (Req: 1), LightRes: "
      ++ fmtInt lightRes.Value ++ " (Req: 35)")

/-- The package variable `requiredChecks`: the six requirements, in scan order. -/
def requiredChecks : List statRequirement :=
  [ ⟨"MercHelm_Lifesteal_Found", checkMercHelm⟩,
    ⟨"MercWeapon_FCR_MinDmg_Found", checkMercWeapon⟩,
    ⟨"MercArmor_FireRes_Energy_Found", checkMercArmor⟩,
    ⟨"PlayerArmor_FireRes_Energy_Found", checkPlayerArmor⟩,
    ⟨"PlayerWeapon_Skills_FCR_Found", checkPlayerWeapon⟩,
    ⟨"PlayerHelm_Skill_LightRes_Found", checkPlayerHelm⟩ ]

/-- The names of the six requirements. -/
def requirementNames : List String := requiredChecks.map (fun req => req.Name)

/-! ## `CheckAllItemsForStats` -/

/-- What `context.Get()` gives to the evaluator: the inventory items
(`ctx.Data.Inventory.AllItems`) and the debug lines written to `ctx.Logger`. -/
structure Context where
  AllItems : List Item
  LoggerDebug : List String
deriving DecidableEq, Repr

/-- The local variables of `CheckAllItemsForStats` that its loops update, with the logger. -/
structure CheckState where
  results : GoMap Bool
  usedUnitIDs : GoMap Int
  LoggerDebug : List String
deriving DecidableEq, Repr

/-- The first loop: `results[req.Name] = false` for every requirement. -/
def initResults (reqs : List statRequirement) : GoMap Bool :=
  reqs.foldl (fun results req => results.set req.Name false) GoMap.empty

/-- One pass of the body of the inner loop `for _, req := range requiredChecks`. -/
def checkRequirement (itm : Item) (st : CheckState) (req : statRequirement) : CheckState :=
  if st.results.get req.Name false then
    st
  else
    let otherReqName :=
      if req.Name = "MercArmor_FireRes_Energy_Found" then "PlayerArmor_FireRes_Energy_Found"
      else "MercArmor_FireRes_Energy_Found"
    if (req.Name = "MercArmor_FireRes_Energy_Found"
          ∨ req.Name = "PlayerArmor_FireRes_Energy_Found")
        ∧ st.results.get otherReqName false = true
        ∧ st.usedUnitIDs.get otherReqName 0 = itm.UnitID then
      { st with LoggerDebug := st.LoggerDebug ++
          ["[" ++ req.Name ++ "]: SKIP -> Item " ++ fmtInt itm.UnitID ++ " already used for "
            ++ otherReqName ++ "."] }
    else
      let checked := req.Check itm
      let isMet := checked.1
      let logDetails := checked.2
      let logStatus := if isMet then "SUCCESS" else "FAIL"
      let results := if isMet then st.results.set req.Name true else st.results
      let usedUnitIDs := if isMet then st.usedUnitIDs.set req.Name itm.UnitID
        else st.usedUnitIDs
      { results := results, usedUnitIDs := usedUnitIDs,
        LoggerDebug := st.LoggerDebug ++
          ["[" ++ req.Name ++ "]: " ++ logStatus ++ " -> " ++ logDetails] }

/-- One pass of the body of the outer loop `for _, itm := range allItems`. -/
def checkItem (st : CheckState) (itm : Item) : CheckState :=
  let st1 := { st with LoggerDebug := st.LoggerDebug ++
    ["--- Checking Item: " ++ itm.IdentifiedName ++ " (UnitID: " ++ fmtInt itm.UnitID
      ++ ", Type: " ++ itm.Code ++ ") ---"] }
  if itm.UnitID = 0 then
    st1
  else
    requiredChecks.foldl (checkRequirement itm) st1

/-- The function `CheckAllItemsForStats`: the satisfied map, the map of the identifiers
that satisfied each requirement, and the context after the call. -/
def CheckAllItemsForStats (ctx : Context) : (GoMap Bool × GoMap Int) × Context :=
  let allItems := ctx.AllItems
  let st0 : CheckState :=
    { results := initResults requiredChecks,
      usedUnitIDs := GoMap.empty,
      LoggerDebug := ctx.LoggerDebug ++
        ["Starting universal item stat check for " ++ fmtInt allItems.length ++ " items..."] }
  let st := allItems.foldl checkItem st0
  ((st.results, st.usedUnitIDs),
    { ctx with LoggerDebug := st.LoggerDebug ++ ["--- All item checks complete. ---"] })

/-- The function `AreAllRequiredItemsFound`, with the context after the call. -/
def AreAllRequiredItemsFound (ctx : Context) : Bool × Context :=
  let (res, ctx1) := CheckAllItemsForStats ctx
  let results := res.1
  if results.len ≠ requiredChecks.length then
    (false, ctx1)
  else
    (results.values.all (fun found => found), ctx1)

/-! ## Monsters and `needsRepositioning` -/

/-- A `data.Position`: integer game-world coordinates. -/
structure Position where
  X : Int
  Y : Int
deriving DecidableEq, Repr

/-- Modelled from the spec: `data.Monster` of the d2go library, which is not part of the
sources: identifier, kind, classification, position, and a map from stat kind to value
that holds the current and the maximum life. -/
structure Monster where
  UnitID : Int
  Name : Int
  MonsterType : String
  Position : Position
  Stats : List (StatID × Int)
deriving DecidableEq, Repr

/-- The zero value `data.Monster{}`. -/
def Monster.zero : Monster := ⟨0, 0, "", ⟨0, 0⟩, []⟩

/-- The map read `monster.Stats[id]`: the value stored for `id`, or `0`. -/
def Monster.stat (m : Monster) (id : StatID) : Int :=
  match m.Stats.find? (fun e => decide (e.1 = id)) with
  | some e => e.2
  | none => 0

/-- The loop of `needsRepositioning` over `s.Data.Monsters.Enemies()`. The distance
function `pather.DistanceFromPoint` and the package constant `dangerDistance` are not
part of the sources and are parameters. -/
def needsRepositioningLoop (DistanceFromPoint : Position → Position → Int)
    (dangerDistance : Int) (playerPosition : Position) : List Monster → Bool × Monster
  | [] => (false, Monster.zero)
  | monster :: rest =>
    if monster.stat StatID.Life ≤ 0 then
      needsRepositioningLoop DistanceFromPoint dangerDistance playerPosition rest
    else
      let distance := DistanceFromPoint playerPosition monster.Position
      if distance < dangerDistance then
        (true, monster)
      else
        needsRepositioningLoop DistanceFromPoint dangerDistance playerPosition rest

/-- The method `LightningSorceress.needsRepositioning`, on the player position
`s.Data.PlayerUnit.Position` and the enemies `s.Data.Monsters.Enemies()`. -/
def needsRepositioning (DistanceFromPoint : Position → Position → Int)
    (dangerDistance : Int) (playerPosition : Position) (enemies : List Monster) :
    Bool × Monster :=
  needsRepositioningLoop DistanceFromPoint dangerDistance playerPosition enemies

/-! ## Definitions used in the proofs -/

/-- The two tests of the loop body of `needsRepositioning` together: the monster is not
skipped (its life is above 0) and its distance from the player is below
`dangerDistance`. -/
def dangerous (DistanceFromPoint : Position → Position → Int) (dangerDistance : Int)
    (playerPosition : Position) (m : Monster) : Prop :=
  m.stat StatID.Life > 0 ∧ DistanceFromPoint playerPosition m.Position < dangerDistance

/-- The straight-line distance rounded down, a distance function for examples. -/
def floorDistance (a b : Position) : Int :=
  Int.ofNat (Nat.sqrt (((b.X - a.X) ^ 2 + (b.Y - a.Y) ^ 2).toNat))

/-- The guard of the armor pair: the requirement `name` is one of the two armor
requirements and the other one is already satisfied by this very item. -/
def armorSkip (itm : Item) (st : CheckState) (name : String) : Prop :=
  (name = "MercArmor_FireRes_Energy_Found" ∨ name = "PlayerArmor_FireRes_Energy_Found")
    ∧ st.results.get (if name = "MercArmor_FireRes_Energy_Found"
        then "PlayerArmor_FireRes_Energy_Found" else "MercArmor_FireRes_Energy_Found") false = true
    ∧ st.usedUnitIDs.get (if name = "MercArmor_FireRes_Energy_Found"
        then "PlayerArmor_FireRes_Energy_Found" else "MercArmor_FireRes_Energy_Found") 0
        = itm.UnitID

/-- The guard of the armor pair can be evaluated. -/
instance (itm : Item) (st : CheckState) (name : String) : Decidable (armorSkip itm st name) := by
  unfold armorSkip; infer_instance

/-- Whether the pass of `req` over `itm` records `itm` for `req`. -/
def records (itm : Item) (st : CheckState) (req : statRequirement) : Prop :=
  st.results.get req.Name false = false ∧ ¬ armorSkip itm st req.Name ∧ (req.Check itm).1 = true

/-- Whether a pass records its item can be evaluated. -/
instance (itm : Item) (st : CheckState) (req : statRequirement) :
    Decidable (records itm st req) := by
  unfold records; infer_instance

/-- The item has a valid identifier and passes the check of the requirement. -/
def passes (r : statRequirement) (itm : Item) : Bool :=
  decide (itm.UnitID ≠ 0) && (r.Check itm).1

/-- What the scan has established for the armor pair after the items `seen`. -/
structure ArmorInv (st : CheckState) (seen : List Item) : Prop where
  satM : st.results.find? "MercArmor_FireRes_Energy_Found"
    = some (st.usedUnitIDs.find? "MercArmor_FireRes_Energy_Found").isSome
  satP : st.results.find? "PlayerArmor_FireRes_Energy_Found"
    = some (st.usedUnitIDs.find? "PlayerArmor_FireRes_Energy_Found").isSome
  firstM : st.usedUnitIDs.find? "MercArmor_FireRes_Energy_Found"
    = (seen.find? (passes ⟨"MercArmor_FireRes_Energy_Found", checkMercArmor⟩)).map
        (fun i => i.UnitID)
  firstP : st.usedUnitIDs.find? "PlayerArmor_FireRes_Energy_Found"
    = (seen.find? (fun i => passes ⟨"PlayerArmor_FireRes_Energy_Found", checkPlayerArmor⟩ i
        && decide (some i.UnitID ≠ st.usedUnitIDs.find? "MercArmor_FireRes_Energy_Found"))).map
        (fun i => i.UnitID)

/-- What the scan has established after the items `seen`. -/
structure ScanInv (st : CheckState) (seen : List Item) : Prop where
  keys : st.results.keys = requirementNames
  sat : ∀ r ∈ requiredChecks,
    st.results.find? r.Name = some (st.usedUnitIDs.find? r.Name).isSome
  first : ∀ r ∈ requiredChecks, r.Name ≠ "PlayerArmor_FireRes_Energy_Found" →
    st.usedUnitIDs.find? r.Name = (seen.find? (passes r)).map (fun i => i.UnitID)
  player : st.usedUnitIDs.find? "PlayerArmor_FireRes_Energy_Found"
    = (seen.find? (fun i => passes ⟨"PlayerArmor_FireRes_Energy_Found", checkPlayerArmor⟩ i
        && decide (some i.UnitID ≠ st.usedUnitIDs.find? "MercArmor_FireRes_Energy_Found"))).map
        (fun i => i.UnitID)
  others : ∀ k, k ∉ requirementNames → st.usedUnitIDs.find? k = none

/-- The state in which the scan starts. -/
def scanStart (log : List String) : CheckState :=
  { results := initResults requiredChecks, usedUnitIDs := GoMap.empty, LoggerDebug := log }

/-- Two scan states with the same two maps; the logger lines may differ. -/
def sameMaps (a b : CheckState) : Prop :=
  a.results = b.results ∧ a.usedUnitIDs = b.usedUnitIDs

/-! ## `findSafePosition` -/

/-- A float64 value of the position scoring: a rational number, held exactly, or `+Inf`.
The finite scores are sums of small integers and halves, on which float64 arithmetic is
exact. -/
inductive Score where
  | finite (q : ℚ)
  | inf
deriving DecidableEq

/-- The float64 comparison `a > b`. -/
def Score.gt : Score → Score → Bool
  | Score.finite a, Score.finite b => decide (a > b)
  | Score.inf, Score.finite _ => true
  | _, Score.inf => false

/-- The local struct `scoredPosition` of `findSafePosition`. -/
structure scoredPosition where
  pos : Position
  score : Score
deriving DecidableEq

/-- What `findSafePosition` uses and the sources do not contain: the distance function,
the package constants, the walkability and line-of-sight queries, the floating-point
vector computations, and the library sort.

* `awayVector vectorX vectorY` is the pair `normalizedX`, `normalizedY`:
  `int(float64(vectorX) / length * float64(safeDistance))` and the same with `vectorY`.
* `ringVector angle distance` is the pair `dx`, `dy`:
  `int(math.Cos(radians) * float64(distance))` and the same with `math.Sin`.
* `sortSlice` is `sort.Slice(scoredPositions, less)` with
  `less(i, j) = scoredPositions[i].score > scoredPositions[j].score`. -/
structure SafetyEnv where
  DistanceFromPoint : Position → Position → Int
  dangerDistance : Int
  safeDistance : Int
  minBlizzSorceressAttackDistance : Int
  maxBlizzSorceressAttackDistance : Int
  IsWalkable : Position → Bool
  LineOfSight : Position → Position → Bool
  awayVector : Int → Int → Int × Int
  ringVector : Int → Int → Int × Int
  sortSlice : List scoredPosition → List scoredPosition

/-- The constant `minSafeMonsterDistance` of `findSafePosition`. -/
def minSafeMonsterDistance : Int := 2

/-- The candidates of the first block: around the point at the safe distance on the
ray from the target through the player, offsets from -3 to 3 on both axes, walkable
cells only. The test `length > 0` on the square root is the test that the sum of the
squares is positive. -/
def awayCandidates (env : SafetyEnv) (playerPos : Position) (targetMonster : Monster) :
    List Position :=
  let vectorX := playerPos.X - targetMonster.Position.X
  let vectorY := playerPos.Y - targetMonster.Position.Y
  if vectorX * vectorX + vectorY * vectorY > 0 then
    let normalizedX := (env.awayVector vectorX vectorY).1
    let normalizedY := (env.awayVector vectorX vectorY).2
    ([-3, -2, -1, 0, 1, 2, 3] : List Int).flatMap (fun offsetX =>
      (([-3, -2, -1, 0, 1, 2, 3] : List Int).map (fun offsetY =>
        ({ X := playerPos.X + normalizedX + offsetX,
           Y := playerPos.Y + normalizedY + offsetY } : Position))).filter env.IsWalkable)
  else
    []

/-- The values of `distance` in
`for distance := minSafeMonsterDistance; distance <= safeDistance+5; distance += 2`. -/
def ringDistances (safeDistance : Int) : List Int :=
  (List.range ((safeDistance + 5 - minSafeMonsterDistance) / 2 + 1).toNat).map
    (fun i => minSafeMonsterDistance + 2 * (i : Int))

/-- The values of `angle` in `for angle := 0; angle < 360; angle += 5`. -/
def ringAngles : List Int := (List.range 72).map (fun i => 5 * (i : Int))

/-- The candidates of the second block: on rings around the player, every 5 degrees,
offsets from -1 to 1 on both axes, walkable cells only. -/
def ringCandidates (env : SafetyEnv) (playerPos : Position) : List Position :=
  ringAngles.flatMap (fun angle =>
    (ringDistances env.safeDistance).flatMap (fun distance =>
      let dx := (env.ringVector angle distance).1
      let dy := (env.ringVector angle distance).2
      let basePos : Position := { X := playerPos.X + dx, Y := playerPos.Y + dy }
      ([-1, 0, 1] : List Int).flatMap (fun offsetX =>
        (([-1, 0, 1] : List Int).map (fun offsetY =>
          ({ X := basePos.X + offsetX, Y := basePos.Y + offsetY } : Position))).filter
            env.IsWalkable)))

/-- The slice `candidatePositions` when the two generating blocks are done. -/
def candidatePositions (env : SafetyEnv) (playerPos : Position) (targetMonster : Monster) :
    List Position :=
  awayCandidates env playerPos targetMonster ++ ringCandidates env playerPos

/-- One pass of the inner loop over `s.Data.Monsters.Enemies()`, on the variable
`minMonsterDistance`; `none` is its initial value `math.MaxFloat64`, which every distance
is below. -/
def minMonsterDistanceStep (env : SafetyEnv) (pos : Position) (acc : Option Int)
    (monster : Monster) : Option Int :=
  if monster.stat StatID.Life ≤ 0 then
    acc
  else
    let monsterDistance := env.DistanceFromPoint pos monster.Position
    match acc with
    | none => some monsterDistance
    | some least => if monsterDistance < least then some monsterDistance else some least

/-- The inner loop over `s.Data.Monsters.Enemies()`: the least distance from `pos` to an
enemy with life above 0, or `none` (the initial `math.MaxFloat64`) when there is no such
enemy. -/
def minMonsterDistance (env : SafetyEnv) (enemies : List Monster) (pos : Position) :
    Option Int :=
  enemies.foldl (minMonsterDistanceStep env pos) none

/-- The variable `attackRangeScore`. -/
def attackRangeScore (env : SafetyEnv) (targetDistance : Int) : ℚ :=
  if targetDistance ≥ env.minBlizzSorceressAttackDistance
      ∧ targetDistance ≤ env.maxBlizzSorceressAttackDistance then
    10
  else
    -|(targetDistance : ℚ)
        - ((env.minBlizzSorceressAttackDistance + env.maxBlizzSorceressAttackDistance : Int) : ℚ)
            / 2|

/-- The variable `score` when the candidate is appended. With no living enemy
`minMonsterDistance` is `math.MaxFloat64`, its product with 3.0 is `+Inf`, and the
additions that follow leave `+Inf`. -/
def positionScore (env : SafetyEnv) (minMonsterDistance : Option Int)
    (targetDistance distanceFromPlayer : Int) : Score :=
  match minMonsterDistance with
  | none => Score.inf
  | some d =>
    let score : ℚ := (d : ℚ) * 3 + attackRangeScore env targetDistance * 2
      - (distanceFromPlayer : ℚ) * (1 / 2)
    if (d : ℚ) > (env.dangerDistance : ℚ) then
      Score.finite (score + 5)
    else
      Score.finite score

/-- The test `minMonsterDistance < minSafeMonsterDistance`. -/
def tooClose (minMonsterDistance : Option Int) : Bool :=
  match minMonsterDistance with
  | none => false
  | some d => decide (d < minSafeMonsterDistance)

/-- The score that the scoring loop gives to the position `pos`. -/
def scoreOf (env : SafetyEnv) (playerPos : Position) (targetMonster : Monster)
    (enemies : List Monster) (pos : Position) : Score :=
  let targetDistance := env.DistanceFromPoint pos targetMonster.Position
  let distanceFromPlayer := env.DistanceFromPoint pos playerPos
  positionScore env (minMonsterDistance env enemies pos) targetDistance distanceFromPlayer

/-- One pass of the scoring loop `for _, pos := range candidatePositions`: `none` when
the pass ends in `continue`, else the element appended to `scoredPositions`. -/
def scoreCandidate (env : SafetyEnv) (playerPos : Position) (targetMonster : Monster)
    (enemies : List Monster) (pos : Position) : Option scoredPosition :=
  if !env.LineOfSight pos targetMonster.Position then
    none
  else if tooClose (minMonsterDistance env enemies pos) then
    none
  else
    some { pos := pos, score := scoreOf env playerPos targetMonster enemies pos }

/-- The method `LightningSorceress.findSafePosition`, on the player position
`s.Data.PlayerUnit.Position` and the enemies `s.Data.Monsters.Enemies()`. Its one
logger line is left out. -/
def findSafePosition (env : SafetyEnv) (playerPos : Position) (enemies : List Monster)
    (targetMonster : Monster) : Position × Bool :=
  let candidates := candidatePositions env playerPos targetMonster
  if candidates.length = 0 then
    (⟨0, 0⟩, false)
  else
    let scoredPositions := env.sortSlice
      (candidates.filterMap (scoreCandidate env playerPos targetMonster enemies))
    match scoredPositions with
    | best :: _ => (best.pos, true)
    | [] => (⟨0, 0⟩, false)

/-- The relation in which `sort.Slice` leaves two elements, the first before the second:
the second does not have the greater score. -/
def scoreGe (a b : scoredPosition) : Prop := Score.gt b.score a.score = false

/-- The relation `scoreGe` can be evaluated. -/
instance : DecidableRel scoreGe := fun a b => by
  unfold scoreGe; infer_instance

/-- An insertion sort by descending score, which stands for `sort.Slice` in examples. -/
def sortDescending (l : List scoredPosition) : List scoredPosition :=
  l.insertionSort scoreGe

/-- The distance that adds the two coordinate differences, a distance function for
examples that evaluates by `decide`. -/
def gridDistance (a b : Position) : Int :=
  Int.ofNat (Int.natAbs (b.X - a.X) + Int.natAbs (b.Y - a.Y))

/-! ## The combat loops: what they read and what they call -/

/-- The Go `error` values that the embedded code returns; `nil` is `none`. -/
inductive GoError where
  | ErrDied
  | New (text : String)
deriving DecidableEq, Repr

/-- The `skill.ID` constants that the embedded code names. -/
inductive SkillID where
  | BlessedHammer
  | Concentration
  | Might
  | HolyFire
  | Zeal
  | StaticField
  | ChainLightning
deriving DecidableEq, Repr

/-- The `step.AttackOption` values that the embedded code builds. -/
inductive AttackOption where
  | Distance (minimum maximum : Int)
  | RangedDistance (minimum maximum : Int)
  | EnsureAura (aura : SkillID)
deriving DecidableEq, Repr

/-- One call of a loop to a collaborator, in program order. `MonsterSelector` is the call
of the selector closure; `Log` is a logger line with its message text (attributes and
level are left out). -/
inductive Action where
  | PauseIfNotPriority
  | MonsterSelector
  | PrimaryAttack (target : Int) (numOfAttacks : Int) (standStill : Bool)
      (opts : List AttackOption)
  | SecondaryAttack (skill : SkillID) (target : Int) (numOfAttacks : Int)
      (opts : List AttackOption)
  | CallKillBossWithStatic
  | MoveTo (pos : Position)
  | RandomMovement
  | Sleep (milliseconds : Int)
  | Log (line : String)
deriving DecidableEq, Repr

/-- Whether the call is an attack primitive, `step.PrimaryAttack` or
`step.SecondaryAttack`. -/
def Action.isAttack : Action → Bool
  | Action.PrimaryAttack _ _ _ _ => true
  | Action.SecondaryAttack _ _ _ _ => true
  | _ => false

/-- The `npc.ID` constants of d2go that the embedded code names; their values are not in
the sources. -/
structure NpcIDs where
  FallenShaman : Int
  MummyGenerator : Int
  BaalSubjectMummy : Int
  FetishShaman : Int
  CarverShaman : Int
  Andariel : Int
  Duriel : Int
  Mephisto : Int
  Diablo : Int
  BaalCrab : Int
  Izual : Int

/-- Modelled from the spec: the snapshot `s.Data` as one pass of a loop reads it: the
monsters, the enemies among them (`Monsters.Enemies()`), the position, life percentage
(`HPPercent()`) and level (`FindStat(stat.Level, 0)`, value 0 when absent) of the player,
and the level of each skill (`Skills[id].Level`, 0 for a skill the map does not hold). -/
structure GameData where
  Monsters : List Monster
  Enemies : List Monster
  PlayerPosition : Position
  HPPercent : Int
  Level : Int
  SkillLevel : SkillID → Int

/-- Modelled from the spec: `Monsters.FindByID` of the d2go library: the first monster
with that identifier. -/
def FindByID (monsters : List Monster) (id : Int) : Option Monster :=
  monsters.find? (fun m => decide (m.UnitID = id))

/-- Modelled from the spec: `Monsters.FindOne` of the d2go library: the first monster of
that kind whose classification is `t`, any classification when `t` is `None`. -/
def FindOne (monsters : List Monster) (id : Int) (t : String) : Option Monster :=
  monsters.find? (fun m => decide (m.Name = id) && (decide (t = "None") || decide (t = m.MonsterType)))

/-- The constant `data.MonsterTypeUnique`. -/
def MonsterTypeUnique : String := "Unique"

/-- Everything that one pass of a loop body reads from outside: the snapshot, the clock
(`time.Now()`, in nanoseconds), the result of the attack primitive of the pass, the
result of the Static Field cast of the pass, and the result of the call of
`killBossWithStatic`; a result matters only when the pass makes the call. -/
structure Tick where
  Data : GameData
  Now : Int
  AttackErr : Option GoError
  StaticFieldErr : Option GoError
  KillBossWithStaticErr : Option GoError

/-- What the combat loops use and the sources do not contain: the `npc.ID` constants,
`s.PathFinder.DistanceFromMe`, and `preBattleChecks` of `BaseCharacter`. -/
structure CombatEnv where
  npc : NpcIDs
  DistanceFromMe : GameData → Position → Int
  preBattleChecks : GameData → Int → List String → Bool

/-- How one pass of a `for` loop without condition ends: with `return value`, or at the
end of the body or a `continue`, with the loop variables as they are then. -/
inductive LoopStep (σ ρ : Type) where
  | Return (value : ρ)
  | Continue (state : σ)

/-- Runs a `for` loop without condition for at most `fuel` passes: pass `i` reads
`ticks i`. Gives the returned value, or `none` when the loop is still running after
`fuel` passes, and the calls made, in order. -/
def runLoop {σ ρ : Type} (body : σ → Tick → LoopStep σ ρ × List Action) (ticks : Nat → Tick) :
    Nat → Nat → σ → Option ρ × List Action
  | 0, _, _ => (none, [])
  | fuel + 1, i, st =>
    match body st (ticks i) with
    | (LoopStep.Return value, calls) => (some value, calls)
    | (LoopStep.Continue st', calls) =>
      ((runLoop body ticks fuel (i + 1) st').1, calls ++ (runLoop body ticks fuel (i + 1) st').2)

/-- The number of attack primitive calls among the calls. -/
def attackCount (calls : List Action) : Nat := (calls.filter Action.isAttack).length

/-! ## `BarbarianLeveling.KillMonsterSequence` -/

/-- The constant `BarbarianLevelingMaxAttacksLoop`. -/
def BarbarianLevelingMaxAttacksLoop : Int := 10

/-- The constant `priorityMonsterSearchRange`. -/
def priorityMonsterSearchRange : Int := 15

/-- The slice `priorityMonsters`. -/
def priorityMonsters (npc : NpcIDs) : List Int :=
  [npc.FallenShaman, npc.MummyGenerator, npc.BaalSubjectMummy, npc.FetishShaman,
    npc.CarverShaman]

/-- The loop variables of `BarbarianLeveling.KillMonsterSequence`. -/
structure BarbarianLoopState where
  completedAttackLoops : Int
  previousUnitID : Int
deriving DecidableEq, Repr

/-- The loop variables before the first pass. -/
def BarbarianLoopState.start : BarbarianLoopState :=
  { completedAttackLoops := 0, previousUnitID := 0 }

/-- One pass of the inner loop `for _, m := range s.Data.Monsters`, on the pair
`minDistance`, `closestPriorityMonster`. -/
def priorityScanStep (cenv : CombatEnv) (data : GameData) (monsterNpcID : Int)
    (acc : Int × Monster) (m : Monster) : Int × Monster :=
  if m.Name = monsterNpcID ∧ m.stat StatID.Life > 0 then
    let distance := cenv.DistanceFromMe data m.Position
    if distance < priorityMonsterSearchRange then
      if acc.1 = -1 ∨ distance < acc.1 then
        (distance, m)
      else
        acc
    else
      acc
  else
    acc

/-- The two nested loops over `priorityMonsters` and `s.Data.Monsters`: the pair
`minDistance`, `closestPriorityMonster` after them. -/
def priorityScan (cenv : CombatEnv) (data : GameData) : Int × Monster :=
  (priorityMonsters cenv.npc).foldl
    (fun acc monsterNpcID => data.Monsters.foldl (priorityScanStep cenv data monsterNpcID) acc)
    (-1, Monster.zero)

/-- The target selection of one pass: the pair `id`, `found` when the pass reaches
`if !found`, and the calls made on the way. -/
def barbarianSelectTarget (cenv : CombatEnv) (monsterSelector : GameData → Int × Bool)
    (data : GameData) : (Int × Bool) × List Action :=
  let minDistance := (priorityScan cenv data).1
  let closestPriorityMonster := (priorityScan cenv data).2
  if minDistance ≠ -1 then
    ((closestPriorityMonster.UnitID, true), [Action.Log "Priority monster found"])
  else
    (monsterSelector data, [Action.MonsterSelector])

/-- One pass of the loop of `BarbarianLeveling.KillMonsterSequence`. The results of the
calls of `step.PrimaryAttack` are not read. -/
def barbarianBody (cenv : CombatEnv) (monsterSelector : GameData → Int × Bool)
    (skipOnImmunities : List String) (st : BarbarianLoopState) (tick : Tick) :
    LoopStep BarbarianLoopState (Option GoError) × List Action :=
  let data := tick.Data
  let selected := barbarianSelectTarget cenv monsterSelector data
  let id := selected.1.1
  let found := selected.1.2
  if !found then
    (LoopStep.Return none, selected.2)
  else
    let completedAttackLoops :=
      if st.previousUnitID ≠ id then 0 else st.completedAttackLoops
    if !cenv.preBattleChecks data id skipOnImmunities then
      (LoopStep.Return none, selected.2)
    else if completedAttackLoops ≥ BarbarianLevelingMaxAttacksLoop then
      (LoopStep.Return none, selected.2)
    else
      match FindByID data.Monsters id with
      | none => (LoopStep.Return none, selected.2 ++ [Action.Log "Monster not found"])
      | some monster =>
        let lvl := data.Level
        if data.SkillLevel SkillID.BlessedHammer > 0 then
          if st.previousUnitID = id then
            (LoopStep.Return none,
              selected.2 ++ [Action.Log "Using Blessed Hammer"]
                ++ (if monster.stat StatID.Life > 0 then [Action.RandomMovement] else []))
          else
            (LoopStep.Continue
                { completedAttackLoops := completedAttackLoops + 1, previousUnitID := id },
              selected.2 ++ [Action.Log "Using Blessed Hammer",
                Action.PrimaryAttack id 5 false
                  [AttackOption.Distance 2 7, AttackOption.EnsureAura SkillID.Concentration],
                Action.Log "Performing random movement to reposition.",
                Action.RandomMovement,
                Action.Sleep 150])
        else if lvl < 6 then
          (LoopStep.Continue
              { completedAttackLoops := completedAttackLoops + 1, previousUnitID := id },
            selected.2 ++ [Action.Log "Using Might and Sacrifice",
              Action.PrimaryAttack id 1 false
                [AttackOption.Distance 1 3, AttackOption.EnsureAura SkillID.Might]])
        else if lvl ≥ 6 ∧ lvl < 12 then
          (LoopStep.Continue
              { completedAttackLoops := completedAttackLoops + 1, previousUnitID := id },
            selected.2 ++ [Action.Log "Using Holy Fire and Sacrifice",
              Action.PrimaryAttack id 1 false
                [AttackOption.Distance 1 3, AttackOption.EnsureAura SkillID.HolyFire]])
        else
          (LoopStep.Continue
              { completedAttackLoops := completedAttackLoops + 1, previousUnitID := id },
            selected.2 ++ [Action.Log "Using Holy Fire and Zeal",
              Action.PrimaryAttack id 1 false
                [AttackOption.Distance 1 3, AttackOption.EnsureAura SkillID.HolyFire]])

/-- The method `BarbarianLeveling.KillMonsterSequence`, run for at most `fuel` passes. -/
def BarbarianLeveling.KillMonsterSequence (cenv : CombatEnv)
    (monsterSelector : GameData → Int × Bool) (skipOnImmunities : List String)
    (ticks : Nat → Tick) (fuel : Nat) : Option (Option GoError) × List Action :=
  runLoop (barbarianBody cenv monsterSelector skipOnImmunities) ticks fuel 0
    BarbarianLoopState.start

/-! ## `LightningSorceress.KillMonsterSequence` -/

/-- The constant `LightningMinDistance`. -/
def LightningMinDistance : Int := 10

/-- The constant `LightningMaxDistance`. -/
def LightningMaxDistance : Int := 20

/-- The constant `LightningStaticMinDistance`. -/
def LightningStaticMinDistance : Int := 1

/-- The constant `LightningStaticMaxDistance`. -/
def LightningStaticMaxDistance : Int := 3

/-- The constant `LightningMaxAttacksLoop`. -/
def LightningMaxAttacksLoop : Int := 40

/-- The constant `LightningStaticFieldThreshold`. -/
def LightningStaticFieldThreshold : Int := 67

/-- The constant `time.Second`, in nanoseconds. -/
def timeSecond : Int := 1000000000

/-- The method `LightningSorceress.isPlayerDead2`. -/
def isPlayerDead2 (data : GameData) : Bool := decide (data.HPPercent ≤ 0)

/-- The method `LightningSorceress.shouldCastStaticField`; the float64 quotient is the
rational quotient. -/
def shouldCastStaticField (monster : Monster) : Bool :=
  let maxLife : ℚ := (monster.stat StatID.MaxLife : ℚ)
  if maxLife = 0 then
    false
  else
    let hpPercentage : ℚ := ((monster.stat StatID.Life : ℚ) / maxLife) * 100
    decide (hpPercentage > (LightningStaticFieldThreshold : ℚ))

/-- The loop variables of `LightningSorceress.KillMonsterSequence`; `lastReposition` is a
clock reading in nanoseconds. -/
structure SorceressLoopState where
  completedAttackLoops : Int
  lastReposition : Int
  staticFieldCast : Bool
deriving DecidableEq, Repr

/-- The loop variables before the first pass, when the clock reads `now`. -/
def SorceressLoopState.start (now : Int) : SorceressLoopState :=
  { completedAttackLoops := 0, lastReposition := now, staticFieldCast := false }

/-- The test on `monster.Name` that picks `step.PrimaryAttack` over Chain Lightning. -/
def isLightningBoss (npc : NpcIDs) (monster : Monster) : Bool :=
  decide (monster.Name = npc.Andariel) || decide (monster.Name = npc.Duriel)
    || decide (monster.Name = npc.Mephisto) || decide (monster.Name = npc.Diablo)
    || decide (monster.Name = npc.BaalCrab) || decide (monster.Name = npc.Izual)

/-- The end of a pass that reached the attack with the loop variables `st`: the attack
primitive for `monster`, the count of completed attacks, and the reset at
`LightningMaxAttacksLoop`. -/
def sorceressAttack (cenv : CombatEnv) (st : SorceressLoopState) (tick : Tick)
    (monster : Monster) : SorceressLoopState × List Action :=
  let call :=
    if isLightningBoss cenv.npc monster then
      Action.PrimaryAttack monster.UnitID 1 true
        [AttackOption.Distance LightningMinDistance LightningMaxDistance]
    else
      Action.SecondaryAttack SkillID.ChainLightning monster.UnitID 1
        [AttackOption.RangedDistance LightningMinDistance LightningMaxDistance]
  let completedAttackLoops :=
    if tick.AttackErr = none then st.completedAttackLoops + 1 else st.completedAttackLoops
  if completedAttackLoops ≥ LightningMaxAttacksLoop then
    ({ st with completedAttackLoops := 0, staticFieldCast := false }, [call])
  else
    ({ st with completedAttackLoops := completedAttackLoops }, [call])

/-- The part of a pass after the repositioning block, with the loop variables `st`. -/
def sorceressEngage (cenv : CombatEnv) (monsterSelector : GameData → Int × Bool)
    (skipOnImmunities : List String) (st : SorceressLoopState) (tick : Tick) :
    LoopStep SorceressLoopState (Option GoError) × List Action :=
  let data := tick.Data
  let id := (monsterSelector data).1
  let found := (monsterSelector data).2
  if !found then
    (LoopStep.Return none, [Action.MonsterSelector])
  else if !cenv.preBattleChecks data id skipOnImmunities then
    (LoopStep.Return none, [Action.MonsterSelector])
  else
    match FindByID data.Monsters id with
    | none => (LoopStep.Return none, [Action.MonsterSelector])
    | some monster =>
      if monster.stat StatID.Life ≤ 0 then
        (LoopStep.Return none, [Action.MonsterSelector])
      else if !st.staticFieldCast ∧ shouldCastStaticField monster = true then
        let cast := Action.SecondaryAttack SkillID.StaticField monster.UnitID 1
          [AttackOption.RangedDistance LightningStaticMinDistance LightningStaticMaxDistance]
        if tick.StaticFieldErr = none then
          (LoopStep.Continue { st with staticFieldCast := true },
            [Action.MonsterSelector, cast])
        else
          (LoopStep.Continue (sorceressAttack cenv st tick monster).1,
            [Action.MonsterSelector, cast] ++ (sorceressAttack cenv st tick monster).2)
      else
        (LoopStep.Continue (sorceressAttack cenv st tick monster).1,
          [Action.MonsterSelector] ++ (sorceressAttack cenv st tick monster).2)

/-- One pass of the loop of `LightningSorceress.KillMonsterSequence`. -/
def sorceressBody (env : SafetyEnv) (cenv : CombatEnv)
    (monsterSelector : GameData → Int × Bool) (skipOnImmunities : List String)
    (st : SorceressLoopState) (tick : Tick) :
    LoopStep SorceressLoopState (Option GoError) × List Action :=
  let data := tick.Data
  if isPlayerDead2 data then
    (LoopStep.Return (some GoError.ErrDied),
      [Action.PauseIfNotPriority,
        Action.Log "Player detected as dead during KillMonsterSequence, stopping actions.",
        Action.Sleep 500])
  else
    let needsRepos :=
      (needsRepositioning env.DistanceFromPoint env.dangerDistance data.PlayerPosition
        data.Enemies).1
    let dangerousMonster :=
      (needsRepositioning env.DistanceFromPoint env.dangerDistance data.PlayerPosition
        data.Enemies).2
    if needsRepos = true ∧ tick.Now - st.lastReposition > timeSecond * 1 then
      let st1 := { st with lastReposition := tick.Now }
      let targetID := (monsterSelector data).1
      let found := (monsterSelector data).2
      if !found then
        (LoopStep.Return none, [Action.PauseIfNotPriority, Action.MonsterSelector])
      else
        match FindByID data.Monsters targetID with
        | none =>
          (LoopStep.Return none,
            [Action.PauseIfNotPriority, Action.MonsterSelector,
              Action.Log "Target monster not found for repositioning"])
        | some targetMonster =>
          let line := Action.Log ("Dangerous monster detected at distance "
            ++ fmtInt (env.DistanceFromPoint data.PlayerPosition dangerousMonster.Position)
            ++ ", repositioning...")
          let safePos := (findSafePosition env data.PlayerPosition data.Enemies targetMonster).1
          let foundSafe :=
            (findSafePosition env data.PlayerPosition data.Enemies targetMonster).2
          let move :=
            if foundSafe then Action.MoveTo safePos
            else Action.Log "Could not find safe position for repositioning"
          ((sorceressEngage cenv monsterSelector skipOnImmunities st1 tick).1,
            [Action.PauseIfNotPriority, Action.MonsterSelector, line, move]
              ++ (sorceressEngage cenv monsterSelector skipOnImmunities st1 tick).2)
    else
      ((sorceressEngage cenv monsterSelector skipOnImmunities st tick).1,
        [Action.PauseIfNotPriority]
          ++ (sorceressEngage cenv monsterSelector skipOnImmunities st tick).2)

/-- The method `LightningSorceress.KillMonsterSequence`, entered when the clock reads
`startNow` and run for at most `fuel` passes. -/
def LightningSorceress.KillMonsterSequence (env : SafetyEnv) (cenv : CombatEnv)
    (monsterSelector : GameData → Int × Bool) (skipOnImmunities : List String)
    (startNow : Int) (ticks : Nat → Tick) (fuel : Nat) :
    Option (Option GoError) × List Action :=
  runLoop (sorceressBody env cenv monsterSelector skipOnImmunities) ticks fuel 0
    (SorceressLoopState.start startNow)

/-! ## The boss scripts with a timeout -/

/-- The loop variables of `LightningSorceress.KillDiablo`; `startTime` is a clock reading
in nanoseconds. -/
structure KillDiabloState where
  startTime : Int
  diabloFound : Bool
deriving DecidableEq, Repr

/-- One pass of the loop of `LightningSorceress.KillDiablo`. The call of
`killBossWithStatic` is recorded, and its result is read from the tick. -/
def sorceressKillDiabloBody (cenv : CombatEnv) (st : KillDiabloState) (tick : Tick) :
    LoopStep KillDiabloState (Option GoError) × List Action :=
  if tick.Now - st.startTime > timeSecond * 20 ∧ st.diabloFound = false then
    (LoopStep.Return none, [Action.Log "Diablo was not found, timeout reached"])
  else
    let missing : LoopStep KillDiabloState (Option GoError) × List Action :=
      if st.diabloFound then
        (LoopStep.Return none, [])
      else
        (LoopStep.Continue st, [Action.Sleep 200])
    match FindOne tick.Data.Monsters cenv.npc.Diablo MonsterTypeUnique with
    | none => missing
    | some diablo =>
      if diablo.stat StatID.Life ≤ 0 then
        missing
      else
        (LoopStep.Return tick.KillBossWithStaticErr,
          [Action.Log "Diablo detected, attacking", Action.CallKillBossWithStatic])

/-- The method `LightningSorceress.KillDiablo`, entered when the clock reads `startNow`
and run for at most `fuel` passes. -/
def LightningSorceress.KillDiablo (cenv : CombatEnv) (startNow : Int) (ticks : Nat → Tick)
    (fuel : Nat) : Option (Option GoError) × List Action :=
  runLoop (sorceressKillDiabloBody cenv) ticks fuel 0
    { startTime := startNow, diabloFound := false }

/-- What differs between the six boss methods of `BarbarianLeveling` that wait for the
boss with a timeout: the boss, its name in the logger lines, the text of the error, the
timeout in seconds, the initial `numOfAttacks`, whether the Blessed Hammer branch logs
and calls `RandomMovement`, and whether the pass first walks up to the boss
(`KillIzual`). -/
structure BossScript where
  boss : Int
  name : String
  notFoundError : String
  timeoutSeconds : Int
  numOfAttacks : Int
  randomMovement : Bool
  approach : Bool

/-- One pass of the loop of a boss method of `BarbarianLeveling`, entered when the clock
read `startTime`. The results of the calls of `step.PrimaryAttack` are not read. -/
def barbarianBossBody (cenv : CombatEnv) (script : BossScript) (startTime : Int)
    (tick : Tick) : LoopStep Int (Option GoError) × List Action :=
  let data := tick.Data
  match FindOne data.Monsters script.boss MonsterTypeUnique with
  | none =>
    if tick.Now - startTime > timeSecond * script.timeoutSeconds then
      (LoopStep.Return (some (GoError.New script.notFoundError)),
        [Action.Log (script.name ++ " was not found, timeout reached.")])
    else
      (LoopStep.Continue startTime, [Action.Sleep 500])
  | some boss =>
    let distance := cenv.DistanceFromMe data boss.Position
    if script.approach = true ∧ distance > 7 then
      (LoopStep.Continue startTime,
        [Action.Log ("Izual is too far away (" ++ fmtInt distance ++ "), moving closer."),
          Action.MoveTo boss.Position])
    else if boss.stat StatID.Life ≤ 0 then
      (LoopStep.Return none, [Action.Log (script.name ++ " is dead.")])
    else if data.SkillLevel SkillID.BlessedHammer > 0 then
      (LoopStep.Continue startTime,
        [Action.PrimaryAttack boss.UnitID script.numOfAttacks false
            [AttackOption.Distance 2 7, AttackOption.EnsureAura SkillID.Concentration]]
          ++ (if script.randomMovement then
                [Action.Log "Performing random movement to reposition.", Action.RandomMovement]
              else [])
          ++ [Action.Sleep 250])
    else
      let numOfAttacks := if data.SkillLevel SkillID.Zeal > 0 then 1 else script.numOfAttacks
      (LoopStep.Continue startTime,
        [Action.PrimaryAttack boss.UnitID numOfAttacks false
          [AttackOption.Distance 1 3, AttackOption.EnsureAura SkillID.HolyFire]])

/-- A boss method of `BarbarianLeveling`, entered when the clock reads `startNow` and run
for at most `fuel` passes. -/
def runBossScript (cenv : CombatEnv) (script : BossScript) (startNow : Int)
    (ticks : Nat → Tick) (fuel : Nat) : Option (Option GoError) × List Action :=
  ((runLoop (barbarianBossBody cenv script) ticks fuel 0 startNow).1,
    Action.Log ("Starting " ++ script.name ++ " kill sequence...")
      :: (runLoop (barbarianBossBody cenv script) ticks fuel 0 startNow).2)

/-- The parameters of `BarbarianLeveling.KillAndariel`. -/
def scriptAndariel (npc : NpcIDs) : BossScript :=
  { boss := npc.Andariel, name := "Andariel",
    notFoundError := "Andariel not found within the time limit",
    timeoutSeconds := 160, numOfAttacks := 5, randomMovement := true, approach := false }

/-- The parameters of `BarbarianLeveling.KillDuriel`. -/
def scriptDuriel (npc : NpcIDs) : BossScript :=
  { boss := npc.Duriel, name := "Duriel",
    notFoundError := "Duriel not found within the time limit",
    timeoutSeconds := 120, numOfAttacks := 5, randomMovement := true, approach := false }

/-- The parameters of `BarbarianLeveling.KillMephisto`. -/
def scriptMephisto (npc : NpcIDs) : BossScript :=
  { boss := npc.Mephisto, name := "Mephisto",
    notFoundError := "Mephisto not found within the time limit",
    timeoutSeconds := 160, numOfAttacks := 5, randomMovement := true, approach := false }

/-- The parameters of `BarbarianLeveling.KillIzual`. -/
def scriptIzual (npc : NpcIDs) : BossScript :=
  { boss := npc.Izual, name := "Izual",
    notFoundError := "Izual not found within the time limit",
    timeoutSeconds := 120, numOfAttacks := 5, randomMovement := true, approach := true }

/-- The parameters of `BarbarianLeveling.KillDiablo`. -/
def scriptDiablo (npc : NpcIDs) : BossScript :=
  { boss := npc.Diablo, name := "Diablo",
    notFoundError := "diablo not found within the time limit",
    timeoutSeconds := 120, numOfAttacks := 10, randomMovement := false, approach := false }

/-- The parameters of `BarbarianLeveling.KillBaal`. -/
def scriptBaal (npc : NpcIDs) : BossScript :=
  { boss := npc.BaalCrab, name := "Baal",
    notFoundError := "Baal not found within the time limit",
    timeoutSeconds := 600, numOfAttacks := 5, randomMovement := true, approach := false }

/-- The method `BarbarianLeveling.KillAndariel`. -/
def BarbarianLeveling.KillAndariel (cenv : CombatEnv) (startNow : Int) (ticks : Nat → Tick)
    (fuel : Nat) : Option (Option GoError) × List Action :=
  runBossScript cenv (scriptAndariel cenv.npc) startNow ticks fuel

/-- The method `BarbarianLeveling.KillDuriel`. -/
def BarbarianLeveling.KillDuriel (cenv : CombatEnv) (startNow : Int) (ticks : Nat → Tick)
    (fuel : Nat) : Option (Option GoError) × List Action :=
  runBossScript cenv (scriptDuriel cenv.npc) startNow ticks fuel

/-- The method `BarbarianLeveling.KillMephisto`. -/
def BarbarianLeveling.KillMephisto (cenv : CombatEnv) (startNow : Int) (ticks : Nat → Tick)
    (fuel : Nat) : Option (Option GoError) × List Action :=
  runBossScript cenv (scriptMephisto cenv.npc) startNow ticks fuel

/-- The method `BarbarianLeveling.KillIzual`. -/
def BarbarianLeveling.KillIzual (cenv : CombatEnv) (startNow : Int) (ticks : Nat → Tick)
    (fuel : Nat) : Option (Option GoError) × List Action :=
  runBossScript cenv (scriptIzual cenv.npc) startNow ticks fuel

/-- The method `BarbarianLeveling.KillDiablo`. -/
def BarbarianLeveling.KillDiablo (cenv : CombatEnv) (startNow : Int) (ticks : Nat → Tick)
    (fuel : Nat) : Option (Option GoError) × List Action :=
  runBossScript cenv (scriptDiablo cenv.npc) startNow ticks fuel

/-- The method `BarbarianLeveling.KillBaal`. -/
def BarbarianLeveling.KillBaal (cenv : CombatEnv) (startNow : Int) (ticks : Nat → Tick)
    (fuel : Nat) : Option (Option GoError) × List Action :=
  runBossScript cenv (scriptBaal cenv.npc) startNow ticks fuel

/-! ## Values for examples -/

/-- Values for the `npc.ID` constants, for examples. -/
def exampleNpc : NpcIDs :=
  { FallenShaman := 1, MummyGenerator := 2, BaalSubjectMummy := 3, FetishShaman := 4,
    CarverShaman := 5, Andariel := 6, Duriel := 7, Mephisto := 8, Diablo := 9,
    BaalCrab := 10, Izual := 11 }

/-- An open area for examples: every cell is walkable and seen, distances are
`gridDistance`, the sort is `sortDescending`. -/
def exampleSafetyEnv : SafetyEnv :=
  { DistanceFromPoint := gridDistance, dangerDistance := 4, safeDistance := 6,
    minBlizzSorceressAttackDistance := 8, maxBlizzSorceressAttackDistance := 16,
    IsWalkable := fun _ => true, LineOfSight := fun _ _ => true,
    awayVector := fun vectorX vectorY => (vectorX, vectorY),
    ringVector := fun _ distance => (distance, 0),
    sortSlice := sortDescending }

/-- Collaborators for examples: distances from the player are `gridDistance`, the
pre-battle checks pass when the monster exists. -/
def exampleCombatEnv : CombatEnv :=
  { npc := exampleNpc,
    DistanceFromMe := fun data pos => gridDistance data.PlayerPosition pos,
    preBattleChecks := fun data id _ => (FindByID data.Monsters id).isSome }

/-- A snapshot for examples: the player at (0,0) with the given life percentage, level 1,
no skill, and the given monsters, none of them counted as an enemy near the player. -/
def exampleData (hpPercent : Int) (monsters : List Monster) : GameData :=
  { Monsters := monsters, Enemies := [], PlayerPosition := ⟨0, 0⟩, HPPercent := hpPercent,
    Level := 1, SkillLevel := fun _ => 0 }

/-- A tick for examples: the clock reads `now` and every primitive succeeds. -/
def exampleTick (now : Int) (data : GameData) : Tick :=
  { Data := data, Now := now, AttackErr := none, StaticFieldErr := none,
    KillBossWithStaticErr := none }

/-! ## Definitions used in the proofs about the loops -/

/-- The test of the inner loop of the priority scan: the monster is of the kind
`monsterNpcID`, alive, and within `priorityMonsterSearchRange` of the player. -/
def inPriorityRange (cenv : CombatEnv) (data : GameData) (monsterNpcID : Int)
    (m : Monster) : Bool :=
  decide (m.Name = monsterNpcID ∧ m.stat StatID.Life > 0)
    && decide (cenv.DistanceFromMe data m.Position < priorityMonsterSearchRange)

/-- What the priority scan has established when the monsters `seen` have passed its
test: nothing is recorded and none has, or the recorded monster is one of them, at the
recorded distance, and none of them is nearer. -/
def scanGood (cenv : CombatEnv) (data : GameData) (acc : Int × Monster)
    (seen : List Monster) : Prop :=
  (acc.1 = -1 ∧ seen = [])
    ∨ (acc.2 ∈ seen ∧ acc.1 = cenv.DistanceFromMe data acc.2.Position
        ∧ ∀ m ∈ seen, acc.1 ≤ cenv.DistanceFromMe data m.Position)

/-! ## Definitions used in the proofs about Static Field -/

/-- Whether the call is a cast of Static Field: `step.SecondaryAttack` with
`skill.StaticField`. -/
def Action.isStaticField : Action → Bool
  | Action.SecondaryAttack SkillID.StaticField _ _ _ => true
  | _ => false

/-- The number of casts of Static Field among the calls. -/
def staticFieldCount (calls : List Action) : Nat :=
  (calls.filter Action.isStaticField).length

/-- The successful casts of Static Field in a pass that made `calls` and read `tick`:
the casts among the calls when the cast primitive succeeds, none when it fails. -/
def successfulCasts (calls : List Action) (tick : Tick) : Nat :=
  if tick.StaticFieldErr = none then staticFieldCount calls else 0

/-- The completed main attacks in a pass that made `calls` and read `tick`: the attack
calls that are not casts of Static Field when the attack primitive succeeds, none when
it fails. -/
def completedAttacks (calls : List Action) (tick : Tick) : Nat :=
  if tick.AttackErr = none then attackCount calls - staticFieldCount calls else 0

/-- The tally of a run of `LightningSorceress.KillMonsterSequence` over at most `fuel`
passes, from pass `i` entered with the loop variables `st`: the number of successful
casts of Static Field and the number of completed main attacks. -/
def sorceressTally (env : SafetyEnv) (cenv : CombatEnv)
    (monsterSelector : GameData → Int × Bool) (skipOnImmunities : List String)
    (ticks : Nat → Tick) : Nat → Nat → SorceressLoopState → Nat × Nat
  | 0, _, _ => (0, 0)
  | fuel + 1, i, st =>
    match sorceressBody env cenv monsterSelector skipOnImmunities st (ticks i) with
    | (LoopStep.Return _, calls) =>
      (successfulCasts calls (ticks i), completedAttacks calls (ticks i))
    | (LoopStep.Continue st', calls) =>
      (successfulCasts calls (ticks i)
          + (sorceressTally env cenv monsterSelector skipOnImmunities ticks fuel (i + 1) st').1,
        completedAttacks calls (ticks i)
          + (sorceressTally env cenv monsterSelector skipOnImmunities ticks fuel (i + 1) st').2)

/-- A monster for examples: identifier 8, at (3,0), with full life 100 of 100. -/
def exampleFullLifeMonster : Monster :=
  ⟨8, 50, "", ⟨3, 0⟩, [(StatID.Life, 100), (StatID.MaxLife, 100)]⟩

/-- A tick for examples: the player alive, the monster of `exampleFullLifeMonster` the
only one, every primitive successful. -/
def exampleFullLifeTick : Tick := exampleTick 0 (exampleData 100 [exampleFullLifeMonster])

/-! ## Values for the example of one helmet -/

/-- Four items for examples, none of them a helmet: a polearm for the merc weapon
requirement, two armors for the two armor requirements, and a sword for the player
weapon requirement. -/
def exampleOtherItems : List Item :=
  [⟨2, "B", "polearm", [⟨StatID.FasterCastRate, 0, 35⟩, ⟨StatID.MinDamage, 0, 9⟩]⟩,
    ⟨3, "C", "armor", [⟨StatID.FireResist, 0, 50⟩, ⟨StatID.Energy, 0, 10⟩]⟩,
    ⟨4, "D", "armor", [⟨StatID.FireResist, 0, 50⟩, ⟨StatID.Energy, 0, 10⟩]⟩,
    ⟨5, "E", "sword", [⟨StatID.AllSkills, 0, 2⟩, ⟨StatID.FasterCastRate, 0, 30⟩]⟩]


/-! ## Theorems -/

/-! ## Lemmas on Go maps -/

namespace GoMap

variable {V : Type}

theorem findEntries_setEntries (k k' : String) (v : V) (l : List (String × V)) :
    findEntries k' (setEntries k v l) = if k' = k then some v else findEntries k' l := by
  induction l with
  | nil =>
    by_cases h : k' = k
    · simp [setEntries, findEntries, h]
    · have h' : ¬ k = k' := fun e => h e.symm
      simp [setEntries, findEntries, h, h']
  | cons e rest ih =>
    obtain ⟨k0, v0⟩ := e
    by_cases h0 : k0 = k
    · by_cases h : k' = k
      · simp [setEntries, findEntries, h0, h]
      · have h' : ¬ k = k' := fun e => h e.symm
        simp [setEntries, findEntries, h0, h, h']
    · by_cases h : k' = k
      · subst h
        simp only [if_true] at ih
        simp [setEntries, findEntries, h0, ih]
      · simp [setEntries, findEntries, h0, h, ih]

theorem find?_set (m : GoMap V) (k k' : String) (v : V) :
    (m.set k v).find? k' = if k' = k then some v else m.find? k' := by
  simp [find?, set, findEntries_setEntries]

theorem get_set (m : GoMap V) (k k' : String) (v zero : V) :
    (m.set k v).get k' zero = if k' = k then v else m.get k' zero := by
  by_cases h : k' = k <;> simp [get, find?_set, h]

theorem keys_setEntries_of_mem (k : String) (v : V) (l : List (String × V))
    (h : k ∈ l.map Prod.fst) : (setEntries k v l).map Prod.fst = l.map Prod.fst := by
  induction l with
  | nil => simp at h
  | cons e rest ih =>
    obtain ⟨k0, v0⟩ := e
    by_cases h0 : k0 = k
    · simp [setEntries, h0]
    · have hk : k ∈ rest.map Prod.fst := by
        simp only [List.map_cons, List.mem_cons] at h
        rcases h with h | h
        · exact absurd h.symm h0
        · exact h
      simp [setEntries, h0, ih hk]

theorem keys_set_of_mem (m : GoMap V) (k : String) (v : V) (h : k ∈ m.keys) :
    (m.set k v).keys = m.keys := by
  simpa [keys, set] using keys_setEntries_of_mem k v m.entries h

theorem findEntries_isSome_iff (k : String) (l : List (String × V)) :
    (findEntries k l).isSome = true ↔ k ∈ l.map Prod.fst := by
  induction l with
  | nil => simp [findEntries]
  | cons e rest ih =>
    obtain ⟨k0, v0⟩ := e
    by_cases h0 : k0 = k
    · simp [findEntries, h0]
    · have h0' : ¬ k = k0 := fun e => h0 e.symm
      simp [findEntries, h0, h0', ih]

theorem find?_isSome_iff (m : GoMap V) (k : String) :
    (m.find? k).isSome = true ↔ k ∈ m.keys := findEntries_isSome_iff k m.entries

end GoMap

/-! ## One requirement against one item -/

theorem checkRequirement_results (itm : Item) (st : CheckState) (req : statRequirement) :
    (checkRequirement itm st req).results =
      if records itm st req then st.results.set req.Name true else st.results := by
  by_cases hres : st.results.get req.Name false = true
  · have hrec : ¬ records itm st req := fun h => by
      have h1 := h.1
      rw [hres] at h1
      exact Bool.noConfusion h1
    rw [if_neg hrec]
    simp only [checkRequirement, if_pos hres]
  · by_cases hskip : armorSkip itm st req.Name
    · have hrec : ¬ records itm st req := fun h => h.2.1 hskip
      rw [if_neg hrec]
      unfold armorSkip at hskip
      simp only [checkRequirement, if_neg hres, if_pos hskip]
    · by_cases hc : (req.Check itm).1 = true
      · have hrec : records itm st req := ⟨Bool.eq_false_iff.mpr hres, hskip, hc⟩
        rw [if_pos hrec]
        unfold armorSkip at hskip
        simp only [checkRequirement, if_neg hres, if_neg hskip, if_pos hc]
      · have hrec : ¬ records itm st req := fun h => hc h.2.2
        rw [if_neg hrec]
        unfold armorSkip at hskip
        simp only [checkRequirement, if_neg hres, if_neg hskip, if_neg hc]

theorem checkRequirement_usedUnitIDs (itm : Item) (st : CheckState) (req : statRequirement) :
    (checkRequirement itm st req).usedUnitIDs =
      if records itm st req then st.usedUnitIDs.set req.Name itm.UnitID
      else st.usedUnitIDs := by
  by_cases hres : st.results.get req.Name false = true
  · have hrec : ¬ records itm st req := fun h => by
      have h1 := h.1
      rw [hres] at h1
      exact Bool.noConfusion h1
    rw [if_neg hrec]
    simp only [checkRequirement, if_pos hres]
  · by_cases hskip : armorSkip itm st req.Name
    · have hrec : ¬ records itm st req := fun h => h.2.1 hskip
      rw [if_neg hrec]
      unfold armorSkip at hskip
      simp only [checkRequirement, if_neg hres, if_pos hskip]
    · by_cases hc : (req.Check itm).1 = true
      · have hrec : records itm st req := ⟨Bool.eq_false_iff.mpr hres, hskip, hc⟩
        rw [if_pos hrec]
        unfold armorSkip at hskip
        simp only [checkRequirement, if_neg hres, if_neg hskip, if_pos hc]
      · have hrec : ¬ records itm st req := fun h => hc h.2.2
        rw [if_neg hrec]
        unfold armorSkip at hskip
        simp only [checkRequirement, if_neg hres, if_neg hskip, if_neg hc]

theorem checkRequirement_frame (itm : Item) (st : CheckState) (req : statRequirement)
    (k : String) (h : req.Name ≠ k) :
    (checkRequirement itm st req).results.find? k = st.results.find? k
      ∧ (checkRequirement itm st req).usedUnitIDs.find? k = st.usedUnitIDs.find? k := by
  have h' : ¬ k = req.Name := fun e => h e.symm
  rw [checkRequirement_results, checkRequirement_usedUnitIDs]
  by_cases hrec : records itm st req
  · simp only [if_pos hrec, GoMap.find?_set, if_neg h', and_self]
  · simp only [if_neg hrec, and_self]

theorem foldl_checkRequirement_frame (itm : Item) (k : String) (reqs : List statRequirement)
    (h : ∀ r ∈ reqs, r.Name ≠ k) (st : CheckState) :
    (reqs.foldl (checkRequirement itm) st).results.find? k = st.results.find? k
      ∧ (reqs.foldl (checkRequirement itm) st).usedUnitIDs.find? k
          = st.usedUnitIDs.find? k := by
  induction reqs generalizing st with
  | nil => exact ⟨rfl, rfl⟩
  | cons r rest ih =>
    have hr := checkRequirement_frame itm st r k (h r (List.mem_cons_self r rest))
    have hrest := ih (fun x hx => h x (List.mem_cons_of_mem r hx)) (checkRequirement itm st r)
    simp only [List.foldl_cons]
    exact ⟨hrest.1.trans hr.1, hrest.2.trans hr.2⟩

theorem foldl_checkRequirement_at (itm : Item) (pre post : List statRequirement)
    (r : statRequirement) (hpost : ∀ x ∈ post, x.Name ≠ r.Name) (st : CheckState) :
    ((pre ++ r :: post).foldl (checkRequirement itm) st).results.find? r.Name
        = (if records itm (pre.foldl (checkRequirement itm) st) r then some true
           else (pre.foldl (checkRequirement itm) st).results.find? r.Name)
      ∧ ((pre ++ r :: post).foldl (checkRequirement itm) st).usedUnitIDs.find? r.Name
        = (if records itm (pre.foldl (checkRequirement itm) st) r then some itm.UnitID
           else (pre.foldl (checkRequirement itm) st).usedUnitIDs.find? r.Name) := by
  have hf := foldl_checkRequirement_frame itm r.Name post hpost
    (checkRequirement itm (pre.foldl (checkRequirement itm) st) r)
  simp only [List.foldl_append, List.foldl_cons]
  rw [hf.1, hf.2, checkRequirement_results, checkRequirement_usedUnitIDs]
  by_cases hrec : records itm (pre.foldl (checkRequirement itm) st) r
  · simp only [if_pos hrec, GoMap.find?_set, if_true, and_self]
  · simp only [if_neg hrec, and_self]

/-! ## One item against all requirements -/

theorem checkItem_zero (st : CheckState) (itm : Item) (h : itm.UnitID = 0) :
    (checkItem st itm).results = st.results
      ∧ (checkItem st itm).usedUnitIDs = st.usedUnitIDs := by
  simp only [checkItem, if_pos h, and_self]

theorem checkItem_frame (st : CheckState) (itm : Item) (k : String)
    (h : k ∉ requirementNames) :
    (checkItem st itm).results.find? k = st.results.find? k
      ∧ (checkItem st itm).usedUnitIDs.find? k = st.usedUnitIDs.find? k := by
  by_cases hid : itm.UnitID = 0
  · rw [(checkItem_zero st itm hid).1, (checkItem_zero st itm hid).2]
    exact ⟨rfl, rfl⟩
  · have hk : ∀ r ∈ requiredChecks, r.Name ≠ k := by
      intro r hr e
      exact h (e ▸ List.mem_map_of_mem (fun req => req.Name) hr)
    simp only [checkItem, if_neg hid]
    exact foldl_checkRequirement_frame itm k requiredChecks hk _

theorem checkItem_at (st : CheckState) (itm : Item) (hid : itm.UnitID ≠ 0)
    (pre post : List statRequirement) (r : statRequirement)
    (hsplit : requiredChecks = pre ++ r :: post)
    (hpre : ∀ x ∈ pre, x.Name ≠ r.Name) (hpost : ∀ x ∈ post, x.Name ≠ r.Name) :
    ∃ mid : CheckState,
      (∀ k, (∀ x ∈ pre, x.Name ≠ k) →
        mid.results.find? k = st.results.find? k
          ∧ mid.usedUnitIDs.find? k = st.usedUnitIDs.find? k)
      ∧ (∀ k, (∀ x ∈ r :: post, x.Name ≠ k) →
        (checkItem st itm).results.find? k = mid.results.find? k
          ∧ (checkItem st itm).usedUnitIDs.find? k = mid.usedUnitIDs.find? k)
      ∧ (checkItem st itm).results.find? r.Name
          = (if st.results.get r.Name false = false ∧ ¬ armorSkip itm mid r.Name
                ∧ (r.Check itm).1 = true
             then some true else st.results.find? r.Name)
      ∧ (checkItem st itm).usedUnitIDs.find? r.Name
          = (if st.results.get r.Name false = false ∧ ¬ armorSkip itm mid r.Name
                ∧ (r.Check itm).1 = true
             then some itm.UnitID else st.usedUnitIDs.find? r.Name) := by
  refine ⟨pre.foldl (checkRequirement itm)
    { st with LoggerDebug := st.LoggerDebug ++
      ["--- Checking Item: " ++ itm.IdentifiedName ++ " (UnitID: " ++ fmtInt itm.UnitID
        ++ ", Type: " ++ itm.Code ++ ") ---"] }, ?_, ?_, ?_⟩
  · intro k hk
    exact foldl_checkRequirement_frame itm k pre hk _
  · intro k hk
    simp only [checkItem, if_neg hid, hsplit, List.foldl_append]
    exact foldl_checkRequirement_frame itm k (r :: post) hk _
  · have hat := foldl_checkRequirement_at itm pre post r hpost
      { st with LoggerDebug := st.LoggerDebug ++
        ["--- Checking Item: " ++ itm.IdentifiedName ++ " (UnitID: " ++ fmtInt itm.UnitID
          ++ ", Type: " ++ itm.Code ++ ") ---"] }
    have hfr := foldl_checkRequirement_frame itm r.Name pre hpre
      { st with LoggerDebug := st.LoggerDebug ++
        ["--- Checking Item: " ++ itm.IdentifiedName ++ " (UnitID: " ++ fmtInt itm.UnitID
          ++ ", Type: " ++ itm.Code ++ ") ---"] }
    simp only [checkItem, if_neg hid, hsplit]
    rw [hat.1, hat.2, hfr.1, hfr.2]
    simp only [records, GoMap.get, hfr.1, and_self]

theorem GoMap.get_congr {V : Type} {m m' : GoMap V} {k : String} (zero : V)
    (h : m.find? k = m'.find? k) : m.get k zero = m'.get k zero := by
  simp only [GoMap.get, h]

/-- A requirement outside the armor pair records the first item that passes its check. -/
theorem checkItem_plain (st : CheckState) (itm : Item) (hid : itm.UnitID ≠ 0)
    (r : statRequirement) (hr : r ∈ requiredChecks)
    (hM : r.Name ≠ "MercArmor_FireRes_Energy_Found")
    (hP : r.Name ≠ "PlayerArmor_FireRes_Energy_Found") :
    (checkItem st itm).results.find? r.Name
        = (if st.results.get r.Name false = false ∧ (r.Check itm).1 = true
           then some true else st.results.find? r.Name)
      ∧ (checkItem st itm).usedUnitIDs.find? r.Name
        = (if st.results.get r.Name false = false ∧ (r.Check itm).1 = true
           then some itm.UnitID else st.usedUnitIDs.find? r.Name) := by
  have key : ∀ (pre post : List statRequirement), requiredChecks = pre ++ r :: post →
      (∀ x ∈ pre, x.Name ≠ r.Name) → (∀ x ∈ post, x.Name ≠ r.Name) →
      (checkItem st itm).results.find? r.Name
        = (if st.results.get r.Name false = false ∧ (r.Check itm).1 = true
           then some true else st.results.find? r.Name)
      ∧ (checkItem st itm).usedUnitIDs.find? r.Name
        = (if st.results.get r.Name false = false ∧ (r.Check itm).1 = true
           then some itm.UnitID else st.usedUnitIDs.find? r.Name) := by
    intro pre post hsplit hpre hpost
    obtain ⟨mid, -, -, h3, h4⟩ := checkItem_at st itm hid pre post r hsplit hpre hpost
    have hskip : ¬ armorSkip itm mid r.Name := fun h => h.1.elim hM hP
    rw [h3, h4]
    simp only [hskip, not_false_eq_true, true_and, and_self]
  simp only [requiredChecks, List.mem_cons, List.mem_singleton, List.not_mem_nil,
    or_false] at hr
  rcases hr with rfl | rfl | rfl | rfl | rfl | rfl
  · exact key [] _ rfl (by simp) (by simp)
  · exact key [_] _ rfl (by simp) (by simp)
  · exact absurd rfl hM
  · exact absurd rfl hP
  · exact key [_, _, _, _] _ rfl (by simp) (by simp)
  · exact key [_, _, _, _, _] _ rfl (by simp) (by simp)

/-- The merc armor requirement is checked before the player armor requirement, so its
guard reads the player armor entry as it was before this item. -/
theorem checkItem_mercArmor (st : CheckState) (itm : Item) (hid : itm.UnitID ≠ 0) :
    (checkItem st itm).results.find? "MercArmor_FireRes_Energy_Found"
        = (if st.results.get "MercArmor_FireRes_Energy_Found" false = false
              ∧ ¬ (st.results.get "PlayerArmor_FireRes_Energy_Found" false = true
                  ∧ st.usedUnitIDs.get "PlayerArmor_FireRes_Energy_Found" 0 = itm.UnitID)
              ∧ (checkMercArmor itm).1 = true
           then some true else st.results.find? "MercArmor_FireRes_Energy_Found")
      ∧ (checkItem st itm).usedUnitIDs.find? "MercArmor_FireRes_Energy_Found"
        = (if st.results.get "MercArmor_FireRes_Energy_Found" false = false
              ∧ ¬ (st.results.get "PlayerArmor_FireRes_Energy_Found" false = true
                  ∧ st.usedUnitIDs.get "PlayerArmor_FireRes_Energy_Found" 0 = itm.UnitID)
              ∧ (checkMercArmor itm).1 = true
           then some itm.UnitID
           else st.usedUnitIDs.find? "MercArmor_FireRes_Energy_Found") := by
  obtain ⟨mid, h1, -, h3, h4⟩ := checkItem_at st itm hid
    [⟨"MercHelm_Lifesteal_Found", checkMercHelm⟩, ⟨"MercWeapon_FCR_MinDmg_Found", checkMercWeapon⟩]
    [⟨"PlayerArmor_FireRes_Energy_Found", checkPlayerArmor⟩,
      ⟨"PlayerWeapon_Skills_FCR_Found", checkPlayerWeapon⟩,
      ⟨"PlayerHelm_Skill_LightRes_Found", checkPlayerHelm⟩]
    ⟨"MercArmor_FireRes_Energy_Found", checkMercArmor⟩ rfl (by simp) (by simp)
  have hp := h1 "PlayerArmor_FireRes_Energy_Found" (by simp)
  have hskip : armorSkip itm mid "MercArmor_FireRes_Energy_Found"
      ↔ (st.results.get "PlayerArmor_FireRes_Energy_Found" false = true
          ∧ st.usedUnitIDs.get "PlayerArmor_FireRes_Energy_Found" 0 = itm.UnitID) := by
    simp only [armorSkip, if_true, true_or, true_and, GoMap.get, hp.1, hp.2]
  simp only [hskip] at h3 h4
  exact ⟨h3, h4⟩

/-- The player armor requirement is checked after the merc armor requirement, so its
guard reads the merc armor entry as this item leaves it. -/
theorem checkItem_playerArmor (st : CheckState) (itm : Item) (hid : itm.UnitID ≠ 0) :
    (checkItem st itm).results.find? "PlayerArmor_FireRes_Energy_Found"
        = (if st.results.get "PlayerArmor_FireRes_Energy_Found" false = false
              ∧ ¬ ((checkItem st itm).results.get "MercArmor_FireRes_Energy_Found" false = true
                  ∧ (checkItem st itm).usedUnitIDs.get "MercArmor_FireRes_Energy_Found" 0
                      = itm.UnitID)
              ∧ (checkPlayerArmor itm).1 = true
           then some true else st.results.find? "PlayerArmor_FireRes_Energy_Found")
      ∧ (checkItem st itm).usedUnitIDs.find? "PlayerArmor_FireRes_Energy_Found"
        = (if st.results.get "PlayerArmor_FireRes_Energy_Found" false = false
              ∧ ¬ ((checkItem st itm).results.get "MercArmor_FireRes_Energy_Found" false = true
                  ∧ (checkItem st itm).usedUnitIDs.get "MercArmor_FireRes_Energy_Found" 0
                      = itm.UnitID)
              ∧ (checkPlayerArmor itm).1 = true
           then some itm.UnitID
           else st.usedUnitIDs.find? "PlayerArmor_FireRes_Energy_Found") := by
  obtain ⟨mid, -, h2, h3, h4⟩ := checkItem_at st itm hid
    [⟨"MercHelm_Lifesteal_Found", checkMercHelm⟩, ⟨"MercWeapon_FCR_MinDmg_Found", checkMercWeapon⟩,
      ⟨"MercArmor_FireRes_Energy_Found", checkMercArmor⟩]
    [⟨"PlayerWeapon_Skills_FCR_Found", checkPlayerWeapon⟩,
      ⟨"PlayerHelm_Skill_LightRes_Found", checkPlayerHelm⟩]
    ⟨"PlayerArmor_FireRes_Energy_Found", checkPlayerArmor⟩ rfl (by simp) (by simp)
  have hm := h2 "MercArmor_FireRes_Energy_Found" (by simp)
  have hskip : armorSkip itm mid "PlayerArmor_FireRes_Energy_Found"
      ↔ ((checkItem st itm).results.get "MercArmor_FireRes_Energy_Found" false = true
          ∧ (checkItem st itm).usedUnitIDs.get "MercArmor_FireRes_Energy_Found" 0
              = itm.UnitID) := by
    simp [armorSkip, GoMap.get, hm.1, hm.2]
  simp only [hskip] at h3 h4
  exact ⟨h3, h4⟩

theorem checkMercArmor_eq_checkPlayerArmor (itm : Item) :
    checkMercArmor itm = checkPlayerArmor itm := rfl

/-! ## The scan over the items -/

theorem find?_append_singleton {α : Type} (p : α → Bool) (l : List α) (a : α) :
    (l ++ [a]).find? p = (l.find? p).or (if p a then some a else none) := by
  rw [List.find?_append, List.find?_singleton]

theorem get_of_find? (m : GoMap Bool) (k : String) (o : Option Int)
    (h : m.find? k = some o.isSome) : m.get k false = o.isSome := by
  simp only [GoMap.get, h, Option.getD_some]

theorem step_plain (st : CheckState) (seen : List Item) (itm : Item)
    (r : statRequirement) (hr : r ∈ requiredChecks)
    (hM : r.Name ≠ "MercArmor_FireRes_Energy_Found")
    (hP : r.Name ≠ "PlayerArmor_FireRes_Energy_Found")
    (hsat : st.results.find? r.Name = some (st.usedUnitIDs.find? r.Name).isSome)
    (hfirst : st.usedUnitIDs.find? r.Name
      = (seen.find? (passes r)).map (fun i => i.UnitID)) :
    (checkItem st itm).results.find? r.Name
        = some ((checkItem st itm).usedUnitIDs.find? r.Name).isSome
      ∧ (checkItem st itm).usedUnitIDs.find? r.Name
        = ((seen ++ [itm]).find? (passes r)).map (fun i => i.UnitID) := by
  have hget := get_of_find? _ _ _ hsat
  rw [find?_append_singleton]
  by_cases hid : itm.UnitID = 0
  · rw [(checkItem_zero st itm hid).1, (checkItem_zero st itm hid).2]
    have hp : passes r itm = false := by simp [passes, hid]
    refine ⟨hsat, ?_⟩
    rw [hfirst, hp]
    simp
  · obtain ⟨h1, h2⟩ := checkItem_plain st itm hid r hr hM hP
    rw [h1, h2, hget]
    have hp : passes r itm = (r.Check itm).1 := by simp [passes, hid]
    rw [hp]
    cases hs : seen.find? (passes r) with
    | some x =>
      rw [hs] at hfirst
      simp [hfirst, hsat]
    | none =>
      rw [hs] at hfirst
      simp only [Option.map_none'] at hfirst
      cases hc : (r.Check itm).1 <;> simp [hfirst, hsat, hc]

/-- The step of the armor pair on the recorded identifiers alone: `M`, `P` are the
entries of the merc and player armor before the item, `M'`, `P'` after it. -/
theorem armor_step_ids (seen : List Item) (itm : Item) (arm : Item → Bool) (a : Bool)
    (ha : arm itm = a) (M P M' P' : Option Int)
    (firstM : M = (seen.find? arm).map (fun i => i.UnitID))
    (firstP : P = (seen.find? (fun i => arm i && decide (some i.UnitID ≠ M))).map
      (fun i => i.UnitID))
    (hM' : M' = if M.isSome = false ∧ ¬ (P.isSome = true ∧ P.getD 0 = itm.UnitID) ∧ a = true
      then some itm.UnitID else M)
    (hP' : P' = if P.isSome = false ∧ ¬ (M'.isSome = true ∧ M'.getD 0 = itm.UnitID) ∧ a = true
      then some itm.UnitID else P) :
    M' = ((seen ++ [itm]).find? arm).map (fun i => i.UnitID)
      ∧ P' = ((seen ++ [itm]).find? (fun i => arm i && decide (some i.UnitID ≠ M'))).map
          (fun i => i.UnitID) := by
  rw [find?_append_singleton, find?_append_singleton, ha]
  cases hs : seen.find? arm with
  | some x =>
    rw [hs] at firstM
    simp only [Option.map_some'] at firstM
    subst firstM
    simp only [Option.isSome_some, Bool.true_eq_false, false_and, if_false] at hM'
    subst hM'
    simp only [Option.isSome_some, Option.getD_some, true_and] at hP'
    refine ⟨by simp, ?_⟩
    cases hq : seen.find? (fun i => arm i && decide (some i.UnitID ≠ some x.UnitID)) with
    | some y =>
      rw [hq] at firstP
      simp only [Option.map_some'] at firstP
      subst firstP
      simp at hP'
      simp [hP']
    | none =>
      rw [hq] at firstP
      simp only [Option.map_none'] at firstP
      subst firstP
      subst hP'
      by_cases hx : x.UnitID = itm.UnitID
      · cases a <;> simp [hx]
      · have hx' : ¬ itm.UnitID = x.UnitID := fun e => hx e.symm
        cases a <;> simp [hx, hx']
  | none =>
    rw [hs] at firstM
    simp only [Option.map_none'] at firstM
    subst firstM
    have hall : ∀ x ∈ seen, arm x = false := by
      intro x hx
      have := List.find?_eq_none.mp hs x hx
      simpa using this
    have hq : ∀ o : Option Int,
        seen.find? (fun i => arm i && decide (some i.UnitID ≠ o)) = none := by
      intro o
      apply List.find?_eq_none.mpr
      intro x hx
      simp [hall x hx]
    rw [hq] at firstP
    simp only [Option.map_none'] at firstP
    subst firstP
    rw [hq]
    cases a
    · simp at hM'
      subst hM'
      simp at hP'
      simp [hP']
    · simp at hM'
      subst hM'
      simp at hP'
      simp [hP']

theorem step_armor (st : CheckState) (seen : List Item) (itm : Item)
    (inv : ArmorInv st seen) : ArmorInv (checkItem st itm) (seen ++ [itm]) := by
  obtain ⟨satM, satP, firstM, firstP⟩ := inv
  have hgM := get_of_find? _ _ _ satM
  have hgP := get_of_find? _ _ _ satP
  by_cases hid : itm.UnitID = 0
  · have hp : passes ⟨"MercArmor_FireRes_Energy_Found", checkMercArmor⟩ itm = false := by
      simp [passes, hid]
    have hp' : passes ⟨"PlayerArmor_FireRes_Energy_Found", checkPlayerArmor⟩ itm = false := by
      simp [passes, hid]
    constructor
    · rw [(checkItem_zero st itm hid).1, (checkItem_zero st itm hid).2]; exact satM
    · rw [(checkItem_zero st itm hid).1, (checkItem_zero st itm hid).2]; exact satP
    · rw [(checkItem_zero st itm hid).2, find?_append_singleton, hp, firstM]; simp
    · rw [(checkItem_zero st itm hid).2, find?_append_singleton, hp', firstP]; simp
  · obtain ⟨m1, m2⟩ := checkItem_mercArmor st itm hid
    obtain ⟨p1, p2⟩ := checkItem_playerArmor st itm hid
    have hpM : passes ⟨"MercArmor_FireRes_Energy_Found", checkMercArmor⟩ itm
        = (checkMercArmor itm).1 := by simp [passes, hid]
    have hpP : passes ⟨"PlayerArmor_FireRes_Energy_Found", checkPlayerArmor⟩ itm
        = (checkMercArmor itm).1 := by simp [passes, hid, checkMercArmor_eq_checkPlayerArmor]
    simp only [← checkMercArmor_eq_checkPlayerArmor, GoMap.get, satM, satP,
      Option.getD_some] at m1 m2 p1 p2
    have satM' : (checkItem st itm).results.find? "MercArmor_FireRes_Energy_Found"
        = some ((checkItem st itm).usedUnitIDs.find? "MercArmor_FireRes_Energy_Found").isSome := by
      rw [m1, m2]
      split_ifs with hc
      · rfl
      · rfl
    simp only [satM', Option.getD_some] at p1 p2
    have satP' : (checkItem st itm).results.find? "PlayerArmor_FireRes_Energy_Found"
        = some ((checkItem st itm).usedUnitIDs.find? "PlayerArmor_FireRes_Energy_Found").isSome := by
      rw [p1, p2]
      split_ifs with hc
      · rfl
      · rfl
    have hab := armor_step_ids seen itm
      (passes ⟨"MercArmor_FireRes_Energy_Found", checkMercArmor⟩) (checkMercArmor itm).1 hpM
      _ _ _ _ firstM firstP m2 p2
    exact ⟨satM', satP', hab.1, hab.2⟩

theorem checkRequirement_keys (itm : Item) (st : CheckState) (req : statRequirement)
    (h : req.Name ∈ st.results.keys) :
    (checkRequirement itm st req).results.keys = st.results.keys := by
  rw [checkRequirement_results]
  split_ifs with hrec
  · exact GoMap.keys_set_of_mem _ _ _ h
  · rfl

theorem foldl_checkRequirement_keys (itm : Item) (reqs : List statRequirement)
    (st : CheckState) (h : ∀ r ∈ reqs, r.Name ∈ st.results.keys) :
    (reqs.foldl (checkRequirement itm) st).results.keys = st.results.keys := by
  induction reqs generalizing st with
  | nil => rfl
  | cons r rest ih =>
    have hr := checkRequirement_keys itm st r (h r (List.mem_cons_self r rest))
    simp only [List.foldl_cons]
    rw [ih (checkRequirement itm st r) (fun x hx => hr ▸ h x (List.mem_cons_of_mem r hx)), hr]

theorem checkItem_keys (st : CheckState) (itm : Item)
    (h : st.results.keys = requirementNames) :
    (checkItem st itm).results.keys = requirementNames := by
  by_cases hid : itm.UnitID = 0
  · rw [(checkItem_zero st itm hid).1]; exact h
  · simp only [checkItem, if_neg hid]
    rw [foldl_checkRequirement_keys, h]
    intro r hr
    show r.Name ∈ st.results.keys
    rw [h]
    exact List.mem_map_of_mem (fun req => req.Name) hr

theorem ScanInv.armor {st : CheckState} {seen : List Item} (inv : ScanInv st seen) :
    ArmorInv st seen :=
  ⟨inv.sat ⟨"MercArmor_FireRes_Energy_Found", checkMercArmor⟩ (by simp [requiredChecks]),
   inv.sat ⟨"PlayerArmor_FireRes_Energy_Found", checkPlayerArmor⟩ (by simp [requiredChecks]),
   inv.first ⟨"MercArmor_FireRes_Energy_Found", checkMercArmor⟩ (by simp [requiredChecks])
     (by simp),
   inv.player⟩

theorem ScanInv.step {st : CheckState} {seen : List Item} (inv : ScanInv st seen)
    (itm : Item) : ScanInv (checkItem st itm) (seen ++ [itm]) := by
  have harm := step_armor st seen itm inv.armor
  refine ⟨checkItem_keys st itm inv.keys, ?_, ?_, harm.firstP, ?_⟩
  · intro r hr
    by_cases hM : r.Name = "MercArmor_FireRes_Energy_Found"
    · rw [hM]; exact harm.satM
    · by_cases hP : r.Name = "PlayerArmor_FireRes_Energy_Found"
      · rw [hP]; exact harm.satP
      · exact (step_plain st seen itm r hr hM hP (inv.sat r hr) (inv.first r hr hP)).1
  · intro r hr hP
    by_cases hM : r.Name = "MercArmor_FireRes_Energy_Found"
    · have hr' : r = ⟨"MercArmor_FireRes_Energy_Found", checkMercArmor⟩ := by
        simp only [requiredChecks, List.mem_cons, List.mem_singleton, List.not_mem_nil,
          or_false] at hr
        rcases hr with rfl | rfl | rfl | rfl | rfl | rfl <;> first | rfl | simp at hM
      rw [hr']; exact harm.firstM
    · exact (step_plain st seen itm r hr hM hP (inv.sat r hr) (inv.first r hr hP)).2
  · intro k hk
    rw [(checkItem_frame st itm k hk).2]
    exact inv.others k hk

theorem ScanInv.foldl (items : List Item) {st : CheckState} {seen : List Item}
    (inv : ScanInv st seen) : ScanInv (items.foldl checkItem st) (seen ++ items) := by
  induction items generalizing st seen with
  | nil => simpa using inv
  | cons itm rest ih =>
    have h := ih (inv.step itm)
    simpa using h

theorem ScanInv.start (log : List String) : ScanInv (scanStart log) [] := by
  refine ⟨rfl, ?_, ?_, rfl, ?_⟩
  · intro r hr
    simp only [requiredChecks, List.mem_cons, List.mem_singleton, List.not_mem_nil,
      or_false] at hr
    rcases hr with rfl | rfl | rfl | rfl | rfl | rfl <;> rfl
  · intro r _ _
    rfl
  · intro k _
    rfl

/-! ## The maps do not depend on the logger -/

theorem records_congr (itm : Item) (req : statRequirement) {a b : CheckState}
    (h : sameMaps a b) : records itm a req ↔ records itm b req := by
  simp only [records, armorSkip, h.1, h.2]

theorem checkRequirement_congr (itm : Item) (req : statRequirement) {a b : CheckState}
    (h : sameMaps a b) : sameMaps (checkRequirement itm a req) (checkRequirement itm b req) := by
  have hrec := records_congr itm req h
  constructor
  · rw [checkRequirement_results, checkRequirement_results, h.1]
    by_cases hb : records itm b req
    · rw [if_pos hb, if_pos (hrec.mpr hb)]
    · rw [if_neg hb, if_neg (fun ha => hb (hrec.mp ha))]
  · rw [checkRequirement_usedUnitIDs, checkRequirement_usedUnitIDs, h.2]
    by_cases hb : records itm b req
    · rw [if_pos hb, if_pos (hrec.mpr hb)]
    · rw [if_neg hb, if_neg (fun ha => hb (hrec.mp ha))]

theorem foldl_checkRequirement_congr (itm : Item) (reqs : List statRequirement)
    {a b : CheckState} (h : sameMaps a b) :
    sameMaps (reqs.foldl (checkRequirement itm) a) (reqs.foldl (checkRequirement itm) b) := by
  induction reqs generalizing a b with
  | nil => exact h
  | cons r rest ih => exact ih (checkRequirement_congr itm r h)

theorem checkItem_congr (itm : Item) {a b : CheckState} (h : sameMaps a b) :
    sameMaps (checkItem a itm) (checkItem b itm) := by
  by_cases hid : itm.UnitID = 0
  · simp only [checkItem, if_pos hid]
    exact h
  · simp only [checkItem, if_neg hid]
    exact foldl_checkRequirement_congr itm requiredChecks h

theorem foldl_checkItem_congr (items : List Item) {a b : CheckState} (h : sameMaps a b) :
    sameMaps (items.foldl checkItem a) (items.foldl checkItem b) := by
  induction items generalizing a b with
  | nil => exact h
  | cons itm rest ih => exact ih (checkItem_congr itm h)

theorem foldl_checkItem_filter (items : List Item) {a b : CheckState} (h : sameMaps a b) :
    sameMaps (items.foldl checkItem a)
      ((items.filter (fun i => decide (i.UnitID ≠ 0))).foldl checkItem b) := by
  induction items generalizing a b with
  | nil => exact h
  | cons itm rest ih =>
    by_cases hid : itm.UnitID = 0
    · have hz : sameMaps (checkItem a itm) b :=
        ⟨(checkItem_zero a itm hid).1.trans h.1, (checkItem_zero a itm hid).2.trans h.2⟩
      simpa [List.filter, hid] using ih hz
    · simpa [List.filter, hid] using ih (checkItem_congr itm h)

/-- The maps returned by `CheckAllItemsForStats` are those of the scan from `scanStart`. -/
theorem CheckAllItemsForStats_maps (ctx : Context) (log : List String) :
    (CheckAllItemsForStats ctx).1.1 = (ctx.AllItems.foldl checkItem (scanStart log)).results
      ∧ (CheckAllItemsForStats ctx).1.2
          = (ctx.AllItems.foldl checkItem (scanStart log)).usedUnitIDs :=
  @foldl_checkItem_congr ctx.AllItems (scanStart _) (scanStart log) ⟨rfl, rfl⟩

theorem CheckAllItemsForStats_inv (ctx : Context) :
    ∃ st : CheckState, ScanInv st ctx.AllItems
      ∧ (CheckAllItemsForStats ctx).1 = (st.results, st.usedUnitIDs) := by
  refine ⟨ctx.AllItems.foldl checkItem (scanStart []), ?_, ?_⟩
  · simpa using ScanInv.foldl ctx.AllItems (ScanInv.start [])
  · exact Prod.ext (CheckAllItemsForStats_maps ctx []).1 (CheckAllItemsForStats_maps ctx []).2

theorem all_values_iff (l : List (String × Bool)) (hnd : (l.map Prod.fst).Nodup) :
    (l.map Prod.snd).all (fun found => found) = true
      ↔ ∀ k ∈ l.map Prod.fst, (GoMap.findEntries k l).getD false = true := by
  induction l with
  | nil => simp
  | cons e rest ih =>
    obtain ⟨k0, v0⟩ := e
    simp only [List.map_cons, List.nodup_cons] at hnd
    have ih' := ih hnd.2
    simp only [List.map_cons, List.all_cons, Bool.and_eq_true, List.mem_cons,
      forall_eq_or_imp, GoMap.findEntries, if_true, Option.getD_some]
    constructor
    · rintro ⟨h0, hrest⟩
      refine ⟨h0, ?_⟩
      intro k hk
      have hne : ¬ k0 = k := fun e => hnd.1 (e ▸ hk)
      rw [if_neg hne]
      exact ih'.mp hrest k hk
    · rintro ⟨h0, hrest⟩
      refine ⟨h0, ih'.mpr ?_⟩
      intro k hk
      have hne : ¬ k0 = k := fun e => hnd.1 (e ▸ hk)
      have := hrest k hk
      rw [if_neg hne] at this
      exact this

theorem requirementNames_nodup : requirementNames.Nodup := by
  simp [requirementNames, requiredChecks]

/-- C1. For every item collection, the satisfied map returned by `CheckAllItemsForStats`
has exactly the six declared requirement names as its keys: every declared name is a
key, every key is a declared name, no key occurs twice, and there are six of them. -/
theorem CheckAllItemsForStats_keys (ctx : Context) :
    (∀ k, k ∈ (CheckAllItemsForStats ctx).1.1.keys ↔ k ∈ requirementNames)
      ∧ (CheckAllItemsForStats ctx).1.1.keys.Nodup
      ∧ (CheckAllItemsForStats ctx).1.1.len = 6
      ∧ requirementNames = ["MercHelm_Lifesteal_Found", "MercWeapon_FCR_MinDmg_Found",
          "MercArmor_FireRes_Energy_Found", "PlayerArmor_FireRes_Energy_Found",
          "PlayerWeapon_Skills_FCR_Found", "PlayerHelm_Skill_LightRes_Found"] := by
  obtain ⟨st, inv, hst⟩ := CheckAllItemsForStats_inv ctx
  have hk : (CheckAllItemsForStats ctx).1.1.keys = requirementNames := by
    rw [hst]; exact inv.keys
  refine ⟨fun k => by rw [hk], by rw [hk]; exact requirementNames_nodup, ?_, rfl⟩
  have hlen : (CheckAllItemsForStats ctx).1.1.len
      = (CheckAllItemsForStats ctx).1.1.keys.length := by
    simp [GoMap.len, GoMap.keys]
  rw [hlen, hk]
  rfl

/-- C2. For every item collection, `AreAllRequiredItemsFound` returns true if and only if
every one of the six booleans returned by `CheckAllItemsForStats` on that collection is
true. -/
theorem AreAllRequiredItemsFound_iff (ctx : Context) :
    (AreAllRequiredItemsFound ctx).1 = true
      ↔ ∀ name ∈ requirementNames, (CheckAllItemsForStats ctx).1.1.get name false = true := by
  obtain ⟨st, inv, hst⟩ := CheckAllItemsForStats_inv ctx
  have hk : (CheckAllItemsForStats ctx).1.1.keys = requirementNames := by
    rw [hst]; exact inv.keys
  have hlen : (CheckAllItemsForStats ctx).1.1.len = requiredChecks.length := by
    have : (CheckAllItemsForStats ctx).1.1.len
        = (CheckAllItemsForStats ctx).1.1.keys.length := by
      simp [GoMap.len, GoMap.keys]
    rw [this, hk]
    rfl
  have hnd : ((CheckAllItemsForStats ctx).1.1.entries.map Prod.fst).Nodup := by
    have := requirementNames_nodup
    rw [← hk] at this
    exact this
  have hall := all_values_iff _ hnd
  have hres : (AreAllRequiredItemsFound ctx).1
      = (CheckAllItemsForStats ctx).1.1.values.all (fun found => found) := by
    simp only [AreAllRequiredItemsFound, hlen, ne_eq, not_true_eq_false, if_false]
  rw [hres, GoMap.values, hall]
  constructor
  · intro h name hname
    exact h name (by rw [← hk] at hname; exact hname)
  · intro h name hname
    exact h name (by rw [← hk]; exact hname)

set_option maxRecDepth 8000 in
/-- Witness of C2: six items, one for each requirement, make
`AreAllRequiredItemsFound` true. -/
theorem AreAllRequiredItemsFound_iff_witness :
    (AreAllRequiredItemsFound
      ⟨[⟨1, "A", "helmet", [⟨StatID.LifeSteal, 0, 3⟩]⟩,
        ⟨2, "B", "polearm", [⟨StatID.FasterCastRate, 0, 35⟩, ⟨StatID.MinDamage, 0, 9⟩]⟩,
        ⟨3, "C", "armor", [⟨StatID.FireResist, 0, 50⟩, ⟨StatID.Energy, 0, 10⟩]⟩,
        ⟨4, "D", "armor", [⟨StatID.FireResist, 0, 50⟩, ⟨StatID.Energy, 0, 10⟩]⟩,
        ⟨5, "E", "sword", [⟨StatID.AllSkills, 0, 2⟩, ⟨StatID.FasterCastRate, 0, 30⟩]⟩,
        ⟨6, "F", "helmet", [⟨StatID.AllSkills, 0, 1⟩, ⟨StatID.LightningResist, 0, 35⟩]⟩],
        []⟩).1 = true :=
  (AreAllRequiredItemsFound_iff
    ⟨[⟨1, "A", "helmet", [⟨StatID.LifeSteal, 0, 3⟩]⟩,
      ⟨2, "B", "polearm", [⟨StatID.FasterCastRate, 0, 35⟩, ⟨StatID.MinDamage, 0, 9⟩]⟩,
      ⟨3, "C", "armor", [⟨StatID.FireResist, 0, 50⟩, ⟨StatID.Energy, 0, 10⟩]⟩,
      ⟨4, "D", "armor", [⟨StatID.FireResist, 0, 50⟩, ⟨StatID.Energy, 0, 10⟩]⟩,
      ⟨5, "E", "sword", [⟨StatID.AllSkills, 0, 2⟩, ⟨StatID.FasterCastRate, 0, 30⟩]⟩,
      ⟨6, "F", "helmet", [⟨StatID.AllSkills, 0, 1⟩, ⟨StatID.LightningResist, 0, 35⟩]⟩],
      []⟩).mpr (by decide)

/-- C3. For every collection of exactly one item with a non-zero identifier on which both
the `MercArmor_FireRes_Energy_Found` and the `PlayerArmor_FireRes_Energy_Found` check
hold, `CheckAllItemsForStats` marks exactly one of the two armor requirements satisfied,
the merc armor one, with that item recorded for it, and leaves the other one false with
no item recorded. -/
theorem armor_pair_single_item (itm : Item) (log : List String) (hid : itm.UnitID ≠ 0)
    (hM : (checkMercArmor itm).1 = true) (hP : (checkPlayerArmor itm).1 = true) :
    (CheckAllItemsForStats ⟨[itm], log⟩).1.1.get "MercArmor_FireRes_Energy_Found" false = true
      ∧ (CheckAllItemsForStats ⟨[itm], log⟩).1.1.get "PlayerArmor_FireRes_Energy_Found" false
          = false
      ∧ (CheckAllItemsForStats ⟨[itm], log⟩).1.2.find? "MercArmor_FireRes_Energy_Found"
          = some itm.UnitID
      ∧ (CheckAllItemsForStats ⟨[itm], log⟩).1.2.find? "PlayerArmor_FireRes_Energy_Found"
          = none := by
  obtain ⟨st, inv, hst⟩ := CheckAllItemsForStats_inv ⟨[itm], log⟩
  rw [hst]
  have a := inv.armor
  have hm : st.usedUnitIDs.find? "MercArmor_FireRes_Energy_Found" = some itm.UnitID := by
    rw [a.firstM]
    simp [passes, hid, hM]
  have hp : st.usedUnitIDs.find? "PlayerArmor_FireRes_Energy_Found" = none := by
    rw [a.firstP, hm]
    simp [passes, hid, hP]
  refine ⟨?_, ?_, hm, hp⟩
  · rw [get_of_find? _ _ _ a.satM, hm]; rfl
  · rw [get_of_find? _ _ _ a.satP, hp]; rfl

/-- Witness of C3: one armor with fire resistance 50 and energy 10. -/
theorem armor_pair_single_item_witness :
    (CheckAllItemsForStats
        ⟨[⟨7, "A", "armor", [⟨StatID.FireResist, 0, 50⟩, ⟨StatID.Energy, 0, 10⟩]⟩],
          []⟩).1.1.get "MercArmor_FireRes_Energy_Found" false = true
      ∧ (CheckAllItemsForStats
        ⟨[⟨7, "A", "armor", [⟨StatID.FireResist, 0, 50⟩, ⟨StatID.Energy, 0, 10⟩]⟩],
          []⟩).1.1.get "PlayerArmor_FireRes_Energy_Found" false = false :=
  have h := armor_pair_single_item
    ⟨7, "A", "armor", [⟨StatID.FireResist, 0, 50⟩, ⟨StatID.Energy, 0, 10⟩]⟩ []
    (by decide) (by decide) (by decide)
  ⟨h.1, h.2.1⟩

/-- C4. For every item collection, of any length and also with repeated identifiers,
whenever `CheckAllItemsForStats` reports both `MercArmor_FireRes_Energy_Found` and
`PlayerArmor_FireRes_Energy_Found` satisfied, the item identifiers recorded for the two
in `satisfiedBy` differ. -/
theorem armor_pair_distinct_items (ctx : Context)
    (hM : (CheckAllItemsForStats ctx).1.1.get "MercArmor_FireRes_Energy_Found" false = true)
    (hP : (CheckAllItemsForStats ctx).1.1.get "PlayerArmor_FireRes_Energy_Found" false = true) :
    (CheckAllItemsForStats ctx).1.2.find? "MercArmor_FireRes_Energy_Found"
        ≠ (CheckAllItemsForStats ctx).1.2.find? "PlayerArmor_FireRes_Energy_Found"
      ∧ (CheckAllItemsForStats ctx).1.2.get "MercArmor_FireRes_Energy_Found" 0
        ≠ (CheckAllItemsForStats ctx).1.2.get "PlayerArmor_FireRes_Energy_Found" 0 := by
  obtain ⟨st, inv, hst⟩ := CheckAllItemsForStats_inv ctx
  rw [hst] at hM hP ⊢
  have a := inv.armor
  simp only at hM hP ⊢
  rw [get_of_find? _ _ _ a.satM] at hM
  rw [get_of_find? _ _ _ a.satP] at hP
  obtain ⟨m, hm⟩ := Option.isSome_iff_exists.mp hM
  have hfp := a.firstP
  rw [hm] at hfp
  cases hq : ctx.AllItems.find? (fun i =>
      passes ⟨"PlayerArmor_FireRes_Energy_Found", checkPlayerArmor⟩ i
        && decide (some i.UnitID ≠ some m)) with
  | none =>
    rw [hq] at hfp
    rw [hfp] at hP
    exact Bool.noConfusion hP
  | some y =>
    rw [hq] at hfp
    have hy := List.find?_some hq
    simp only [ne_eq, Option.some.injEq, Bool.and_eq_true, decide_eq_true_eq] at hy
    have hne : ¬ m = y.UnitID := fun e => hy.2 e.symm
    simp only [Option.map_some'] at hfp
    simp [GoMap.get, hm, hfp, hne]

/-- Witness of C4: two armors with the identifiers 1 and 2. -/
theorem armor_pair_distinct_items_witness :
    (CheckAllItemsForStats
        ⟨[⟨1, "A", "armor", [⟨StatID.FireResist, 0, 50⟩, ⟨StatID.Energy, 0, 10⟩]⟩,
          ⟨2, "B", "armor", [⟨StatID.FireResist, 0, 50⟩, ⟨StatID.Energy, 0, 10⟩]⟩],
          []⟩).1.2.find? "MercArmor_FireRes_Energy_Found"
      ≠ (CheckAllItemsForStats
        ⟨[⟨1, "A", "armor", [⟨StatID.FireResist, 0, 50⟩, ⟨StatID.Energy, 0, 10⟩]⟩,
          ⟨2, "B", "armor", [⟨StatID.FireResist, 0, 50⟩, ⟨StatID.Energy, 0, 10⟩]⟩],
          []⟩).1.2.find? "PlayerArmor_FireRes_Energy_Found" :=
  (armor_pair_distinct_items
    ⟨[⟨1, "A", "armor", [⟨StatID.FireResist, 0, 50⟩, ⟨StatID.Energy, 0, 10⟩]⟩,
      ⟨2, "B", "armor", [⟨StatID.FireResist, 0, 50⟩, ⟨StatID.Energy, 0, 10⟩]⟩], []⟩
    (by decide) (by decide)).1

/-- C5, as stated, fails: for two armors with the identifiers 1 and 2, both with fire
resistance 50 and energy 10, `PlayerArmor_FireRes_Energy_Found` is satisfied and its
`satisfiedBy` entry is item 2, which is not the first item with a non-zero identifier on
which its check holds (that is item 1). -/
theorem first_match_fails_for_player_armor :
    (CheckAllItemsForStats
        ⟨[⟨1, "A", "armor", [⟨StatID.FireResist, 0, 50⟩, ⟨StatID.Energy, 0, 10⟩]⟩,
          ⟨2, "B", "armor", [⟨StatID.FireResist, 0, 50⟩, ⟨StatID.Energy, 0, 10⟩]⟩],
          []⟩).1.1.get "PlayerArmor_FireRes_Energy_Found" false = true
      ∧ (CheckAllItemsForStats
        ⟨[⟨1, "A", "armor", [⟨StatID.FireResist, 0, 50⟩, ⟨StatID.Energy, 0, 10⟩]⟩,
          ⟨2, "B", "armor", [⟨StatID.FireResist, 0, 50⟩, ⟨StatID.Energy, 0, 10⟩]⟩],
          []⟩).1.2.find? "PlayerArmor_FireRes_Energy_Found" = some 2
      ∧ ¬ ((CheckAllItemsForStats
        ⟨[⟨1, "A", "armor", [⟨StatID.FireResist, 0, 50⟩, ⟨StatID.Energy, 0, 10⟩]⟩,
          ⟨2, "B", "armor", [⟨StatID.FireResist, 0, 50⟩, ⟨StatID.Energy, 0, 10⟩]⟩],
          []⟩).1.2.find? "PlayerArmor_FireRes_Energy_Found"
        = (([⟨1, "A", "armor", [⟨StatID.FireResist, 0, 50⟩, ⟨StatID.Energy, 0, 10⟩]⟩,
            ⟨2, "B", "armor", [⟨StatID.FireResist, 0, 50⟩, ⟨StatID.Energy, 0, 10⟩]⟩] :
              List Item).find?
            (fun i => decide (i.UnitID ≠ 0) && (checkPlayerArmor i).1)).map
              (fun i => i.UnitID)) := by
  decide

/-- C5, amended. For every item collection and every declared requirement `R`,
`satisfiedBy` has an entry for `R` if and only if `satisfied[R]` is true. For every `R`
other than `PlayerArmor_FireRes_Energy_Found` that entry is the identifier of the first
item, in enumeration order, with a non-zero identifier on which the check of `R` holds.
For `PlayerArmor_FireRes_Energy_Found` it is the identifier of the first item with a
non-zero identifier on which its check holds and whose identifier is not the one
recorded for `MercArmor_FireRes_Energy_Found`. -/
theorem satisfiedBy_first_match (ctx : Context) :
    (∀ r ∈ requiredChecks,
        ((CheckAllItemsForStats ctx).1.2.find? r.Name).isSome = true
          ↔ (CheckAllItemsForStats ctx).1.1.get r.Name false = true)
      ∧ (∀ r ∈ requiredChecks, r.Name ≠ "PlayerArmor_FireRes_Energy_Found" →
          (CheckAllItemsForStats ctx).1.2.find? r.Name
            = (ctx.AllItems.find? (fun i => decide (i.UnitID ≠ 0) && (r.Check i).1)).map
                (fun i => i.UnitID))
      ∧ (CheckAllItemsForStats ctx).1.2.find? "PlayerArmor_FireRes_Energy_Found"
          = (ctx.AllItems.find? (fun i =>
              (decide (i.UnitID ≠ 0) && (checkPlayerArmor i).1)
                && decide (some i.UnitID ≠
                  (CheckAllItemsForStats ctx).1.2.find? "MercArmor_FireRes_Energy_Found"))).map
              (fun i => i.UnitID) := by
  obtain ⟨st, inv, hst⟩ := CheckAllItemsForStats_inv ctx
  rw [hst]
  refine ⟨?_, ?_, ?_⟩
  · intro r hr
    show (st.usedUnitIDs.find? r.Name).isSome = true ↔ st.results.get r.Name false = true
    rw [get_of_find? _ _ _ (inv.sat r hr)]
  · intro r hr hP
    exact inv.first r hr hP
  · exact inv.player

/-- Witness of C5, amended: a helmet with lifesteal 2 is recorded for the merc helm
requirement, which differs from the player armor requirement. -/
theorem satisfiedBy_first_match_witness :
    (CheckAllItemsForStats
        ⟨[⟨501, "H", "helmet", [⟨StatID.LifeSteal, 0, 2⟩]⟩], []⟩).1.2.find?
          "MercHelm_Lifesteal_Found"
      = (([⟨501, "H", "helmet", [⟨StatID.LifeSteal, 0, 2⟩]⟩] : List Item).find?
          (fun i => decide (i.UnitID ≠ 0) && (checkMercHelm i).1)).map (fun i => i.UnitID) :=
  (satisfiedBy_first_match ⟨[⟨501, "H", "helmet", [⟨StatID.LifeSteal, 0, 2⟩]⟩], []⟩).2.1
    ⟨"MercHelm_Lifesteal_Found", checkMercHelm⟩ (by simp [requiredChecks]) (by decide)

/-- C6. For the collection of one helmet with a non-zero identifier, lifesteal at least 1
on layer 0 and no other stat, `CheckAllItemsForStats` returns
`MercHelm_Lifesteal_Found = true`, records that identifier for it, and returns false for
each of the other five requirements. -/
theorem single_lifesteal_helm (id v : Int) (name : String) (log : List String)
    (hid : id ≠ 0) (hv : v ≥ 1) :
    (CheckAllItemsForStats ⟨[⟨id, name, "helmet", [⟨StatID.LifeSteal, 0, v⟩]⟩], log⟩).1.1.get
        "MercHelm_Lifesteal_Found" false = true
      ∧ (CheckAllItemsForStats
          ⟨[⟨id, name, "helmet", [⟨StatID.LifeSteal, 0, v⟩]⟩], log⟩).1.2.find?
            "MercHelm_Lifesteal_Found" = some id
      ∧ ∀ k ∈ requirementNames, k ≠ "MercHelm_Lifesteal_Found" →
          (CheckAllItemsForStats
            ⟨[⟨id, name, "helmet", [⟨StatID.LifeSteal, 0, v⟩]⟩], log⟩).1.1.get k false
              = false := by
  obtain ⟨st, inv, hst⟩ :=
    CheckAllItemsForStats_inv ⟨[⟨id, name, "helmet", [⟨StatID.LifeSteal, 0, v⟩]⟩], log⟩
  rw [hst]
  have a := inv.armor
  have hhelm := inv.first ⟨"MercHelm_Lifesteal_Found", checkMercHelm⟩
    (by simp [requiredChecks]) (by simp)
  have hweapon := inv.first ⟨"MercWeapon_FCR_MinDmg_Found", checkMercWeapon⟩
    (by simp [requiredChecks]) (by simp)
  have hpweapon := inv.first ⟨"PlayerWeapon_Skills_FCR_Found", checkPlayerWeapon⟩
    (by simp [requiredChecks]) (by simp)
  have hphelm := inv.first ⟨"PlayerHelm_Skill_LightRes_Found", checkPlayerHelm⟩
    (by simp [requiredChecks]) (by simp)
  have hmarmor := a.firstM
  have hparmor := a.firstP
  simp [passes, checkMercHelm, checkMercWeapon, checkMercArmor, checkPlayerArmor,
    checkPlayerWeapon, checkPlayerHelm, Item.FindStat, hid, hv, StatData.zero]
    at hhelm hweapon hpweapon hphelm hmarmor hparmor
  have s1 := get_of_find? _ _ _ (inv.sat ⟨"MercHelm_Lifesteal_Found", checkMercHelm⟩
    (by simp [requiredChecks]))
  have s2 := get_of_find? _ _ _ (inv.sat ⟨"MercWeapon_FCR_MinDmg_Found", checkMercWeapon⟩
    (by simp [requiredChecks]))
  have s3 := get_of_find? _ _ _ a.satM
  have s4 := get_of_find? _ _ _ a.satP
  have s5 := get_of_find? _ _ _ (inv.sat ⟨"PlayerWeapon_Skills_FCR_Found", checkPlayerWeapon⟩
    (by simp [requiredChecks]))
  have s6 := get_of_find? _ _ _ (inv.sat ⟨"PlayerHelm_Skill_LightRes_Found", checkPlayerHelm⟩
    (by simp [requiredChecks]))
  simp only at s1 s2 s3 s4 s5 s6
  refine ⟨?_, hhelm, ?_⟩
  · show st.results.get "MercHelm_Lifesteal_Found" false = true
    rw [s1, hhelm]; rfl
  · intro k hk hne
    show st.results.get k false = false
    simp only [requirementNames, requiredChecks, List.map_cons, List.map_nil, List.mem_cons,
      List.mem_singleton, List.not_mem_nil, or_false] at hk
    rcases hk with rfl | rfl | rfl | rfl | rfl | rfl
    · exact absurd rfl hne
    · rw [s2, hweapon]; rfl
    · rw [s3, hmarmor]; rfl
    · rw [s4, hparmor]; rfl
    · rw [s5, hpweapon]; rfl
    · rw [s6, hphelm]; rfl

/-- Witness of C6: the helmet with identifier 501 and lifesteal 2. -/
theorem single_lifesteal_helm_witness :
    (CheckAllItemsForStats ⟨[⟨501, "", "helmet", [⟨StatID.LifeSteal, 0, 2⟩]⟩], []⟩).1.1.get
        "MercHelm_Lifesteal_Found" false = true
      ∧ (CheckAllItemsForStats
          ⟨[⟨501, "", "helmet", [⟨StatID.LifeSteal, 0, 2⟩]⟩], []⟩).1.2.find?
            "MercHelm_Lifesteal_Found" = some 501
      ∧ ∀ k ∈ requirementNames, k ≠ "MercHelm_Lifesteal_Found" →
          (CheckAllItemsForStats
            ⟨[⟨501, "", "helmet", [⟨StatID.LifeSteal, 0, 2⟩]⟩], []⟩).1.1.get k false
              = false :=
  single_lifesteal_helm 501 2 "" [] (by decide) (by decide)

theorem scan_nonzero {st : CheckState} {seen : List Item} (inv : ScanInv st seen)
    (k : String) : st.usedUnitIDs.find? k ≠ some 0 := by
  intro h
  by_cases hk : k ∈ requirementNames
  · obtain ⟨r, hr, rfl⟩ := List.mem_map.mp hk
    by_cases hP : r.Name = "PlayerArmor_FireRes_Energy_Found"
    · have hp := inv.player
      rw [hP] at h
      rw [h] at hp
      cases hq : seen.find? (fun i =>
          passes ⟨"PlayerArmor_FireRes_Energy_Found", checkPlayerArmor⟩ i
            && decide (some i.UnitID ≠
              st.usedUnitIDs.find? "MercArmor_FireRes_Energy_Found")) with
      | none => rw [hq] at hp; exact Option.noConfusion hp
      | some y =>
        rw [hq] at hp
        have hy := List.find?_some hq
        simp only [passes, Bool.and_eq_true, decide_eq_true_eq] at hy
        simp only [Option.map_some', Option.some.injEq] at hp
        exact hy.1.1 hp.symm
    · have hf := inv.first r hr hP
      rw [h] at hf
      cases hq : seen.find? (passes r) with
      | none => rw [hq] at hf; exact Option.noConfusion hf
      | some y =>
        rw [hq] at hf
        have hy := List.find?_some hq
        simp only [passes, Bool.and_eq_true, decide_eq_true_eq] at hy
        simp only [Option.map_some', Option.some.injEq] at hf
        exact hy.1 hf.symm
  · rw [inv.others k hk] at h
    exact Option.noConfusion h

/-- C7. Items whose identifier is 0 never influence the result: for every item
collection, `CheckAllItemsForStats` returns the same `satisfied` and `satisfiedBy` maps
as on the collection with all identifier-0 items removed, and no `satisfiedBy` entry is
ever 0. -/
theorem zero_identifier_items_ignored (ctx : Context) :
    (CheckAllItemsForStats ctx).1
        = (CheckAllItemsForStats
            { ctx with AllItems := ctx.AllItems.filter (fun i => decide (i.UnitID ≠ 0)) }).1
      ∧ ∀ k, (CheckAllItemsForStats ctx).1.2.find? k ≠ some 0 := by
  constructor
  · have h := @foldl_checkItem_filter ctx.AllItems
      (scanStart (ctx.LoggerDebug ++
        ["Starting universal item stat check for " ++ fmtInt ctx.AllItems.length
          ++ " items..."]))
      (scanStart (ctx.LoggerDebug ++
        ["Starting universal item stat check for "
          ++ fmtInt (ctx.AllItems.filter (fun i => decide (i.UnitID ≠ 0))).length
          ++ " items..."])) ⟨rfl, rfl⟩
    exact Prod.ext h.1 h.2
  · obtain ⟨st, inv, hst⟩ := CheckAllItemsForStats_inv ctx
    rw [hst]
    exact scan_nonzero inv

/-- C8. For each of the six requirement checks and every item: if a stat that the check
reads is absent from the item (`FindStat` on layer 0 reports not found), the check
returns false, whatever the type code and the other stats of the item. The checks are
total functions: every item is given a verdict. -/
theorem checks_fail_on_absent_stat (itm : Item) :
    ((itm.FindStat StatID.LifeSteal 0).2 = false → (checkMercHelm itm).1 = false)
      ∧ ((itm.FindStat StatID.FasterCastRate 0).2 = false
            ∨ (itm.FindStat StatID.MinDamage 0).2 = false → (checkMercWeapon itm).1 = false)
      ∧ ((itm.FindStat StatID.FireResist 0).2 = false
            ∨ (itm.FindStat StatID.Energy 0).2 = false → (checkMercArmor itm).1 = false)
      ∧ ((itm.FindStat StatID.FireResist 0).2 = false
            ∨ (itm.FindStat StatID.Energy 0).2 = false → (checkPlayerArmor itm).1 = false)
      ∧ ((itm.FindStat StatID.AllSkills 0).2 = false
            ∨ (itm.FindStat StatID.FasterCastRate 0).2 = false
          → (checkPlayerWeapon itm).1 = false)
      ∧ ((itm.FindStat StatID.AllSkills 0).2 = false
            ∨ (itm.FindStat StatID.LightningResist 0).2 = false
          → (checkPlayerHelm itm).1 = false)
      ∧ requiredChecks.map (fun req => (req.Check itm).1)
          = [(checkMercHelm itm).1, (checkMercWeapon itm).1, (checkMercArmor itm).1,
              (checkPlayerArmor itm).1, (checkPlayerWeapon itm).1, (checkPlayerHelm itm).1] := by
  refine ⟨?_, ?_, ?_, ?_, ?_, ?_, rfl⟩
  · intro h
    rcases hf : itm.FindStat StatID.LifeSteal 0 with ⟨s, f⟩
    rw [hf] at h
    simp only at h
    subst h
    by_cases hc : itm.Code = "helmet" <;> simp [checkMercHelm, hf, hc]
  · intro h
    rcases hf : itm.FindStat StatID.FasterCastRate 0 with ⟨s, f⟩
    rcases hg : itm.FindStat StatID.MinDamage 0 with ⟨t, g⟩
    rw [hf, hg] at h
    simp only at h
    by_cases hc : itm.Code = "polearm"
    · rcases h with h | h <;> subst h <;> simp [checkMercWeapon, hf, hg, hc]
    · simp [checkMercWeapon, hc]
  · intro h
    rcases hf : itm.FindStat StatID.FireResist 0 with ⟨s, f⟩
    rcases hg : itm.FindStat StatID.Energy 0 with ⟨t, g⟩
    rw [hf, hg] at h
    simp only at h
    by_cases hc : itm.Code = "armor"
    · rcases h with h | h <;> subst h <;> simp [checkMercArmor, hf, hg, hc]
    · simp [checkMercArmor, hc]
  · intro h
    rcases hf : itm.FindStat StatID.FireResist 0 with ⟨s, f⟩
    rcases hg : itm.FindStat StatID.Energy 0 with ⟨t, g⟩
    rw [hf, hg] at h
    simp only at h
    by_cases hc : itm.Code = "armor"
    · rcases h with h | h <;> subst h <;> simp [checkPlayerArmor, hf, hg, hc]
    · simp [checkPlayerArmor, hc]
  · intro h
    rcases hf : itm.FindStat StatID.AllSkills 0 with ⟨s, f⟩
    rcases hg : itm.FindStat StatID.FasterCastRate 0 with ⟨t, g⟩
    rw [hf, hg] at h
    simp only at h
    by_cases hc : itm.Code = "sword"
    · rcases h with h | h <;> subst h <;> simp [checkPlayerWeapon, hf, hg, hc]
    · simp [checkPlayerWeapon, hc]
  · intro h
    rcases hf : itm.FindStat StatID.AllSkills 0 with ⟨s, f⟩
    rcases hg : itm.FindStat StatID.LightningResist 0 with ⟨t, g⟩
    rw [hf, hg] at h
    simp only at h
    by_cases hc : itm.Code = "helmet"
    · rcases h with h | h <;> subst h <;> simp [checkPlayerHelm, hf, hg, hc]
    · simp [checkPlayerHelm, hc]

/-- Witness of C8: a helmet whose only stat is all skills 1 fails the merc helm check,
which reads lifesteal, and the player helm check, which also reads lightning
resistance. -/
theorem checks_fail_on_absent_stat_witness :
    (checkMercHelm ⟨9, "H", "helmet", [⟨StatID.AllSkills, 0, 1⟩]⟩).1 = false
      ∧ (checkPlayerHelm ⟨9, "H", "helmet", [⟨StatID.AllSkills, 0, 1⟩]⟩).1 = false :=
  have h := checks_fail_on_absent_stat ⟨9, "H", "helmet", [⟨StatID.AllSkills, 0, 1⟩]⟩
  ⟨h.1 (by decide), h.2.2.2.2.2.1 (Or.inr (by decide))⟩

/-- C9. Calling `CheckAllItemsForStats` twice on the same unchanged item collection
yields identical `satisfied` and `satisfiedBy` maps: the second call, made in the context
the first call leaves behind, returns what the first call returned, and the first call
leaves the items as they were. -/
theorem CheckAllItemsForStats_twice (ctx : Context) :
    (CheckAllItemsForStats (CheckAllItemsForStats ctx).2).1 = (CheckAllItemsForStats ctx).1
      ∧ (CheckAllItemsForStats ctx).2.AllItems = ctx.AllItems := by
  refine ⟨?_, rfl⟩
  have h1 := CheckAllItemsForStats_maps ctx []
  have h2 := CheckAllItemsForStats_maps (CheckAllItemsForStats ctx).2 []
  have hitems : (CheckAllItemsForStats ctx).2.AllItems = ctx.AllItems := rfl
  rw [hitems] at h2
  exact Prod.ext (h2.1.trans h1.1.symm) (h2.2.trans h1.2.symm)

theorem floorDistance_example : floorDistance ⟨0, 0⟩ ⟨3, 0⟩ = 3 := by
  have h : Nat.sqrt 9 = 3 := Nat.sqrt_eq 3
  simp [floorDistance, h]

theorem needsRepositioningLoop_none (dist : Position → Position → Int) (dd : Int)
    (p : Position) (enemies : List Monster)
    (h : ∀ x ∈ enemies, ¬ dangerous dist dd p x) :
    needsRepositioningLoop dist dd p enemies = (false, Monster.zero) := by
  induction enemies with
  | nil => rfl
  | cons m rest ih =>
    have hm := h m (List.mem_cons_self m rest)
    have hrest := ih (fun x hx => h x (List.mem_cons_of_mem m hx))
    by_cases hl : m.stat StatID.Life ≤ 0
    · simp only [needsRepositioningLoop, if_pos hl, hrest]
    · have hd : ¬ dist p m.Position < dd := fun hd => hm ⟨not_le.mp hl, hd⟩
      simp only [needsRepositioningLoop, if_neg hl, if_neg hd, hrest]

theorem needsRepositioningLoop_first (dist : Position → Position → Int) (dd : Int)
    (p : Position) (pre post : List Monster) (m : Monster)
    (hpre : ∀ x ∈ pre, ¬ dangerous dist dd p x) (hm : dangerous dist dd p m) :
    needsRepositioningLoop dist dd p (pre ++ m :: post) = (true, m) := by
  induction pre with
  | nil =>
    have hl : ¬ m.stat StatID.Life ≤ 0 := not_le.mpr hm.1
    simp only [List.nil_append, needsRepositioningLoop, if_neg hl, if_pos hm.2]
  | cons x rest ih =>
    have hx := hpre x (List.mem_cons_self x rest)
    have hrest := ih (fun y hy => hpre y (List.mem_cons_of_mem x hy))
    by_cases hl : x.stat StatID.Life ≤ 0
    · rw [List.cons_append]
      simp only [needsRepositioningLoop, if_pos hl]
      exact hrest
    · have hd : ¬ dist p x.Position < dd := fun hd => hx ⟨not_le.mp hl, hd⟩
      rw [List.cons_append]
      simp only [needsRepositioningLoop, if_neg hl, if_neg hd]
      exact hrest

/-- Either no enemy is dangerous, or the enemies split at the first dangerous one. -/
theorem dangerous_split (dist : Position → Position → Int) (dd : Int)
    (p : Position) (enemies : List Monster) :
    (∀ x ∈ enemies, ¬ dangerous dist dd p x)
      ∨ ∃ pre m post, enemies = pre ++ m :: post
          ∧ (∀ x ∈ pre, ¬ dangerous dist dd p x) ∧ dangerous dist dd p m := by
  induction enemies with
  | nil => exact Or.inl (fun x hx => absurd hx (List.not_mem_nil x))
  | cons e rest ih =>
    by_cases he : dangerous dist dd p e
    · exact Or.inr ⟨[], e, rest, rfl, fun x hx => absurd hx (List.not_mem_nil x), he⟩
    · rcases ih with hnone | ⟨pre, m, post, hsplit, hpre, hm⟩
      · left
        intro x hx
        rcases List.mem_cons.mp hx with rfl | hx
        · exact he
        · exact hnone x hx
      · right
        refine ⟨e :: pre, m, post, by rw [hsplit, List.cons_append], ?_, hm⟩
        intro x hx
        rcases List.mem_cons.mp hx with rfl | hx
        · exact he
        · exact hpre x hx

/-- C10. `needsRepositioning` returns `(true, m)` exactly when `m` is the first enemy, in
enumeration order, that is alive (life above 0) and closer to the player than the danger
radius; it returns `(false, data.Monster{})` exactly when no enemy is both alive and
within the danger radius; and with danger radius 5, the player at (0,0) and one monster
with life 100 at (3,0), whose distance from the player is below 5, it returns
`(true, that monster)`. -/
theorem needsRepositioning_first_dangerous (DistanceFromPoint : Position → Position → Int)
    (dangerDistance : Int) (playerPosition : Position) (enemies : List Monster) :
    (∀ m, needsRepositioning DistanceFromPoint dangerDistance playerPosition enemies = (true, m)
        ↔ ∃ pre post, enemies = pre ++ m :: post
            ∧ (∀ x ∈ pre, ¬ (x.stat StatID.Life > 0
                ∧ DistanceFromPoint playerPosition x.Position < dangerDistance))
            ∧ m.stat StatID.Life > 0
            ∧ DistanceFromPoint playerPosition m.Position < dangerDistance)
      ∧ (needsRepositioning DistanceFromPoint dangerDistance playerPosition enemies
            = (false, Monster.zero)
          ↔ ∀ x ∈ enemies, ¬ (x.stat StatID.Life > 0
              ∧ DistanceFromPoint playerPosition x.Position < dangerDistance))
      ∧ (∀ monster : Monster, monster.stat StatID.Life = 100 → monster.Position = ⟨3, 0⟩ →
          DistanceFromPoint ⟨0, 0⟩ ⟨3, 0⟩ < 5 →
          needsRepositioning DistanceFromPoint 5 ⟨0, 0⟩ [monster] = (true, monster)) := by
  refine ⟨?_, ?_, ?_⟩
  · intro m
    constructor
    · intro h
      rcases dangerous_split DistanceFromPoint dangerDistance playerPosition enemies with
        hnone | ⟨pre, m', post, hsplit, hpre, hm'⟩
      · have h0 := needsRepositioningLoop_none DistanceFromPoint dangerDistance
          playerPosition enemies hnone
        rw [needsRepositioning, h0] at h
        exact Bool.noConfusion (congrArg Prod.fst h)
      · have h1 := needsRepositioningLoop_first DistanceFromPoint dangerDistance
          playerPosition pre post m' hpre hm'
        rw [needsRepositioning, hsplit, h1] at h
        have hmm : m' = m := congrArg Prod.snd h
        subst hmm
        exact ⟨pre, post, hsplit, hpre, hm'.1, hm'.2⟩
    · rintro ⟨pre, post, hsplit, hpre, hlife, hdist⟩
      rw [needsRepositioning, hsplit]
      exact needsRepositioningLoop_first DistanceFromPoint dangerDistance playerPosition
        pre post m hpre ⟨hlife, hdist⟩
  · constructor
    · intro h
      rcases dangerous_split DistanceFromPoint dangerDistance playerPosition enemies with
        hnone | ⟨pre, m', post, hsplit, hpre, hm'⟩
      · exact hnone
      · have h1 := needsRepositioningLoop_first DistanceFromPoint dangerDistance
          playerPosition pre post m' hpre hm'
        rw [needsRepositioning, hsplit, h1] at h
        exact Bool.noConfusion (congrArg Prod.fst h)
    · intro h
      exact needsRepositioningLoop_none DistanceFromPoint dangerDistance playerPosition
        enemies h
  · intro monster hlife hpos hdist
    have hl : ¬ monster.stat StatID.Life ≤ 0 := by rw [hlife]; decide
    have hd : DistanceFromPoint ⟨0, 0⟩ monster.Position < 5 := by rw [hpos]; exact hdist
    simp only [needsRepositioning, needsRepositioningLoop, if_neg hl, if_pos hd]

/-- Witness of C10: the scenario with the straight-line distance rounded down, which
puts the monster at (3,0) at distance 3 from the player at (0,0). -/
theorem needsRepositioning_first_dangerous_witness :
    floorDistance ⟨0, 0⟩ ⟨3, 0⟩ < 5
      ∧ needsRepositioning floorDistance 5 ⟨0, 0⟩ [⟨7, 1, "", ⟨3, 0⟩, [(StatID.Life, 100)]⟩]
          = (true, ⟨7, 1, "", ⟨3, 0⟩, [(StatID.Life, 100)]⟩) :=
  ⟨by rw [floorDistance_example]; decide,
   (needsRepositioning_first_dangerous floorDistance 5 ⟨0, 0⟩
      [⟨7, 1, "", ⟨3, 0⟩, [(StatID.Life, 100)]⟩]).2.2
    ⟨7, 1, "", ⟨3, 0⟩, [(StatID.Life, 100)]⟩ (by decide) rfl
    (by rw [floorDistance_example]; decide)⟩

/-! ## `findSafePosition` -/

theorem Score.gt_irrefl (a : Score) : Score.gt a a = false := by
  cases a with
  | finite q => simp [Score.gt]
  | inf => rfl

theorem Score.gt_total (a b : Score) : Score.gt b a = false ∨ Score.gt a b = false := by
  cases a with
  | inf => exact Or.inl (by cases b <;> rfl)
  | finite p =>
    cases b with
    | inf => exact Or.inr rfl
    | finite q =>
      simp only [Score.gt, decide_eq_false_iff_not, not_lt, gt_iff_lt]
      exact le_total q p

theorem Score.gt_trans {a b c : Score} (hab : Score.gt b a = false)
    (hbc : Score.gt c b = false) : Score.gt c a = false := by
  cases a with
  | inf => cases c <;> rfl
  | finite p =>
    cases b with
    | inf => exact absurd hab (by simp [Score.gt])
    | finite q =>
      cases c with
      | inf => exact absurd hbc (by simp [Score.gt])
      | finite r =>
        simp only [Score.gt, decide_eq_false_iff_not, not_lt, gt_iff_lt] at hab hbc ⊢
        exact le_trans hbc hab

theorem sortDescending_perm (l : List scoredPosition) : (sortDescending l).Perm l :=
  List.perm_insertionSort scoreGe l

theorem sortDescending_sorted (l : List scoredPosition) :
    (sortDescending l).Pairwise (fun a b => Score.gt b.score a.score = false) := by
  haveI : IsTotal scoredPosition scoreGe := ⟨fun a b => Score.gt_total a.score b.score⟩
  haveI : IsTrans scoredPosition scoreGe := ⟨fun _ _ _ hab hbc => Score.gt_trans hab hbc⟩
  exact List.sorted_insertionSort scoreGe l

/-- What the inner loop leaves in `minMonsterDistance`, started from `acc`. -/
theorem foldl_minMonsterDistanceStep (env : SafetyEnv) (pos : Position)
    (enemies : List Monster) (acc : Option Int) :
    (enemies.foldl (minMonsterDistanceStep env pos) acc = none
        ↔ acc = none ∧ ∀ m ∈ enemies, ¬ m.stat StatID.Life > 0)
      ∧ ∀ d, enemies.foldl (minMonsterDistanceStep env pos) acc = some d →
          (acc = some d ∨ ∃ m ∈ enemies, m.stat StatID.Life > 0
              ∧ env.DistanceFromPoint pos m.Position = d)
            ∧ (∀ a, acc = some a → d ≤ a)
            ∧ ∀ m ∈ enemies, m.stat StatID.Life > 0 →
                d ≤ env.DistanceFromPoint pos m.Position := by
  induction enemies generalizing acc with
  | nil =>
    refine ⟨by simp, ?_⟩
    intro d hd
    simp only [List.foldl_nil] at hd
    refine ⟨Or.inl hd, ?_, by simp⟩
    intro a ha
    rw [hd] at ha
    exact le_of_eq (Option.some.inj ha)
  | cons e rest ih =>
    simp only [List.foldl_cons]
    obtain ⟨ihn, ihs⟩ := ih (minMonsterDistanceStep env pos acc e)
    by_cases hl : e.stat StatID.Life ≤ 0
    · have hstep : minMonsterDistanceStep env pos acc e = acc := by
        simp [minMonsterDistanceStep, hl]
      rw [hstep] at ihn ihs ⊢
      have hde : ¬ e.stat StatID.Life > 0 := not_lt.mpr hl
      constructor
      · rw [ihn]
        constructor
        · rintro ⟨h1, h2⟩
          refine ⟨h1, ?_⟩
          intro m hm
          rcases List.mem_cons.mp hm with rfl | hm
          · exact hde
          · exact h2 m hm
        · rintro ⟨h1, h2⟩
          exact ⟨h1, fun m hm => h2 m (List.mem_cons_of_mem e hm)⟩
      · intro d hd
        obtain ⟨h1, h2, h3⟩ := ihs d hd
        refine ⟨?_, h2, ?_⟩
        · rcases h1 with h1 | ⟨m, hm, hlm, hdm⟩
          · exact Or.inl h1
          · exact Or.inr ⟨m, List.mem_cons_of_mem e hm, hlm, hdm⟩
        · intro m hm hlm
          rcases List.mem_cons.mp hm with rfl | hm
          · exact absurd hlm hde
          · exact h3 m hm hlm
    · have hle : e.stat StatID.Life > 0 := not_le.mp hl
      cases acc with
      | none =>
        have hstep : minMonsterDistanceStep env pos none e
            = some (env.DistanceFromPoint pos e.Position) := by
          simp [minMonsterDistanceStep, hl]
        rw [hstep] at ihn ihs ⊢
        constructor
        · constructor
          · intro h
            exact absurd (ihn.mp h).1 (by simp)
          · rintro ⟨-, h2⟩
            exact absurd hle (h2 e (List.mem_cons_self e rest))
        · intro d hd
          obtain ⟨h1, h2, h3⟩ := ihs d hd
          refine ⟨Or.inr ?_, by simp, ?_⟩
          · rcases h1 with h1 | ⟨m, hm, hlm, hdm⟩
            · exact ⟨e, List.mem_cons_self e rest, hle, Option.some.inj h1⟩
            · exact ⟨m, List.mem_cons_of_mem e hm, hlm, hdm⟩
          · intro m hm hlm
            rcases List.mem_cons.mp hm with rfl | hm
            · exact h2 _ rfl
            · exact h3 m hm hlm
      | some least =>
        by_cases hlt : env.DistanceFromPoint pos e.Position < least
        · have hstep : minMonsterDistanceStep env pos (some least) e
              = some (env.DistanceFromPoint pos e.Position) := by
            simp [minMonsterDistanceStep, hl, hlt]
          rw [hstep] at ihn ihs ⊢
          constructor
          · constructor
            · intro h
              exact absurd (ihn.mp h).1 (by simp)
            · rintro ⟨h1, -⟩
              exact absurd h1 (by simp)
          · intro d hd
            obtain ⟨h1, h2, h3⟩ := ihs d hd
            have hde := h2 _ rfl
            refine ⟨Or.inr ?_, ?_, ?_⟩
            · rcases h1 with h1 | ⟨m, hm, hlm, hdm⟩
              · exact ⟨e, List.mem_cons_self e rest, hle, Option.some.inj h1⟩
              · exact ⟨m, List.mem_cons_of_mem e hm, hlm, hdm⟩
            · intro a ha
              have : least = a := Option.some.inj ha
              omega
            · intro m hm hlm
              rcases List.mem_cons.mp hm with rfl | hm
              · exact hde
              · exact h3 m hm hlm
        · have hstep : minMonsterDistanceStep env pos (some least) e = some least := by
            simp [minMonsterDistanceStep, hl, hlt]
          rw [hstep] at ihn ihs ⊢
          constructor
          · constructor
            · intro h
              exact absurd (ihn.mp h).1 (by simp)
            · rintro ⟨h1, -⟩
              exact absurd h1 (by simp)
          · intro d hd
            obtain ⟨h1, h2, h3⟩ := ihs d hd
            have hdl := h2 _ rfl
            refine ⟨?_, ?_, ?_⟩
            · rcases h1 with h1 | ⟨m, hm, hlm, hdm⟩
              · exact Or.inl h1
              · exact Or.inr ⟨m, List.mem_cons_of_mem e hm, hlm, hdm⟩
            · intro a ha
              have : least = a := Option.some.inj ha
              omega
            · intro m hm hlm
              rcases List.mem_cons.mp hm with rfl | hm
              · omega
              · exact h3 m hm hlm

/-- The loop result `none` means that no enemy is alive; `some d` means that `d` is the
least distance from `pos` to a living enemy. -/
theorem minMonsterDistance_spec (env : SafetyEnv) (enemies : List Monster) (pos : Position) :
    (minMonsterDistance env enemies pos = none ↔ ∀ m ∈ enemies, ¬ m.stat StatID.Life > 0)
      ∧ ∀ d, minMonsterDistance env enemies pos = some d ↔
          (∃ m ∈ enemies, m.stat StatID.Life > 0 ∧ env.DistanceFromPoint pos m.Position = d)
            ∧ ∀ m ∈ enemies, m.stat StatID.Life > 0 →
                d ≤ env.DistanceFromPoint pos m.Position := by
  obtain ⟨hn, hs⟩ := foldl_minMonsterDistanceStep env pos enemies none
  refine ⟨by simpa [minMonsterDistance] using hn, ?_⟩
  intro d
  constructor
  · intro h
    obtain ⟨h1, -, h3⟩ := hs d h
    rcases h1 with h1 | h1
    · exact absurd h1 (by simp)
    · exact ⟨h1, h3⟩
  · rintro ⟨⟨m, hm, hlm, hdm⟩, hleast⟩
    cases hr : minMonsterDistance env enemies pos with
    | none =>
      have := (hn.mp hr).2 m hm
      exact absurd hlm this
    | some d' =>
      obtain ⟨h1, -, h3⟩ := hs d' hr
      rcases h1 with h1 | ⟨m', hm', hlm', hdm'⟩
      · exact absurd h1 (by simp)
      · have h4 := h3 m hm hlm
        have h5 := hleast m' hm' hlm'
        have : d' = d := by omega
        rw [this]

theorem tooClose_eq_false_iff (env : SafetyEnv) (enemies : List Monster) (pos : Position) :
    tooClose (minMonsterDistance env enemies pos) = false
      ↔ ∀ m ∈ enemies, m.stat StatID.Life > 0 →
          minSafeMonsterDistance ≤ env.DistanceFromPoint pos m.Position := by
  obtain ⟨hn, hs⟩ := minMonsterDistance_spec env enemies pos
  cases hr : minMonsterDistance env enemies pos with
  | none =>
    simp only [tooClose, true_iff]
    intro m hm hlm
    exact absurd hlm (hn.mp hr m hm)
  | some d =>
    obtain ⟨⟨m0, hm0, hl0, hd0⟩, hleast⟩ := (hs d).mp hr
    simp only [tooClose, decide_eq_false_iff_not, not_lt]
    constructor
    · intro h m hm hlm
      exact le_trans h (hleast m hm hlm)
    · intro h
      rw [← hd0]
      exact h m0 hm0 hl0

theorem candidatePositions_walkable (env : SafetyEnv) (playerPos : Position)
    (targetMonster : Monster) :
    ∀ c ∈ candidatePositions env playerPos targetMonster, env.IsWalkable c = true := by
  intro c hc
  simp only [candidatePositions, List.mem_append] at hc
  rcases hc with hc | hc
  · unfold awayCandidates at hc
    simp only at hc
    split_ifs at hc with hlen
    · simp only [List.mem_flatMap, List.mem_filter] at hc
      obtain ⟨_, _, _, hw⟩ := hc
      exact hw
    · exact absurd hc (List.not_mem_nil c)
  · unfold ringCandidates at hc
    simp only [List.mem_flatMap, List.mem_filter] at hc
    obtain ⟨_, _, _, _, _, _, _, hw⟩ := hc
    exact hw

theorem scoreCandidate_eq_some (env : SafetyEnv) (playerPos : Position)
    (targetMonster : Monster) (enemies : List Monster) (pos : Position) (sp : scoredPosition) :
    scoreCandidate env playerPos targetMonster enemies pos = some sp
      ↔ env.LineOfSight pos targetMonster.Position = true
          ∧ (∀ m ∈ enemies, m.stat StatID.Life > 0 →
              minSafeMonsterDistance ≤ env.DistanceFromPoint pos m.Position)
          ∧ sp = ⟨pos, scoreOf env playerPos targetMonster enemies pos⟩ := by
  rw [← tooClose_eq_false_iff]
  unfold scoreCandidate
  by_cases hlos : env.LineOfSight pos targetMonster.Position = true
  · by_cases hclose : tooClose (minMonsterDistance env enemies pos) = true
    · simp [hlos, hclose]
    · simp only [Bool.not_eq_true] at hclose
      simp [hlos, hclose, eq_comm]
  · simp only [Bool.not_eq_true] at hlos
    simp [hlos]

/-- C11. For every player position, target, monster list, walkability query and
line-of-sight query: if no generated walkable candidate has both line of sight to the
target and a distance of at least the minimum safe-monster distance (2) to every living
monster, that is to the nearest one, `findSafePosition` returns `found = false`. The
library sort is assumed to return a permutation of its input. -/
theorem findSafePosition_not_found (env : SafetyEnv) (playerPos : Position)
    (enemies : List Monster) (targetMonster : Monster)
    (hperm : ∀ l, (env.sortSlice l).Perm l)
    (hnone : ∀ c ∈ candidatePositions env playerPos targetMonster,
      ¬ (env.LineOfSight c targetMonster.Position = true
          ∧ ∀ m ∈ enemies, m.stat StatID.Life > 0 →
              2 ≤ env.DistanceFromPoint c m.Position)) :
    (findSafePosition env playerPos enemies targetMonster).2 = false := by
  have hempty : (candidatePositions env playerPos targetMonster).filterMap
      (scoreCandidate env playerPos targetMonster enemies) = [] := by
    apply List.filterMap_eq_nil_iff.mpr
    intro c hc
    cases hs : scoreCandidate env playerPos targetMonster enemies c with
    | none => rfl
    | some sp =>
      obtain ⟨h1, h2, -⟩ := (scoreCandidate_eq_some env playerPos targetMonster enemies c sp).mp hs
      exact absurd ⟨h1, h2⟩ (hnone c hc)
  have hsorted : env.sortSlice ((candidatePositions env playerPos targetMonster).filterMap
      (scoreCandidate env playerPos targetMonster enemies)) = [] := by
    rw [hempty]
    exact List.Perm.eq_nil (hperm [])
  unfold findSafePosition
  simp only [hsorted]
  split_ifs <;> rfl

/-- C12. Whenever at least one generated candidate survives the line-of-sight and
minimum-safe-distance filters, `findSafePosition` returns `found = true` and a position
that (i) is one of the generated candidates, all of which are walkable, (ii) has line of
sight to the target, (iii) is at distance at least 2 from every living monster, and (iv)
has a score that no surviving candidate exceeds. The library sort is assumed to return
a permutation of its input that is sorted by its `less`. -/
theorem findSafePosition_best (env : SafetyEnv) (playerPos : Position)
    (enemies : List Monster) (targetMonster : Monster)
    (hperm : ∀ l, (env.sortSlice l).Perm l)
    (hsorted : ∀ l, (env.sortSlice l).Pairwise (fun a b => Score.gt b.score a.score = false))
    (hex : ∃ c ∈ candidatePositions env playerPos targetMonster,
      env.LineOfSight c targetMonster.Position = true
        ∧ ∀ m ∈ enemies, m.stat StatID.Life > 0 →
            2 ≤ env.DistanceFromPoint c m.Position) :
    ∃ pos, findSafePosition env playerPos enemies targetMonster = (pos, true)
      ∧ pos ∈ candidatePositions env playerPos targetMonster
      ∧ env.IsWalkable pos = true
      ∧ env.LineOfSight pos targetMonster.Position = true
      ∧ (∀ m ∈ enemies, m.stat StatID.Life > 0 → 2 ≤ env.DistanceFromPoint pos m.Position)
      ∧ ∀ c ∈ candidatePositions env playerPos targetMonster,
          env.LineOfSight c targetMonster.Position = true →
          (∀ m ∈ enemies, m.stat StatID.Life > 0 → 2 ≤ env.DistanceFromPoint c m.Position) →
          Score.gt (scoreOf env playerPos targetMonster enemies c)
            (scoreOf env playerPos targetMonster enemies pos) = false := by
  have hmem : ∀ sp, sp ∈ env.sortSlice ((candidatePositions env playerPos targetMonster).filterMap
        (scoreCandidate env playerPos targetMonster enemies))
      ↔ ∃ c ∈ candidatePositions env playerPos targetMonster,
          env.LineOfSight c targetMonster.Position = true
            ∧ (∀ m ∈ enemies, m.stat StatID.Life > 0 →
                minSafeMonsterDistance ≤ env.DistanceFromPoint c m.Position)
            ∧ sp = ⟨c, scoreOf env playerPos targetMonster enemies c⟩ := by
    intro sp
    rw [(hperm _).mem_iff, List.mem_filterMap]
    constructor
    · rintro ⟨c, hc, hs⟩
      exact ⟨c, hc, (scoreCandidate_eq_some env playerPos targetMonster enemies c sp).mp hs⟩
    · rintro ⟨c, hc, hs⟩
      exact ⟨c, hc, (scoreCandidate_eq_some env playerPos targetMonster enemies c sp).mpr hs⟩
  obtain ⟨c0, hc0, hlos0, hfar0⟩ := hex
  have hlen : ¬ (candidatePositions env playerPos targetMonster).length = 0 := by
    intro h
    rw [List.length_eq_zero] at h
    rw [h] at hc0
    exact absurd hc0 (List.not_mem_nil c0)
  have hpair := hsorted ((candidatePositions env playerPos targetMonster).filterMap
    (scoreCandidate env playerPos targetMonster enemies))
  cases hs : env.sortSlice ((candidatePositions env playerPos targetMonster).filterMap
      (scoreCandidate env playerPos targetMonster enemies)) with
  | nil =>
    have := (hmem ⟨c0, scoreOf env playerPos targetMonster enemies c0⟩).mpr
      ⟨c0, hc0, hlos0, hfar0, rfl⟩
    rw [hs] at this
    exact absurd this (List.not_mem_nil _)
  | cons best rest =>
    rw [hs] at hpair
    obtain ⟨c, hc, hlos, hfar, hbest⟩ := (hmem best).mp (by rw [hs]; exact List.mem_cons_self _ _)
    refine ⟨best.pos, ?_, ?_, ?_, ?_, ?_, ?_⟩
    · unfold findSafePosition
      simp only [hlen, if_false, hs]
    · rw [hbest]; exact hc
    · rw [hbest]; exact candidatePositions_walkable env playerPos targetMonster c hc
    · rw [hbest]; exact hlos
    · rw [hbest]; exact hfar
    · intro c' hc' hlos' hfar'
      have hin := (hmem ⟨c', scoreOf env playerPos targetMonster enemies c'⟩).mpr
        ⟨c', hc', hlos', hfar', rfl⟩
      rw [hs] at hin
      have hb : best.score = scoreOf env playerPos targetMonster enemies best.pos := by
        rw [hbest]
      rw [← hb]
      rcases List.mem_cons.mp hin with heq | hin
      · rw [← heq]
        exact Score.gt_irrefl _
      · exact (List.pairwise_cons.mp hpair).1 _ hin

/-- C13. Position scoring is monotone in the monster distance: for two candidates with
the same distance to the target and the same distance from the player, whose distances
to the nearest living enemy are `d1` and `d2` with `2 ≤ d1 ≤ d2`, neither is skipped as
too close and the score of the first does not exceed the score of the second, the flat
bonus of 5 above the danger radius included. -/
theorem score_monotone_in_monster_distance (env : SafetyEnv) (playerPos : Position)
    (targetMonster : Monster) (enemies : List Monster) (pos1 pos2 : Position) (d1 d2 : Int)
    (hd1 : (∃ m ∈ enemies, m.stat StatID.Life > 0 ∧ env.DistanceFromPoint pos1 m.Position = d1)
      ∧ ∀ m ∈ enemies, m.stat StatID.Life > 0 → d1 ≤ env.DistanceFromPoint pos1 m.Position)
    (hd2 : (∃ m ∈ enemies, m.stat StatID.Life > 0 ∧ env.DistanceFromPoint pos2 m.Position = d2)
      ∧ ∀ m ∈ enemies, m.stat StatID.Life > 0 → d2 ≤ env.DistanceFromPoint pos2 m.Position)
    (htarget : env.DistanceFromPoint pos1 targetMonster.Position
      = env.DistanceFromPoint pos2 targetMonster.Position)
    (hplayer : env.DistanceFromPoint pos1 playerPos = env.DistanceFromPoint pos2 playerPos)
    (hsafe : 2 ≤ d1) (hle : d1 ≤ d2) :
    tooClose (minMonsterDistance env enemies pos1) = false
      ∧ tooClose (minMonsterDistance env enemies pos2) = false
      ∧ Score.gt (scoreOf env playerPos targetMonster enemies pos1)
          (scoreOf env playerPos targetMonster enemies pos2) = false := by
  have h1 := ((minMonsterDistance_spec env enemies pos1).2 d1).mpr hd1
  have h2 := ((minMonsterDistance_spec env enemies pos2).2 d2).mpr hd2
  have hq : (d1 : ℚ) ≤ (d2 : ℚ) := by exact_mod_cast hle
  have hsafe2 : 2 ≤ d2 := le_trans hsafe hle
  refine ⟨by simp [h1, tooClose, minSafeMonsterDistance, hsafe],
    by simp [h2, tooClose, minSafeMonsterDistance, hsafe2], ?_⟩
  simp only [scoreOf, h1, h2, htarget, hplayer, positionScore]
  by_cases hb1 : (d1 : ℚ) > (env.dangerDistance : ℚ)
  · have hb2 : (d2 : ℚ) > (env.dangerDistance : ℚ) := lt_of_lt_of_le hb1 hq
    simp only [hb1, hb2, if_true, Score.gt, decide_eq_false_iff_not, not_lt, gt_iff_lt]
    linarith
  · by_cases hb2 : (d2 : ℚ) > (env.dangerDistance : ℚ)
    · simp only [hb1, hb2, if_true, if_false, Score.gt, decide_eq_false_iff_not, not_lt,
        gt_iff_lt]
      linarith
    · simp only [hb1, hb2, if_false, Score.gt, decide_eq_false_iff_not, not_lt, gt_iff_lt]
      linarith


/-- Witness of C11: in the open area with the line of sight blocked everywhere, no
candidate survives and nothing is found. -/
theorem findSafePosition_not_found_witness :
    (findSafePosition { exampleSafetyEnv with LineOfSight := fun _ _ => false } ⟨0, 0⟩
        [⟨8, 50, "", ⟨5, 0⟩, [(StatID.Life, 10)]⟩]
        ⟨8, 50, "", ⟨5, 0⟩, [(StatID.Life, 10)]⟩).2 = false :=
  findSafePosition_not_found { exampleSafetyEnv with LineOfSight := fun _ _ => false } ⟨0, 0⟩
    [⟨8, 50, "", ⟨5, 0⟩, [(StatID.Life, 10)]⟩] ⟨8, 50, "", ⟨5, 0⟩, [(StatID.Life, 10)]⟩
    sortDescending_perm
    (fun _ _ h => Bool.noConfusion h.1)

/-- Witness of C12: in the open area, with the player at (0,0) and the only monster, the
target, at (5,0), the candidate (-8,-3) survives, so a position is found. -/
theorem findSafePosition_best_witness :
    ∃ pos, findSafePosition exampleSafetyEnv ⟨0, 0⟩
          [⟨8, 50, "", ⟨5, 0⟩, [(StatID.Life, 10)]⟩]
          ⟨8, 50, "", ⟨5, 0⟩, [(StatID.Life, 10)]⟩ = (pos, true)
      ∧ exampleSafetyEnv.LineOfSight pos ⟨5, 0⟩ = true
      ∧ 2 ≤ exampleSafetyEnv.DistanceFromPoint pos ⟨5, 0⟩ := by
  obtain ⟨pos, hfound, -, -, hlos, hfar, -⟩ :=
    findSafePosition_best exampleSafetyEnv ⟨0, 0⟩
      [⟨8, 50, "", ⟨5, 0⟩, [(StatID.Life, 10)]⟩] ⟨8, 50, "", ⟨5, 0⟩, [(StatID.Life, 10)]⟩
      sortDescending_perm sortDescending_sorted
      ⟨⟨-8, -3⟩, List.mem_append_left _ (by decide), rfl, by
        intro m hm _
        rw [List.mem_singleton.mp hm]
        decide⟩
  exact ⟨pos, hfound, hlos, hfar _ (List.mem_singleton_self _) (by decide)⟩

/-- Witness of C13: with the player and the target at (0,0) and one living enemy at
(10,0), the candidates (3,0) and (0,3) are equally far from the player and the target,
at the distances 7 and 13 from the enemy, and the first does not score higher. -/
theorem score_monotone_in_monster_distance_witness :
    tooClose (minMonsterDistance exampleSafetyEnv
        [⟨9, 50, "", ⟨10, 0⟩, [(StatID.Life, 10)]⟩] ⟨3, 0⟩) = false
      ∧ tooClose (minMonsterDistance exampleSafetyEnv
        [⟨9, 50, "", ⟨10, 0⟩, [(StatID.Life, 10)]⟩] ⟨0, 3⟩) = false
      ∧ Score.gt
          (scoreOf exampleSafetyEnv ⟨0, 0⟩ ⟨8, 50, "", ⟨0, 0⟩, [(StatID.Life, 10)]⟩
            [⟨9, 50, "", ⟨10, 0⟩, [(StatID.Life, 10)]⟩] ⟨3, 0⟩)
          (scoreOf exampleSafetyEnv ⟨0, 0⟩ ⟨8, 50, "", ⟨0, 0⟩, [(StatID.Life, 10)]⟩
            [⟨9, 50, "", ⟨10, 0⟩, [(StatID.Life, 10)]⟩] ⟨0, 3⟩) = false :=
  score_monotone_in_monster_distance exampleSafetyEnv ⟨0, 0⟩
    ⟨8, 50, "", ⟨0, 0⟩, [(StatID.Life, 10)]⟩ [⟨9, 50, "", ⟨10, 0⟩, [(StatID.Life, 10)]⟩]
    ⟨3, 0⟩ ⟨0, 3⟩ 7 13
    ⟨⟨_, List.mem_singleton_self _, by decide, by decide⟩, by
      intro m hm _
      rw [List.mem_singleton.mp hm]
      decide⟩
    ⟨⟨_, List.mem_singleton_self _, by decide, by decide⟩, by
      intro m hm _
      rw [List.mem_singleton.mp hm]
      decide⟩
    (by decide) (by decide) (by decide) (by decide)
/-! ## The priority scan of `BarbarianLeveling.KillMonsterSequence` -/

theorem priorityScanStep_eq (cenv : CombatEnv) (data : GameData) (monsterNpcID : Int)
    (acc : Int × Monster) (m : Monster) :
    priorityScanStep cenv data monsterNpcID acc m
      = if inPriorityRange cenv data monsterNpcID m = true then
          (if acc.1 = -1 ∨ cenv.DistanceFromMe data m.Position < acc.1 then
            (cenv.DistanceFromMe data m.Position, m) else acc)
        else acc := by
  unfold priorityScanStep inPriorityRange
  by_cases h1 : m.Name = monsterNpcID ∧ m.stat StatID.Life > 0
  · by_cases h2 : cenv.DistanceFromMe data m.Position < priorityMonsterSearchRange
    · simp [h1, h2]
    · simp [h1, h2]
  · simp [h1]

theorem foldl_priorityScanStep_none (cenv : CombatEnv) (data : GameData) (monsterNpcID : Int)
    (monsters : List Monster) (acc : Int × Monster)
    (h : ∀ m ∈ monsters, inPriorityRange cenv data monsterNpcID m = false) :
    monsters.foldl (priorityScanStep cenv data monsterNpcID) acc = acc := by
  induction monsters generalizing acc with
  | nil => rfl
  | cons m rest ih =>
    simp only [List.foldl_cons]
    rw [priorityScanStep_eq, h m (List.mem_cons_self m rest)]
    exact ih acc (fun x hx => h x (List.mem_cons_of_mem m hx))

theorem foldl_priorityScan_none (cenv : CombatEnv) (data : GameData) (ids : List Int)
    (acc : Int × Monster)
    (h : ∀ id ∈ ids, ∀ m ∈ data.Monsters, inPriorityRange cenv data id m = false) :
    ids.foldl (fun acc monsterNpcID =>
      data.Monsters.foldl (priorityScanStep cenv data monsterNpcID) acc) acc = acc := by
  induction ids generalizing acc with
  | nil => rfl
  | cons id rest ih =>
    simp only [List.foldl_cons]
    rw [foldl_priorityScanStep_none cenv data id data.Monsters acc (h id (List.mem_cons_self id rest))]
    exact ih acc (fun x hx => h x (List.mem_cons_of_mem id hx))

theorem foldl_priorityScanStep_good (cenv : CombatEnv) (data : GameData)
    (hdist : ∀ p, 0 ≤ cenv.DistanceFromMe data p) (monsterNpcID : Int)
    (monsters : List Monster) (acc : Int × Monster) (seen : List Monster)
    (hg : scanGood cenv data acc seen) :
    scanGood cenv data (monsters.foldl (priorityScanStep cenv data monsterNpcID) acc)
      (seen ++ monsters.filter (inPriorityRange cenv data monsterNpcID)) := by
  induction monsters generalizing acc seen with
  | nil => simpa using hg
  | cons m rest ih =>
    simp only [List.foldl_cons]
    rw [priorityScanStep_eq]
    by_cases hq : inPriorityRange cenv data monsterNpcID m = true
    · have hfilter : seen ++ (m :: rest).filter (inPriorityRange cenv data monsterNpcID)
          = (seen ++ [m]) ++ rest.filter (inPriorityRange cenv data monsterNpcID) := by
        simp [List.filter, hq]
      rw [hfilter, if_pos hq]
      apply ih
      rcases hg with ⟨h1, h2⟩ | ⟨h1, h2, h3⟩
      · rw [if_pos (Or.inl h1), h2]
        exact Or.inr ⟨by simp, rfl, by simp⟩
      · have hne : ¬ acc.1 = -1 := by
          have := hdist acc.2.Position
          omega
        by_cases hlt : cenv.DistanceFromMe data m.Position < acc.1
        · rw [if_pos (Or.inr hlt)]
          refine Or.inr ⟨by simp, rfl, ?_⟩
          intro x hx
          rcases List.mem_append.mp hx with hx | hx
          · have := h3 x hx
            show cenv.DistanceFromMe data m.Position ≤ cenv.DistanceFromMe data x.Position
            omega
          · rw [List.mem_singleton.mp hx]
        · rw [if_neg (fun h => h.elim hne hlt)]
          refine Or.inr ⟨List.mem_append_left _ h1, h2, ?_⟩
          intro x hx
          rcases List.mem_append.mp hx with hx | hx
          · exact h3 x hx
          · rw [List.mem_singleton.mp hx]
            omega
    · have hq' : inPriorityRange cenv data monsterNpcID m = false := by
        simpa using hq
      have hfilter : seen ++ (m :: rest).filter (inPriorityRange cenv data monsterNpcID)
          = seen ++ rest.filter (inPriorityRange cenv data monsterNpcID) := by
        simp [List.filter, hq']
      rw [hfilter, if_neg hq]
      exact ih acc seen hg

theorem foldl_priorityScan_good (cenv : CombatEnv) (data : GameData)
    (hdist : ∀ p, 0 ≤ cenv.DistanceFromMe data p) (ids : List Int)
    (acc : Int × Monster) (seen : List Monster) (hg : scanGood cenv data acc seen) :
    scanGood cenv data
      (ids.foldl (fun acc monsterNpcID =>
        data.Monsters.foldl (priorityScanStep cenv data monsterNpcID) acc) acc)
      (seen ++ ids.flatMap (fun id => data.Monsters.filter (inPriorityRange cenv data id))) := by
  induction ids generalizing acc seen with
  | nil => simpa using hg
  | cons id rest ih =>
    simp only [List.foldl_cons, List.flatMap_cons]
    rw [← List.append_assoc]
    exact ih _ _ (foldl_priorityScanStep_good cenv data hdist id data.Monsters acc seen hg)

theorem priorityScan_good (cenv : CombatEnv) (data : GameData)
    (hdist : ∀ p, 0 ≤ cenv.DistanceFromMe data p) :
    scanGood cenv data (priorityScan cenv data)
      ((priorityMonsters cenv.npc).flatMap
        (fun id => data.Monsters.filter (inPriorityRange cenv data id))) := by
  have h := foldl_priorityScan_good cenv data hdist (priorityMonsters cenv.npc)
    (-1, Monster.zero) [] (Or.inl ⟨rfl, rfl⟩)
  simpa [priorityScan] using h

theorem mem_priority_seen (cenv : CombatEnv) (data : GameData) (m : Monster) :
    m ∈ (priorityMonsters cenv.npc).flatMap
        (fun id => data.Monsters.filter (inPriorityRange cenv data id))
      ↔ m ∈ data.Monsters ∧ m.Name ∈ priorityMonsters cenv.npc ∧ m.stat StatID.Life > 0
          ∧ cenv.DistanceFromMe data m.Position < 15 := by
  simp only [List.mem_flatMap, List.mem_filter, inPriorityRange, Bool.and_eq_true,
    decide_eq_true_eq, priorityMonsterSearchRange]
  constructor
  · rintro ⟨id, hid, hm, ⟨hname, hlife⟩, hd⟩
    exact ⟨hm, hname ▸ hid, hlife, hd⟩
  · rintro ⟨hm, hname, hlife, hd⟩
    exact ⟨m.Name, hname, hm, ⟨rfl, hlife⟩, hd⟩

theorem barbarianSelectTarget_no_attack (cenv : CombatEnv)
    (monsterSelector : GameData → Int × Bool) (data : GameData) :
    attackCount (barbarianSelectTarget cenv monsterSelector data).2 = 0
      ∧ ∀ call ∈ (barbarianSelectTarget cenv monsterSelector data).2,
          call.isAttack = false := by
  unfold barbarianSelectTarget
  simp only
  split_ifs <;> simp [attackCount, Action.isAttack]

/-- How a pass of `BarbarianLeveling.KillMonsterSequence` can end: either it returns `nil`
without an attack, or the target was found, the checks passed, the count of the target
was below the cap, and the pass makes one attack on the target, counts it and
continues. The calls start with those of the target selection. -/
theorem barbarianBody_cases (cenv : CombatEnv) (monsterSelector : GameData → Int × Bool)
    (skipOnImmunities : List String) (st : BarbarianLoopState) (tick : Tick) :
    ∃ extra : List Action,
      (barbarianBody cenv monsterSelector skipOnImmunities st tick).2
          = (barbarianSelectTarget cenv monsterSelector tick.Data).2 ++ extra
        ∧ (((barbarianBody cenv monsterSelector skipOnImmunities st tick).1
                = LoopStep.Return none
              ∧ attackCount extra = 0)
          ∨ ((barbarianSelectTarget cenv monsterSelector tick.Data).1.2 = true
              ∧ cenv.preBattleChecks tick.Data
                  (barbarianSelectTarget cenv monsterSelector tick.Data).1.1
                  skipOnImmunities = true
              ∧ (if st.previousUnitID
                      ≠ (barbarianSelectTarget cenv monsterSelector tick.Data).1.1
                  then 0 else st.completedAttackLoops) < 10
              ∧ (barbarianBody cenv monsterSelector skipOnImmunities st tick).1
                  = LoopStep.Continue
                      { completedAttackLoops :=
                          (if st.previousUnitID
                              ≠ (barbarianSelectTarget cenv monsterSelector tick.Data).1.1
                            then 0 else st.completedAttackLoops) + 1,
                        previousUnitID :=
                          (barbarianSelectTarget cenv monsterSelector tick.Data).1.1 }
              ∧ attackCount extra = 1
              ∧ ∀ call ∈ extra, call.isAttack = true →
                  ∃ n opts, call = Action.PrimaryAttack
                    (barbarianSelectTarget cenv monsterSelector tick.Data).1.1 n false opts)) := by
  simp only [barbarianBody]
  generalize hc : (if st.previousUnitID
      ≠ (barbarianSelectTarget cenv monsterSelector tick.Data).1.1
      then 0 else st.completedAttackLoops) = c
  by_cases hfound : (barbarianSelectTarget cenv monsterSelector tick.Data).1.2 = true
  swap
  · refine ⟨[], ?_, Or.inl ⟨?_, rfl⟩⟩ <;> simp [hfound]
  by_cases hpre : cenv.preBattleChecks tick.Data
      (barbarianSelectTarget cenv monsterSelector tick.Data).1.1 skipOnImmunities = true
  swap
  · refine ⟨[], ?_, Or.inl ⟨?_, rfl⟩⟩ <;> simp [hfound, hpre]
  by_cases hcap : c ≥ BarbarianLevelingMaxAttacksLoop
  · refine ⟨[], ?_, Or.inl ⟨?_, rfl⟩⟩ <;> simp [hfound, hpre, hcap]
  have hlt : c < 10 := by
    simpa [BarbarianLevelingMaxAttacksLoop] using hcap
  cases hfind : FindByID tick.Data.Monsters
      (barbarianSelectTarget cenv monsterSelector tick.Data).1.1 with
  | none =>
    refine ⟨[Action.Log "Monster not found"], ?_, Or.inl ⟨?_, rfl⟩⟩ <;>
      simp [hfound, hpre, hcap, hfind]
  | some monster =>
    by_cases hham : tick.Data.SkillLevel SkillID.BlessedHammer > 0
    · by_cases hprev : st.previousUnitID
          = (barbarianSelectTarget cenv monsterSelector tick.Data).1.1
      · by_cases hlife : monster.stat StatID.Life > 0
        · refine ⟨[Action.Log "Using Blessed Hammer", Action.RandomMovement], ?_,
            Or.inl ⟨?_, rfl⟩⟩ <;>
            simp [hfound, hpre, hcap, hfind, hham, hprev, hlife]
        · refine ⟨[Action.Log "Using Blessed Hammer"], ?_, Or.inl ⟨?_, rfl⟩⟩ <;>
            simp [hfound, hpre, hcap, hfind, hham, hprev, hlife]
      · refine ⟨[Action.Log "Using Blessed Hammer",
            Action.PrimaryAttack (barbarianSelectTarget cenv monsterSelector tick.Data).1.1 5
              false [AttackOption.Distance 2 7, AttackOption.EnsureAura SkillID.Concentration],
            Action.Log "Performing random movement to reposition.",
            Action.RandomMovement, Action.Sleep 150], ?_,
          Or.inr ⟨hfound, hpre, hlt, ?_, rfl, ?_⟩⟩
        · simp [hfound, hpre, hcap, hfind, hham, hprev]
        · simp [hfound, hpre, hcap, hfind, hham, hprev]
        · intro call hcall hattack
          simp only [List.mem_cons, List.mem_singleton, List.not_mem_nil, or_false] at hcall
          rcases hcall with rfl | rfl | rfl | rfl | rfl
          · exact absurd hattack (by simp [Action.isAttack])
          · exact ⟨_, _, rfl⟩
          · exact absurd hattack (by simp [Action.isAttack])
          · exact absurd hattack (by simp [Action.isAttack])
          · exact absurd hattack (by simp [Action.isAttack])
    · by_cases hl6 : tick.Data.Level < 6
      · refine ⟨[Action.Log "Using Might and Sacrifice",
            Action.PrimaryAttack (barbarianSelectTarget cenv monsterSelector tick.Data).1.1 1
              false [AttackOption.Distance 1 3, AttackOption.EnsureAura SkillID.Might]], ?_,
          Or.inr ⟨hfound, hpre, hlt, ?_, rfl, ?_⟩⟩
        · simp [hfound, hpre, hcap, hfind, hham, hl6]
        · simp [hfound, hpre, hcap, hfind, hham, hl6]
        · intro call hcall hattack
          simp only [List.mem_cons, List.mem_singleton, List.not_mem_nil, or_false] at hcall
          rcases hcall with rfl | rfl
          · exact absurd hattack (by simp [Action.isAttack])
          · exact ⟨_, _, rfl⟩
      · by_cases hl12 : tick.Data.Level ≥ 6 ∧ tick.Data.Level < 12
        · refine ⟨[Action.Log "Using Holy Fire and Sacrifice",
              Action.PrimaryAttack (barbarianSelectTarget cenv monsterSelector tick.Data).1.1 1
                false [AttackOption.Distance 1 3, AttackOption.EnsureAura SkillID.HolyFire]], ?_,
            Or.inr ⟨hfound, hpre, hlt, ?_, rfl, ?_⟩⟩
          · simp [hfound, hpre, hcap, hfind, hham, hl6, hl12]
          · simp [hfound, hpre, hcap, hfind, hham, hl6, hl12]
          · intro call hcall hattack
            simp only [List.mem_cons, List.mem_singleton, List.not_mem_nil, or_false] at hcall
            rcases hcall with rfl | rfl
            · exact absurd hattack (by simp [Action.isAttack])
            · exact ⟨_, _, rfl⟩
        · refine ⟨[Action.Log "Using Holy Fire and Zeal",
              Action.PrimaryAttack (barbarianSelectTarget cenv monsterSelector tick.Data).1.1 1
                false [AttackOption.Distance 1 3, AttackOption.EnsureAura SkillID.HolyFire]], ?_,
            Or.inr ⟨hfound, hpre, hlt, ?_, rfl, ?_⟩⟩
          · simp [hfound, hpre, hcap, hfind, hham, hl6, hl12]
          · simp [hfound, hpre, hcap, hfind, hham, hl6, hl12]
          · intro call hcall hattack
            simp only [List.mem_cons, List.mem_singleton, List.not_mem_nil, or_false] at hcall
            rcases hcall with rfl | rfl
            · exact absurd hattack (by simp [Action.isAttack])
            · exact ⟨_, _, rfl⟩

theorem attackCount_append (a b : List Action) :
    attackCount (a ++ b) = attackCount a + attackCount b := by
  simp [attackCount, List.filter_append]

theorem attackCount_eq_zero_iff (l : List Action) :
    attackCount l = 0 ↔ ∀ call ∈ l, call.isAttack = false := by
  simp [attackCount, List.filter_eq_nil_iff]

/-- C15. In each pass of `BarbarianLeveling.KillMonsterSequence`, distances from the
player being non-negative: if some monster of a priority kind (FallenShaman,
MummyGenerator, BaalSubjectMummy, FetishShaman, CarverShaman) is alive and within the
priority search radius (15), the target of the pass is such a monster at minimal
distance from the player and the selector is not called, whatever it would pick;
otherwise the target is exactly the result of the selector. Every attack of the pass is
on the target of the pass. -/
theorem barbarian_priority_target (cenv : CombatEnv)
    (monsterSelector : GameData → Int × Bool) (skipOnImmunities : List String)
    (data : GameData) (hdist : ∀ p, 0 ≤ cenv.DistanceFromMe data p) :
    ((∃ m ∈ data.Monsters, m.Name ∈ priorityMonsters cenv.npc ∧ m.stat StatID.Life > 0
          ∧ cenv.DistanceFromMe data m.Position < 15) →
        ∃ m ∈ data.Monsters, m.Name ∈ priorityMonsters cenv.npc ∧ m.stat StatID.Life > 0
          ∧ cenv.DistanceFromMe data m.Position < 15
          ∧ (∀ x ∈ data.Monsters, x.Name ∈ priorityMonsters cenv.npc → x.stat StatID.Life > 0 →
              cenv.DistanceFromMe data x.Position < 15 →
              cenv.DistanceFromMe data m.Position ≤ cenv.DistanceFromMe data x.Position)
          ∧ barbarianSelectTarget cenv monsterSelector data
              = ((m.UnitID, true), [Action.Log "Priority monster found"]))
      ∧ ((¬ ∃ m ∈ data.Monsters, m.Name ∈ priorityMonsters cenv.npc ∧ m.stat StatID.Life > 0
            ∧ cenv.DistanceFromMe data m.Position < 15) →
          barbarianSelectTarget cenv monsterSelector data
            = (monsterSelector data, [Action.MonsterSelector]))
      ∧ (∀ st tick, tick.Data = data →
          ∀ call ∈ (barbarianBody cenv monsterSelector skipOnImmunities st tick).2,
            call.isAttack = true →
            ∃ n opts, call = Action.PrimaryAttack
              (barbarianSelectTarget cenv monsterSelector data).1.1 n false opts) := by
  have hgood := priorityScan_good cenv data hdist
  refine ⟨?_, ?_, ?_⟩
  · rintro ⟨m0, hm0, hname0, hlife0, hd0⟩
    have hmem0 := (mem_priority_seen cenv data m0).mpr ⟨hm0, hname0, hlife0, hd0⟩
    rcases hgood with ⟨-, hnil⟩ | ⟨h1, h2, h3⟩
    · rw [hnil] at hmem0
      exact absurd hmem0 (List.not_mem_nil m0)
    · obtain ⟨hm, hname, hlife, hd⟩ := (mem_priority_seen cenv data _).mp h1
      refine ⟨(priorityScan cenv data).2, hm, hname, hlife, hd, ?_, ?_⟩
      · intro x hx hxname hxlife hxd
        have := h3 x ((mem_priority_seen cenv data x).mpr ⟨hx, hxname, hxlife, hxd⟩)
        rw [h2] at this
        exact this
      · have hne : (priorityScan cenv data).1 ≠ -1 := by
          have := hdist (priorityScan cenv data).2.Position
          omega
        simp only [barbarianSelectTarget, hne, ne_eq, not_false_eq_true, if_true]
  · intro hnone
    have hscan : priorityScan cenv data = (-1, Monster.zero) := by
      apply foldl_priorityScan_none
      intro id hid m hm
      by_contra hq
      have hq' : inPriorityRange cenv data id m = true := by simpa using hq
      simp only [inPriorityRange, Bool.and_eq_true, decide_eq_true_eq,
        priorityMonsterSearchRange] at hq'
      exact hnone ⟨m, hm, hq'.1.1 ▸ hid, hq'.1.2, hq'.2⟩
    simp [barbarianSelectTarget, hscan]
  · intro st tick htick call hcall hattack
    have hsel := (barbarianSelectTarget_no_attack cenv monsterSelector data).2
    rw [← htick] at hsel ⊢
    obtain ⟨extra, hcalls, hcases⟩ :=
      barbarianBody_cases cenv monsterSelector skipOnImmunities st tick
    rw [hcalls] at hcall
    rcases List.mem_append.mp hcall with hcall | hcall
    · rw [hsel call hcall] at hattack
      exact Bool.noConfusion hattack
    · rcases hcases with ⟨-, hzero⟩ | ⟨-, -, -, -, -, hall⟩
      · rw [(attackCount_eq_zero_iff extra).mp hzero call hcall] at hattack
        exact Bool.noConfusion hattack
      · exact hall call hcall hattack

/-- Witness of C15: a living Fallen Shaman at distance 3 is the target although the
selector picks the monster 8. -/
theorem barbarian_priority_target_witness :
    barbarianSelectTarget exampleCombatEnv (fun _ => (8, true))
        (exampleData 100
          [⟨8, 50, "", ⟨20, 0⟩, [(StatID.Life, 10)]⟩, ⟨7, 1, "", ⟨3, 0⟩, [(StatID.Life, 10)]⟩])
      = ((7, true), [Action.Log "Priority monster found"]) := by
  obtain ⟨m, hm, hname, -, -, -, hsel⟩ :=
    (barbarian_priority_target exampleCombatEnv (fun _ => (8, true)) []
      (exampleData 100
        [⟨8, 50, "", ⟨20, 0⟩, [(StatID.Life, 10)]⟩, ⟨7, 1, "", ⟨3, 0⟩, [(StatID.Life, 10)]⟩])
      (fun p => Int.ofNat_nonneg _)).1
      ⟨⟨7, 1, "", ⟨3, 0⟩, [(StatID.Life, 10)]⟩, by decide, by decide, by decide, by decide⟩
  rw [hsel]
  simp only [exampleData, List.mem_cons, List.mem_singleton, List.not_mem_nil, or_false] at hm
  rcases hm with rfl | rfl
  · exact absurd hname (by decide)
  · rfl

/-! ## Running the loops -/

theorem runLoop_return {σ ρ : Type} (body : σ → Tick → LoopStep σ ρ × List Action)
    (ticks : Nat → Tick) (fuel i : Nat) (st : σ) (value : ρ)
    (h : (body st (ticks i)).1 = LoopStep.Return value) :
    runLoop body ticks (fuel + 1) i st = (some value, (body st (ticks i)).2) := by
  rcases hb : body st (ticks i) with ⟨step, calls⟩
  rw [hb] at h
  simp only at h
  subst h
  simp only [runLoop, hb]

theorem runLoop_continue {σ ρ : Type} (body : σ → Tick → LoopStep σ ρ × List Action)
    (ticks : Nat → Tick) (fuel i : Nat) (st st' : σ)
    (h : (body st (ticks i)).1 = LoopStep.Continue st') :
    runLoop body ticks (fuel + 1) i st
      = ((runLoop body ticks fuel (i + 1) st').1,
          (body st (ticks i)).2 ++ (runLoop body ticks fuel (i + 1) st').2) := by
  rcases hb : body st (ticks i) with ⟨step, calls⟩
  rw [hb] at h
  simp only at h
  subst h
  simp only [runLoop, hb]

/-- The stall protection, from any pass on: with the same target `id` selected in every
pass and the checks passing, a loop that enters pass `i` with the count `10 - k` for the
target returns `nil` after at most `k` more attacks, one in each pass before the
last. -/
theorem barbarian_stall_from (cenv : CombatEnv) (monsterSelector : GameData → Int × Bool)
    (skipOnImmunities : List String) (ticks : Nat → Tick) (id : Int)
    (hsel : ∀ i, (barbarianSelectTarget cenv monsterSelector (ticks i).Data).1 = (id, true))
    (k : Nat) :
    ∀ (i : Nat) (st : BarbarianLoopState),
      (if st.previousUnitID ≠ id then 0 else st.completedAttackLoops) = 10 - (k : Int) →
      ∃ n, n ≤ k ∧ ∃ calls,
        runLoop (barbarianBody cenv monsterSelector skipOnImmunities) ticks (n + 1) i st
            = (some none, calls)
          ∧ attackCount calls = n
          ∧ ∀ call ∈ calls, call.isAttack = true →
              ∃ m opts, call = Action.PrimaryAttack id m false opts := by
  induction k with
  | zero =>
    intro i st hcount
    obtain ⟨extra, hcalls, hcases⟩ :=
      barbarianBody_cases cenv monsterSelector skipOnImmunities st (ticks i)
    have hselcalls := barbarianSelectTarget_no_attack cenv monsterSelector (ticks i).Data
    rw [hsel i] at hcases
    simp only at hcases
    rcases hcases with ⟨hret, hzero⟩ | ⟨-, -, hlt, -⟩
    · refine ⟨0, le_refl 0, _, runLoop_return _ ticks 0 i st none hret, ?_, ?_⟩
      · rw [hcalls, attackCount_append, hselcalls.1, hzero]
      · intro call hcall hattack
        rw [hcalls] at hcall
        have hz : attackCount ((barbarianSelectTarget cenv monsterSelector (ticks i).Data).2
            ++ extra) = 0 := by
          rw [attackCount_append, hselcalls.1, hzero]
        rw [(attackCount_eq_zero_iff _).mp hz call hcall] at hattack
        exact Bool.noConfusion hattack
    · rw [hcount] at hlt
      simp at hlt
  | succ k ih =>
    intro i st hcount
    obtain ⟨extra, hcalls, hcases⟩ :=
      barbarianBody_cases cenv monsterSelector skipOnImmunities st (ticks i)
    have hselcalls := barbarianSelectTarget_no_attack cenv monsterSelector (ticks i).Data
    rw [hsel i] at hcases
    simp only at hcases
    rcases hcases with ⟨hret, hzero⟩ | ⟨-, -, -, hcont, hone, hall⟩
    · refine ⟨0, Nat.zero_le _, _, runLoop_return _ ticks 0 i st none hret, ?_, ?_⟩
      · rw [hcalls, attackCount_append, hselcalls.1, hzero]
      · intro call hcall hattack
        rw [hcalls] at hcall
        have hz : attackCount ((barbarianSelectTarget cenv monsterSelector (ticks i).Data).2
            ++ extra) = 0 := by
          rw [attackCount_append, hselcalls.1, hzero]
        rw [(attackCount_eq_zero_iff _).mp hz call hcall] at hattack
        exact Bool.noConfusion hattack
    · rw [hcount] at hcont
      obtain ⟨n, hn, calls, hrun, hcnt, hattacks⟩ := ih (i + 1)
        { completedAttackLoops := 10 - ((k + 1 : Nat) : Int) + 1, previousUnitID := id }
        (by simp; omega)
      refine ⟨n + 1, Nat.succ_le_succ hn,
        (barbarianBody cenv monsterSelector skipOnImmunities st (ticks i)).2 ++ calls,
        ?_, ?_, ?_⟩
      · rw [runLoop_continue _ ticks (n + 1) i st _ hcont, hrun]
      · rw [attackCount_append, hcalls, attackCount_append, hselcalls.1, hone, hcnt]
        omega
      · intro call hcall hattack
        rcases List.mem_append.mp hcall with hcall | hcall
        · rw [hcalls] at hcall
          rcases List.mem_append.mp hcall with hcall | hcall
          · rw [hselcalls.2 call hcall] at hattack
            exact Bool.noConfusion hattack
          · exact hall call hcall hattack
        · exact hattacks call hcall hattack

/-- C16. Stall protection in `BarbarianLeveling.KillMonsterSequence`: for every sequence
of snapshots in which the same target identifier is selected in every pass, the loop
returns success (`nil`) in some pass `n + 1` with `n ≤ 10`, having made exactly `n`
attack calls, at most `BarbarianLevelingMaxAttacksLoop`, one in each earlier pass and
all on that target. -/
theorem barbarian_stall_protection (cenv : CombatEnv)
    (monsterSelector : GameData → Int × Bool) (skipOnImmunities : List String)
    (ticks : Nat → Tick) (id : Int)
    (hsel : ∀ i, (barbarianSelectTarget cenv monsterSelector (ticks i).Data).1 = (id, true)) :
    ∃ n, n ≤ 10 ∧ ∃ calls,
      BarbarianLeveling.KillMonsterSequence cenv monsterSelector skipOnImmunities ticks (n + 1)
          = (some none, calls)
        ∧ attackCount calls = n
        ∧ ∀ call ∈ calls, call.isAttack = true →
            ∃ m opts, call = Action.PrimaryAttack id m false opts := by
  have h := barbarian_stall_from cenv monsterSelector skipOnImmunities ticks id hsel 10 0
    BarbarianLoopState.start (by simp [BarbarianLoopState.start])
  exact h


/-- Witness of C16: with the living monster 8 next to the player selected in every pass,
the loop returns `nil` within eleven passes. -/
theorem barbarian_stall_protection_witness :
    ∃ n, n ≤ 10 ∧ ∃ calls,
      BarbarianLeveling.KillMonsterSequence exampleCombatEnv (fun _ => (8, true)) []
          (fun _ => exampleTick 0 (exampleData 100 [⟨8, 50, "", ⟨3, 0⟩, [(StatID.Life, 10)]⟩]))
          (n + 1)
        = (some none, calls)
      ∧ attackCount calls = n
      ∧ ∀ call ∈ calls, call.isAttack = true →
          ∃ m opts, call = Action.PrimaryAttack 8 m false opts :=
  barbarian_stall_protection exampleCombatEnv (fun _ => (8, true)) []
    (fun _ => exampleTick 0 (exampleData 100 [⟨8, 50, "", ⟨3, 0⟩, [(StatID.Life, 10)]⟩])) 8
    (fun _ => by dsimp only; decide)
/-! ## `LightningSorceress.KillMonsterSequence` -/

theorem sorceressEngage_not_found (cenv : CombatEnv) (monsterSelector : GameData → Int × Bool)
    (skipOnImmunities : List String) (st : SorceressLoopState) (tick : Tick)
    (h : (monsterSelector tick.Data).2 = false) :
    sorceressEngage cenv monsterSelector skipOnImmunities st tick
      = (LoopStep.Return none, [Action.MonsterSelector]) := by
  simp [sorceressEngage, h]

theorem sorceressAttack_calls (cenv : CombatEnv) (st : SorceressLoopState) (tick : Tick)
    (monster : Monster) : attackCount (sorceressAttack cenv st tick monster).2 = 1 := by
  unfold sorceressAttack
  simp only
  split_ifs <;> simp [attackCount, Action.isAttack]

/-- The part of a pass after the repositioning block, when the target is found alive and
the checks pass. -/
theorem sorceressEngage_eq (cenv : CombatEnv) (monsterSelector : GameData → Int × Bool)
    (skipOnImmunities : List String) (st : SorceressLoopState) (tick : Tick)
    (id : Int) (monster : Monster)
    (hsel : monsterSelector tick.Data = (id, true))
    (hpre : cenv.preBattleChecks tick.Data id skipOnImmunities = true)
    (hfind : FindByID tick.Data.Monsters id = some monster)
    (hlife : monster.stat StatID.Life > 0) :
    sorceressEngage cenv monsterSelector skipOnImmunities st tick
      = if !st.staticFieldCast ∧ shouldCastStaticField monster = true then
          (if tick.StaticFieldErr = none then
            (LoopStep.Continue { st with staticFieldCast := true },
              [Action.MonsterSelector,
                Action.SecondaryAttack SkillID.StaticField monster.UnitID 1
                  [AttackOption.RangedDistance LightningStaticMinDistance
                    LightningStaticMaxDistance]])
          else
            (LoopStep.Continue (sorceressAttack cenv st tick monster).1,
              [Action.MonsterSelector,
                Action.SecondaryAttack SkillID.StaticField monster.UnitID 1
                  [AttackOption.RangedDistance LightningStaticMinDistance
                    LightningStaticMaxDistance]]
                ++ (sorceressAttack cenv st tick monster).2))
        else
          (LoopStep.Continue (sorceressAttack cenv st tick monster).1,
            [Action.MonsterSelector] ++ (sorceressAttack cenv st tick monster).2) := by
  have hl : ¬ monster.stat StatID.Life ≤ 0 := not_le.mpr hlife
  simp only [sorceressEngage, hsel, hpre, hfind, hl, Bool.not_true, Bool.false_eq_true,
    if_false]

/-- A pass that finds its target alive and passes the checks does not return, and makes
one attack call at least. -/
theorem sorceressEngage_continue (cenv : CombatEnv) (monsterSelector : GameData → Int × Bool)
    (skipOnImmunities : List String) (st : SorceressLoopState) (tick : Tick)
    (id : Int) (monster : Monster)
    (hsel : monsterSelector tick.Data = (id, true))
    (hpre : cenv.preBattleChecks tick.Data id skipOnImmunities = true)
    (hfind : FindByID tick.Data.Monsters id = some monster)
    (hlife : monster.stat StatID.Life > 0) :
    ∃ st' calls, sorceressEngage cenv monsterSelector skipOnImmunities st tick
        = (LoopStep.Continue st', calls)
      ∧ 1 ≤ attackCount calls := by
  have hone := sorceressAttack_calls cenv st tick monster
  rw [sorceressEngage_eq cenv monsterSelector skipOnImmunities st tick id monster hsel hpre
    hfind hlife]
  split_ifs
  · exact ⟨_, _, rfl, by simp [attackCount, Action.isAttack]⟩
  · exact ⟨_, _, rfl, by rw [attackCount_append, hone]; omega⟩
  · exact ⟨_, _, rfl, by rw [attackCount_append, hone]; omega⟩

/-- A pass with the player alive ends as its part after the repositioning block ends,
entered with the loop variables `st` or with `st` and a new `lastReposition`. -/
theorem sorceressBody_alive (env : SafetyEnv) (cenv : CombatEnv)
    (monsterSelector : GameData → Int × Bool) (skipOnImmunities : List String)
    (st : SorceressLoopState) (tick : Tick) (id : Int) (monster : Monster)
    (halive : tick.Data.HPPercent > 0)
    (hsel : monsterSelector tick.Data = (id, true))
    (hfind : FindByID tick.Data.Monsters id = some monster) :
    ∃ st1 before, st1.completedAttackLoops = st.completedAttackLoops
      ∧ st1.staticFieldCast = st.staticFieldCast
      ∧ attackCount before = 0
      ∧ sorceressBody env cenv monsterSelector skipOnImmunities st tick
          = ((sorceressEngage cenv monsterSelector skipOnImmunities st1 tick).1,
              before ++ (sorceressEngage cenv monsterSelector skipOnImmunities st1 tick).2) := by
  have hdead : isPlayerDead2 tick.Data = false := by
    simp [isPlayerDead2, halive]
  by_cases hrepos : (needsRepositioning env.DistanceFromPoint env.dangerDistance
      tick.Data.PlayerPosition tick.Data.Enemies).1 = true
      ∧ tick.Now - st.lastReposition > timeSecond * 1
  · refine ⟨{ st with lastReposition := tick.Now },
      [Action.PauseIfNotPriority, Action.MonsterSelector,
        Action.Log ("Dangerous monster detected at distance "
          ++ fmtInt (env.DistanceFromPoint tick.Data.PlayerPosition
              (needsRepositioning env.DistanceFromPoint env.dangerDistance
                tick.Data.PlayerPosition tick.Data.Enemies).2.Position)
          ++ ", repositioning..."),
        if (findSafePosition env tick.Data.PlayerPosition tick.Data.Enemies monster).2 = true
        then Action.MoveTo
          (findSafePosition env tick.Data.PlayerPosition tick.Data.Enemies monster).1
        else Action.Log "Could not find safe position for repositioning"],
      rfl, rfl, ?_, ?_⟩
    · split_ifs <;> simp [attackCount, Action.isAttack]
    · simp only [sorceressBody, hdead, hrepos, hsel, hfind, Bool.false_eq_true, if_false,
        if_true, and_self, Bool.not_true]
  · refine ⟨st, [Action.PauseIfNotPriority], rfl, rfl, by simp [attackCount, Action.isAttack], ?_⟩
    simp only [sorceressBody, hdead, hrepos, Bool.false_eq_true, if_false]

theorem barbarianSelectTarget_no_priority (cenv : CombatEnv)
    (monsterSelector : GameData → Int × Bool) (data : GameData)
    (hnone : ∀ m ∈ data.Monsters, ¬ (m.Name ∈ priorityMonsters cenv.npc
      ∧ m.stat StatID.Life > 0 ∧ cenv.DistanceFromMe data m.Position < 15)) :
    barbarianSelectTarget cenv monsterSelector data
      = (monsterSelector data, [Action.MonsterSelector]) := by
  have hscan : priorityScan cenv data = (-1, Monster.zero) := by
    apply foldl_priorityScan_none
    intro id hid m hm
    by_contra hq
    have hq' : inPriorityRange cenv data id m = true := by simpa using hq
    simp only [inPriorityRange, Bool.and_eq_true, decide_eq_true_eq,
      priorityMonsterSearchRange] at hq'
    exact hnone m hm ⟨hq'.1.1 ▸ hid, hq'.1.2, hq'.2⟩
  simp [barbarianSelectTarget, hscan]

theorem sorceressBody_dead (env : SafetyEnv) (cenv : CombatEnv)
    (monsterSelector : GameData → Int × Bool) (skipOnImmunities : List String)
    (st : SorceressLoopState) (tick : Tick) (h : tick.Data.HPPercent ≤ 0) :
    sorceressBody env cenv monsterSelector skipOnImmunities st tick
      = (LoopStep.Return (some GoError.ErrDied),
          [Action.PauseIfNotPriority,
            Action.Log "Player detected as dead during KillMonsterSequence, stopping actions.",
            Action.Sleep 500]) := by
  simp [sorceressBody, isPlayerDead2, h]

theorem sorceressBody_not_found (env : SafetyEnv) (cenv : CombatEnv)
    (monsterSelector : GameData → Int × Bool) (skipOnImmunities : List String)
    (st : SorceressLoopState) (tick : Tick) (halive : tick.Data.HPPercent > 0)
    (h : (monsterSelector tick.Data).2 = false) :
    sorceressBody env cenv monsterSelector skipOnImmunities st tick
      = (LoopStep.Return none, [Action.PauseIfNotPriority, Action.MonsterSelector]) := by
  have hdead : isPlayerDead2 tick.Data = false := by
    simp [isPlayerDead2, halive]
  by_cases hrepos : (needsRepositioning env.DistanceFromPoint env.dangerDistance
      tick.Data.PlayerPosition tick.Data.Enemies).1 = true
      ∧ tick.Now - st.lastReposition > timeSecond * 1
  · simp only [sorceressBody, hdead, hrepos, h, Bool.false_eq_true, if_false, if_true,
      and_self, Bool.not_false]
  · simp only [sorceressBody, hdead, hrepos, Bool.false_eq_true, if_false,
      sorceressEngage_not_found cenv monsterSelector skipOnImmunities st tick h,
      List.singleton_append]

/-- C14, as stated, fails. With a living Fallen Shaman at distance 3 and a selector that
never finds a target, the first pass of `BarbarianLeveling.KillMonsterSequence` attacks
the shaman and the loop goes on. With the player dead,
`LightningSorceress.KillMonsterSequence` returns `health.ErrDied`, not success. -/
theorem no_target_counterexample :
    BarbarianLeveling.KillMonsterSequence exampleCombatEnv (fun _ => (0, false)) []
        (fun _ => exampleTick 0 (exampleData 100 [⟨7, 1, "", ⟨3, 0⟩, [(StatID.Life, 10)]⟩])) 1
      = (none, [Action.Log "Priority monster found", Action.Log "Using Might and Sacrifice",
          Action.PrimaryAttack 7 1 false
            [AttackOption.Distance 1 3, AttackOption.EnsureAura SkillID.Might]])
      ∧ (LightningSorceress.KillMonsterSequence exampleSafetyEnv exampleCombatEnv
          (fun _ => (0, false)) [] 0 (fun _ => exampleTick 0 (exampleData 0 [])) 1).1
        = some (some GoError.ErrDied) := by
  constructor <;> decide

/-- C14, amended. If the selector always returns not-found, then
`LightningSorceress.KillMonsterSequence` returns in its first pass without an attack,
with success (`nil`) when the life percentage of the player is above 0 and with
`health.ErrDied` otherwise; and `BarbarianLeveling.KillMonsterSequence` returns success
in its first pass without an attack when no living monster of a priority kind is within
the priority search radius (15). -/
theorem no_target_first_pass (env : SafetyEnv) (cenv : CombatEnv)
    (monsterSelector : GameData → Int × Bool) (skipOnImmunities : List String)
    (startNow : Int) (ticks : Nat → Tick) (fuel : Nat)
    (hsel : ∀ data, (monsterSelector data).2 = false) :
    ((∀ m ∈ (ticks 0).Data.Monsters, ¬ (m.Name ∈ priorityMonsters cenv.npc
          ∧ m.stat StatID.Life > 0 ∧ cenv.DistanceFromMe (ticks 0).Data m.Position < 15)) →
        BarbarianLeveling.KillMonsterSequence cenv monsterSelector skipOnImmunities ticks
            (fuel + 1)
          = (some none, [Action.MonsterSelector]))
      ∧ ((ticks 0).Data.HPPercent > 0 →
          LightningSorceress.KillMonsterSequence env cenv monsterSelector skipOnImmunities
              startNow ticks (fuel + 1)
            = (some none, [Action.PauseIfNotPriority, Action.MonsterSelector]))
      ∧ ((ticks 0).Data.HPPercent ≤ 0 →
          LightningSorceress.KillMonsterSequence env cenv monsterSelector skipOnImmunities
              startNow ticks (fuel + 1)
            = (some (some GoError.ErrDied),
                [Action.PauseIfNotPriority,
                  Action.Log
                    "Player detected as dead during KillMonsterSequence, stopping actions.",
                  Action.Sleep 500])) := by
  refine ⟨?_, ?_, ?_⟩
  · intro hnone
    have htarget := barbarianSelectTarget_no_priority cenv monsterSelector (ticks 0).Data hnone
    have hbody : barbarianBody cenv monsterSelector skipOnImmunities BarbarianLoopState.start
        (ticks 0) = (LoopStep.Return none, [Action.MonsterSelector]) := by
      simp [barbarianBody, htarget, hsel]
    unfold BarbarianLeveling.KillMonsterSequence
    rw [runLoop_return _ ticks fuel 0 _ none (by rw [hbody]), hbody]
  · intro halive
    have hbody := sorceressBody_not_found env cenv monsterSelector skipOnImmunities
      (SorceressLoopState.start startNow) (ticks 0) halive (hsel _)
    unfold LightningSorceress.KillMonsterSequence
    rw [runLoop_return _ ticks fuel 0 _ none (by rw [hbody]), hbody]
  · intro hdead
    have hbody := sorceressBody_dead env cenv monsterSelector skipOnImmunities
      (SorceressLoopState.start startNow) (ticks 0) hdead
    unfold LightningSorceress.KillMonsterSequence
    rw [runLoop_return _ ticks fuel 0 _ (some GoError.ErrDied) (by rw [hbody]), hbody]

/-- Witness of C14, amended: no monster in sight, the player alive. -/
theorem no_target_first_pass_witness :
    BarbarianLeveling.KillMonsterSequence exampleCombatEnv (fun _ => (0, false)) []
        (fun _ => exampleTick 0 (exampleData 100 [])) 1
      = (some none, [Action.MonsterSelector])
      ∧ LightningSorceress.KillMonsterSequence exampleSafetyEnv exampleCombatEnv
          (fun _ => (0, false)) [] 0 (fun _ => exampleTick 0 (exampleData 100 [])) 1
        = (some none, [Action.PauseIfNotPriority, Action.MonsterSelector]) :=
  have h := no_target_first_pass exampleSafetyEnv exampleCombatEnv (fun _ => (0, false)) [] 0
    (fun _ => exampleTick 0 (exampleData 100 [])) 0 (fun _ => rfl)
  ⟨h.1 (fun m hm => absurd hm (List.not_mem_nil m)), h.2.1 (by decide)⟩

/-- C19. In `LightningSorceress.KillMonsterSequence`, whenever the life percentage of
the player is at most 0 at the start of a pass, the pass returns `health.ErrDied`, which
is not `nil`, and its only calls are the pause, a logger line and a sleep: the selector
is not called, nothing moves and no attack primitive is invoked. -/
theorem sorceress_dead_player_returns_ErrDied (env : SafetyEnv) (cenv : CombatEnv)
    (monsterSelector : GameData → Int × Bool) (skipOnImmunities : List String)
    (st : SorceressLoopState) (tick : Tick) (hdead : tick.Data.HPPercent ≤ 0) :
    (sorceressBody env cenv monsterSelector skipOnImmunities st tick).1
        = LoopStep.Return (some GoError.ErrDied)
      ∧ (sorceressBody env cenv monsterSelector skipOnImmunities st tick).2
        = [Action.PauseIfNotPriority,
            Action.Log "Player detected as dead during KillMonsterSequence, stopping actions.",
            Action.Sleep 500]
      ∧ Action.MonsterSelector
          ∉ (sorceressBody env cenv monsterSelector skipOnImmunities st tick).2
      ∧ (∀ pos, Action.MoveTo pos
          ∉ (sorceressBody env cenv monsterSelector skipOnImmunities st tick).2)
      ∧ attackCount (sorceressBody env cenv monsterSelector skipOnImmunities st tick).2 = 0 := by
  rw [sorceressBody_dead env cenv monsterSelector skipOnImmunities st tick hdead]
  refine ⟨rfl, rfl, by simp, by simp, by simp [attackCount, Action.isAttack]⟩

/-- Witness of C19: the life percentage is 0 and a target is in sight. -/
theorem sorceress_dead_player_returns_ErrDied_witness :
    (sorceressBody exampleSafetyEnv exampleCombatEnv (fun _ => (8, true)) []
        (SorceressLoopState.start 0)
        (exampleTick 0 (exampleData 0 [⟨8, 50, "", ⟨3, 0⟩, [(StatID.Life, 10)]⟩]))).1
      = LoopStep.Return (some GoError.ErrDied) :=
  (sorceress_dead_player_returns_ErrDied exampleSafetyEnv exampleCombatEnv
    (fun _ => (8, true)) [] (SorceressLoopState.start 0)
    (exampleTick 0 (exampleData 0 [⟨8, 50, "", ⟨3, 0⟩, [(StatID.Life, 10)]⟩]))
    (by decide)).1

/-- While the player is alive and the selected target is found alive and passes the
checks in every pass, the loop of `LightningSorceress.KillMonsterSequence` is still
running after any number of passes, however many attack calls it has made. -/
theorem sorceress_keeps_running (env : SafetyEnv) (cenv : CombatEnv)
    (monsterSelector : GameData → Int × Bool) (skipOnImmunities : List String)
    (ticks : Nat → Tick)
    (hgood : ∀ i, (ticks i).Data.HPPercent > 0
      ∧ ∃ id monster, monsterSelector (ticks i).Data = (id, true)
          ∧ cenv.preBattleChecks (ticks i).Data id skipOnImmunities = true
          ∧ FindByID (ticks i).Data.Monsters id = some monster
          ∧ monster.stat StatID.Life > 0)
    (fuel : Nat) :
    ∀ (i : Nat) (st : SorceressLoopState),
      (runLoop (sorceressBody env cenv monsterSelector skipOnImmunities) ticks fuel i st).1
          = none
        ∧ fuel ≤ attackCount
            (runLoop (sorceressBody env cenv monsterSelector skipOnImmunities) ticks fuel i
              st).2 := by
  induction fuel with
  | zero =>
    intro i st
    exact ⟨rfl, Nat.zero_le _⟩
  | succ fuel ih =>
    intro i st
    obtain ⟨halive, id, monster, hsel, hpre, hfind, hlife⟩ := hgood i
    obtain ⟨st1, before, -, -, -, hbody⟩ := sorceressBody_alive env cenv monsterSelector
      skipOnImmunities st (ticks i) id monster halive hsel hfind
    obtain ⟨st', calls, hengage, hone⟩ := sorceressEngage_continue cenv monsterSelector
      skipOnImmunities st1 (ticks i) id monster hsel hpre hfind hlife
    rw [hengage] at hbody
    have hstep : (sorceressBody env cenv monsterSelector skipOnImmunities st (ticks i)).1
        = LoopStep.Continue st' := by rw [hbody]
    rw [runLoop_continue _ ticks fuel i st st' hstep, hbody]
    obtain ⟨h1, h2⟩ := ih (i + 1) st'
    refine ⟨h1, ?_⟩
    simp only [attackCount_append]
    omega

/-- C17, as stated, fails. With the player alive and a living target that the selector
returns in every pass, `LightningSorceress.KillMonsterSequence` is still running after
50 passes, in which it has made 50 attack calls, no fewer than
`LightningMaxAttacksLoop = 40`, all of them successful. -/
theorem sorceress_attack_count_counterexample :
    (LightningSorceress.KillMonsterSequence exampleSafetyEnv exampleCombatEnv
        (fun _ => (8, true)) [] 0
        (fun _ => exampleTick 0 (exampleData 100 [⟨8, 50, "", ⟨3, 0⟩, [(StatID.Life, 10)]⟩]))
        50).1 = none
      ∧ 50 ≤ attackCount
          (LightningSorceress.KillMonsterSequence exampleSafetyEnv exampleCombatEnv
            (fun _ => (8, true)) [] 0
            (fun _ => exampleTick 0
              (exampleData 100 [⟨8, 50, "", ⟨3, 0⟩, [(StatID.Life, 10)]⟩]))
            50).2 :=
  sorceress_keeps_running exampleSafetyEnv exampleCombatEnv (fun _ => (8, true)) []
    (fun _ => exampleTick 0 (exampleData 100 [⟨8, 50, "", ⟨3, 0⟩, [(StatID.Life, 10)]⟩]))
    (fun _ => ⟨by dsimp only; decide, 8, ⟨8, 50, "", ⟨3, 0⟩, [(StatID.Life, 10)]⟩, rfl,
      by dsimp only; decide, by dsimp only; decide, by decide⟩)
    50 0 (SorceressLoopState.start 0)

/-- C17, amended. The loop of `LightningSorceress.KillMonsterSequence` does not return
when its count of completed attacks reaches `LightningMaxAttacksLoop = 40`: the pass
whose successful attack brings the count to 40 sets the count back to 0, clears the
Static Field flag and continues; and while the player is alive and the selected target
is found alive and passes the checks, the loop is still running after any number of
passes. The pass makes its attack unless it ends with a successful cast of Static Field:
when the flag is set, when `shouldCastStaticField` is false, and also when the cast of
Static Field fails. -/
theorem sorceress_attack_count_resets (env : SafetyEnv) (cenv : CombatEnv)
    (monsterSelector : GameData → Int × Bool) (skipOnImmunities : List String) :
    (∀ (st : SorceressLoopState) (tick : Tick) (id : Int) (monster : Monster),
        tick.Data.HPPercent > 0 →
        monsterSelector tick.Data = (id, true) →
        cenv.preBattleChecks tick.Data id skipOnImmunities = true →
        FindByID tick.Data.Monsters id = some monster →
        monster.stat StatID.Life > 0 →
        (st.staticFieldCast = true ∨ shouldCastStaticField monster = false
          ∨ tick.StaticFieldErr ≠ none) →
        tick.AttackErr = none →
        st.completedAttackLoops + 1 ≥ 40 →
        ∃ st' calls, sorceressBody env cenv monsterSelector skipOnImmunities st tick
            = (LoopStep.Continue st', calls)
          ∧ st'.completedAttackLoops = 0 ∧ st'.staticFieldCast = false)
      ∧ (∀ (startNow : Int) (ticks : Nat → Tick),
          (∀ i, (ticks i).Data.HPPercent > 0
            ∧ ∃ id monster, monsterSelector (ticks i).Data = (id, true)
                ∧ cenv.preBattleChecks (ticks i).Data id skipOnImmunities = true
                ∧ FindByID (ticks i).Data.Monsters id = some monster
                ∧ monster.stat StatID.Life > 0) →
          ∀ fuel, (LightningSorceress.KillMonsterSequence env cenv monsterSelector
            skipOnImmunities startNow ticks fuel).1 = none) := by
  constructor
  · intro st tick id monster halive hsel hpre hfind hlife hstatic herr hcount
    obtain ⟨st1, before, hc1, hs1, -, hbody⟩ := sorceressBody_alive env cenv monsterSelector
      skipOnImmunities st tick id monster halive hsel hfind
    have hengage := sorceressEngage_eq cenv monsterSelector skipOnImmunities st1 tick id
      monster hsel hpre hfind hlife
    have hcount1 : (sorceressAttack cenv st1 tick monster).1.completedAttackLoops = 0 := by
      simp only [sorceressAttack, herr, if_true, hc1, LightningMaxAttacksLoop]
      rw [if_pos hcount]
    have hflag1 : (sorceressAttack cenv st1 tick monster).1.staticFieldCast = false := by
      simp only [sorceressAttack, herr, if_true, hc1, LightningMaxAttacksLoop]
      rw [if_pos hcount]
    by_cases hcast : (!st1.staticFieldCast) = true ∧ shouldCastStaticField monster = true
    · have hfailed : tick.StaticFieldErr ≠ none := by
        rcases hstatic with h | h | h
        · rw [hs1, h] at hcast
          exact Bool.noConfusion hcast.1
        · rw [h] at hcast
          exact Bool.noConfusion hcast.2
        · exact h
      rw [if_pos hcast, if_neg hfailed] at hengage
      rw [hengage] at hbody
      exact ⟨_, _, hbody, hcount1, hflag1⟩
    · rw [if_neg hcast] at hengage
      rw [hengage] at hbody
      exact ⟨_, _, hbody, hcount1, hflag1⟩
  · intro startNow ticks hgood fuel
    exact (sorceress_keeps_running env cenv monsterSelector skipOnImmunities ticks hgood fuel
      0 (SorceressLoopState.start startNow)).1

/-- Witness of C17, amended: a pass entered with the count 39 and the flag not set, whose
cast of Static Field fails and whose main attack succeeds, goes on with the count 0. -/
theorem sorceress_attack_count_resets_witness :
    ∃ st' calls,
      sorceressBody exampleSafetyEnv exampleCombatEnv (fun _ => (8, true)) []
          { completedAttackLoops := 39, lastReposition := 0, staticFieldCast := false }
          { Data := exampleData 100 [exampleFullLifeMonster], Now := 0, AttackErr := none,
            StaticFieldErr := some (GoError.New "cast failed"),
            KillBossWithStaticErr := none }
        = (LoopStep.Continue st', calls)
      ∧ st'.completedAttackLoops = 0 ∧ st'.staticFieldCast = false :=
  (sorceress_attack_count_resets exampleSafetyEnv exampleCombatEnv (fun _ => (8, true)) []).1
    { completedAttackLoops := 39, lastReposition := 0, staticFieldCast := false }
    { Data := exampleData 100 [exampleFullLifeMonster], Now := 0, AttackErr := none,
      StaticFieldErr := some (GoError.New "cast failed"), KillBossWithStaticErr := none }
    8 exampleFullLifeMonster
    (by decide) rfl (by decide) (by decide) (by decide)
    (Or.inr (Or.inr (fun h => Option.noConfusion h))) rfl (by decide)

/-- A pass with the player alive whose target is missing, dead or fails the checks
returns `nil`. -/
theorem sorceressBody_not_engaged (env : SafetyEnv) (cenv : CombatEnv)
    (monsterSelector : GameData → Int × Bool) (skipOnImmunities : List String)
    (st : SorceressLoopState) (tick : Tick) (halive : tick.Data.HPPercent > 0)
    (hnot : ¬ ∃ id monster, monsterSelector tick.Data = (id, true)
      ∧ cenv.preBattleChecks tick.Data id skipOnImmunities = true
      ∧ FindByID tick.Data.Monsters id = some monster
      ∧ monster.stat StatID.Life > 0) :
    (sorceressBody env cenv monsterSelector skipOnImmunities st tick).1
      = LoopStep.Return none := by
  by_cases hfound : (monsterSelector tick.Data).2 = true
  swap
  · rw [sorceressBody_not_found env cenv monsterSelector skipOnImmunities st tick halive
      (by simpa using hfound)]
  have hsel : monsterSelector tick.Data = ((monsterSelector tick.Data).1, true) :=
    Prod.ext rfl hfound
  have hdead : isPlayerDead2 tick.Data = false := by
    simp [isPlayerDead2, halive]
  cases hfind : FindByID tick.Data.Monsters (monsterSelector tick.Data).1 with
  | none =>
    by_cases hrepos : (needsRepositioning env.DistanceFromPoint env.dangerDistance
        tick.Data.PlayerPosition tick.Data.Enemies).1 = true
        ∧ tick.Now - st.lastReposition > timeSecond * 1
    · simp only [sorceressBody, hdead, hrepos, hfound, hfind, Bool.false_eq_true, if_false,
        if_true, and_self, Bool.not_true]
    · simp only [sorceressBody, hdead, hrepos, Bool.false_eq_true, if_false, sorceressEngage,
        hfound, hfind, Bool.not_true]
      split_ifs <;> rfl
  | some monster =>
    obtain ⟨st1, before, -, -, -, hbody⟩ := sorceressBody_alive env cenv monsterSelector
      skipOnImmunities st tick _ monster halive hsel hfind
    rw [hbody]
    by_cases hpre : cenv.preBattleChecks tick.Data (monsterSelector tick.Data).1
        skipOnImmunities = true
    · have hlife : monster.stat StatID.Life ≤ 0 := by
        by_contra hl
        exact hnot ⟨_, monster, hsel, hpre, hfind, not_le.mp hl⟩
      simp only [sorceressEngage, hfound, hpre, hfind, hlife, Bool.not_true,
        Bool.false_eq_true, if_false, if_true]
    · simp only [Bool.not_eq_true] at hpre
      simp only [sorceressEngage, hfound, hpre, Bool.not_true, Bool.not_false,
        Bool.false_eq_true, if_false, if_true]

/-- The count of completed attack rounds after the main attack of a pass. -/
theorem sorceressAttack_count (cenv : CombatEnv) (st : SorceressLoopState) (tick : Tick)
    (monster : Monster) :
    (sorceressAttack cenv st tick monster).1.completedAttackLoops
      = if (if tick.AttackErr = none then st.completedAttackLoops + 1
            else st.completedAttackLoops) ≥ LightningMaxAttacksLoop then 0
        else (if tick.AttackErr = none then st.completedAttackLoops + 1
            else st.completedAttackLoops) := by
  simp only [sorceressAttack]
  split_ifs <;> rfl

/-! ## The boss methods with a timeout -/

/-- While the boss is not in the snapshot, a boss method of `BarbarianLeveling` whose
clock passes the timeout in pass `i + n` at the latest returns its error. -/
theorem runLoop_barbarianBossBody_timeout (cenv : CombatEnv) (script : BossScript)
    (startNow : Int) (ticks : Nat → Tick)
    (hmissing : ∀ i, FindOne (ticks i).Data.Monsters script.boss MonsterTypeUnique = none)
    (n : Nat) :
    ∀ i, (ticks (i + n)).Now - startNow > timeSecond * script.timeoutSeconds →
      ∃ k, k ≤ n ∧ ∃ calls,
        runLoop (barbarianBossBody cenv script) ticks (k + 1) i startNow
          = (some (some (GoError.New script.notFoundError)), calls) := by
  induction n with
  | zero =>
    intro i hn
    have hn' : (ticks i).Now - startNow > timeSecond * script.timeoutSeconds := hn
    refine ⟨0, le_refl _, _, runLoop_return _ ticks 0 i startNow _ ?_⟩
    simp only [barbarianBossBody, hmissing i]
    rw [if_pos hn']
  | succ n ih =>
    intro i hn
    by_cases hnow : (ticks i).Now - startNow > timeSecond * script.timeoutSeconds
    · refine ⟨0, Nat.zero_le _, _, runLoop_return _ ticks 0 i startNow _ ?_⟩
      simp only [barbarianBossBody, hmissing i]
      rw [if_pos hnow]
    · have hcont : (barbarianBossBody cenv script startNow (ticks i)).1
          = LoopStep.Continue startNow := by
        simp only [barbarianBossBody, hmissing i]
        rw [if_neg hnow]
      obtain ⟨k, hk, calls, hrun⟩ := ih (i + 1) (by rw [Nat.add_right_comm]; exact hn)
      refine ⟨k + 1, Nat.succ_le_succ hk,
        (barbarianBossBody cenv script startNow (ticks i)).2 ++ calls, ?_⟩
      rw [runLoop_continue _ ticks (k + 1) i startNow startNow hcont, hrun]

/-- The six boss methods of `BarbarianLeveling` report the timeout: when the boss is
never in the snapshot and the clock passes the timeout in pass `n`, the method returns
its error in some pass up to `n`. -/
theorem runBossScript_timeout (cenv : CombatEnv) (script : BossScript)
    (startNow : Int) (ticks : Nat → Tick)
    (hmissing : ∀ i, FindOne (ticks i).Data.Monsters script.boss MonsterTypeUnique = none)
    (n : Nat) (hn : (ticks n).Now - startNow > timeSecond * script.timeoutSeconds) :
    ∃ k, k ≤ n ∧ ∃ calls,
      runBossScript cenv script startNow ticks (k + 1)
        = (some (some (GoError.New script.notFoundError)), calls) := by
  obtain ⟨k, hk, calls, hrun⟩ := runLoop_barbarianBossBody_timeout cenv script startNow
    ticks hmissing n 0 (by rw [Nat.zero_add]; exact hn)
  refine ⟨k, hk, Action.Log ("Starting " ++ script.name ++ " kill sequence...") :: calls, ?_⟩
  simp only [runBossScript, hrun]

/-- While Diablo is not in the snapshot, `LightningSorceress.KillDiablo` returns `nil`
once its clock has passed the 20 seconds: in pass `i + n` at the latest. -/
theorem runLoop_sorceressKillDiabloBody_timeout (cenv : CombatEnv) (startNow : Int)
    (ticks : Nat → Tick)
    (hmissing : ∀ i,
      FindOne (ticks i).Data.Monsters cenv.npc.Diablo MonsterTypeUnique = none)
    (n : Nat) :
    ∀ i, (ticks (i + n)).Now - startNow > timeSecond * 20 →
      ∃ k, k ≤ n ∧ ∃ calls,
        runLoop (sorceressKillDiabloBody cenv) ticks (k + 1) i
            { startTime := startNow, diabloFound := false }
          = (some none, calls) := by
  induction n with
  | zero =>
    intro i hn
    have hn' : (ticks i).Now - startNow > timeSecond * 20 := hn
    refine ⟨0, le_refl _, _, runLoop_return _ ticks 0 i _ _ ?_⟩
    simp only [sorceressKillDiabloBody]
    rw [if_pos ⟨hn', trivial⟩]
  | succ n ih =>
    intro i hn
    by_cases hnow : (ticks i).Now - startNow > timeSecond * 20
    · refine ⟨0, Nat.zero_le _, _, runLoop_return _ ticks 0 i _ _ ?_⟩
      simp only [sorceressKillDiabloBody]
      rw [if_pos ⟨hnow, trivial⟩]
    · have hcont : (sorceressKillDiabloBody cenv
            { startTime := startNow, diabloFound := false } (ticks i)).1
          = LoopStep.Continue { startTime := startNow, diabloFound := false } := by
        simp only [sorceressKillDiabloBody, hmissing i]
        rw [if_neg (fun h => hnow h.1)]
        rfl
      obtain ⟨k, hk, calls, hrun⟩ := ih (i + 1) (by rw [Nat.add_right_comm]; exact hn)
      refine ⟨k + 1, Nat.succ_le_succ hk, (sorceressKillDiabloBody cenv
        { startTime := startNow, diabloFound := false } (ticks i)).2 ++ calls, ?_⟩
      rw [runLoop_continue _ ticks (k + 1) i _ _ hcont, hrun]

/-- With Diablo never in the snapshot and the clock past the 20 seconds in pass `n`,
`LightningSorceress.KillDiablo` returns `nil` in some pass up to `n`. -/
theorem sorceress_KillDiablo_timeout (cenv : CombatEnv) (startNow : Int)
    (ticks : Nat → Tick)
    (hmissing : ∀ i,
      FindOne (ticks i).Data.Monsters cenv.npc.Diablo MonsterTypeUnique = none)
    (n : Nat) (hn : (ticks n).Now - startNow > timeSecond * 20) :
    ∃ k, k ≤ n ∧ ∃ calls,
      LightningSorceress.KillDiablo cenv startNow ticks (k + 1) = (some none, calls) :=
  runLoop_sorceressKillDiabloBody_timeout cenv startNow ticks hmissing n 0
    (by rw [Nat.zero_add]; exact hn)

/-- C20, the run that departs from it. With no monster in any snapshot and the clock
reading 0, 7, 14 and 21 seconds in the four passes, `LightningSorceress.KillDiablo`
sleeps three times, writes its timeout line in the fourth pass and returns `nil`. On
snapshots without monsters read at 0, 41, 82 and 123 seconds,
`BarbarianLeveling.KillDiablo` writes the same kind of line and returns its error. -/
theorem sorceress_KillDiablo_timeout_returns_nil :
    LightningSorceress.KillDiablo exampleCombatEnv 0
        (fun i => exampleTick ((i : Int) * 7 * timeSecond) (exampleData 100 [])) 4
      = (some none,
          [Action.Sleep 200, Action.Sleep 200, Action.Sleep 200,
            Action.Log "Diablo was not found, timeout reached"])
    ∧ BarbarianLeveling.KillDiablo exampleCombatEnv 0
        (fun i => exampleTick ((i : Int) * 41 * timeSecond) (exampleData 100 [])) 4
      = (some (some (GoError.New "diablo not found within the time limit")),
          [Action.Log "Starting Diablo kill sequence...",
            Action.Sleep 500, Action.Sleep 500, Action.Sleep 500,
            Action.Log "Diablo was not found, timeout reached."]) := by
  constructor <;> decide

/-! ## Static Field -/

theorem staticFieldCount_append (a b : List Action) :
    staticFieldCount (a ++ b) = staticFieldCount a + staticFieldCount b := by
  simp [staticFieldCount, List.filter_append]

theorem isAttack_of_isStaticField (call : Action) (h : call.isStaticField = true) :
    call.isAttack = true := by
  cases call <;> first | rfl | exact Bool.noConfusion h

theorem staticFieldCount_eq_zero_of_attackCount (calls : List Action)
    (h : attackCount calls = 0) : staticFieldCount calls = 0 := by
  have hall := (attackCount_eq_zero_iff calls).mp h
  simp only [staticFieldCount, List.length_eq_zero, List.filter_eq_nil_iff]
  intro call hcall hstatic
  have := isAttack_of_isStaticField call hstatic
  rw [hall call hcall] at this
  exact Bool.noConfusion this

/-- The main attack of a pass is not a cast of Static Field. -/
theorem sorceressAttack_staticFieldCount (cenv : CombatEnv) (st : SorceressLoopState)
    (tick : Tick) (monster : Monster) :
    staticFieldCount (sorceressAttack cenv st tick monster).2 = 0 := by
  unfold sorceressAttack
  simp only
  split_ifs <;> simp [staticFieldCount, Action.isStaticField]

/-- The flag `staticFieldCast` after the main attack of a pass. -/
theorem sorceressAttack_flag (cenv : CombatEnv) (st : SorceressLoopState) (tick : Tick)
    (monster : Monster) :
    (sorceressAttack cenv st tick monster).1.staticFieldCast
      = if (if tick.AttackErr = none then st.completedAttackLoops + 1
            else st.completedAttackLoops) ≥ LightningMaxAttacksLoop then false
        else st.staticFieldCast := by
  simp only [sorceressAttack]
  split_ifs <;> rfl

/-- The test of `shouldCastStaticField` on a monster with positive life, in integers:
`maxLife` is positive and `100 * life > 67 * maxLife`. -/
theorem shouldCastStaticField_iff (monster : Monster) (hlife : monster.stat StatID.Life > 0) :
    shouldCastStaticField monster = true
      ↔ monster.stat StatID.MaxLife > 0
        ∧ 100 * monster.stat StatID.Life > 67 * monster.stat StatID.MaxLife := by
  simp only [shouldCastStaticField, LightningStaticFieldThreshold]
  rcases lt_trichotomy (monster.stat StatID.MaxLife) 0 with hneg | hzero | hpos
  · have hq : ((monster.stat StatID.MaxLife : Int) : ℚ) < 0 := by exact_mod_cast hneg
    have hl : (0 : ℚ) < ((monster.stat StatID.Life : Int) : ℚ) := by exact_mod_cast hlife
    have hne : ((monster.stat StatID.MaxLife : Int) : ℚ) ≠ 0 := ne_of_lt hq
    rw [if_neg hne]
    have hquot : ((monster.stat StatID.Life : Int) : ℚ)
        / ((monster.stat StatID.MaxLife : Int) : ℚ) < 0 := div_neg_of_pos_of_neg hl hq
    constructor
    · intro h
      have h' := of_decide_eq_true h
      push_cast at h'
      linarith
    · intro h
      omega
  · have hq : ((monster.stat StatID.MaxLife : Int) : ℚ) = 0 := by exact_mod_cast hzero
    rw [if_pos hq]
    constructor
    · intro h
      exact Bool.noConfusion h
    · intro h
      omega
  · have hq : (0 : ℚ) < ((monster.stat StatID.MaxLife : Int) : ℚ) := by exact_mod_cast hpos
    rw [if_neg (ne_of_gt hq)]
    rw [decide_eq_true_iff]
    constructor
    · intro h
      refine ⟨hpos, ?_⟩
      have h' : (67 : ℚ) < ((monster.stat StatID.Life : Int) : ℚ)
          / ((monster.stat StatID.MaxLife : Int) : ℚ) * 100 := by exact_mod_cast h
      rw [div_mul_eq_mul_div, lt_div_iff₀ hq] at h'
      have h'' : (67 * monster.stat StatID.MaxLife : Int)
          < monster.stat StatID.Life * 100 := by exact_mod_cast h'
      omega
    · rintro ⟨-, h⟩
      have h' : ((67 * monster.stat StatID.MaxLife : Int) : ℚ)
          < ((monster.stat StatID.Life * 100 : Int) : ℚ) := by
        exact_mod_cast (by omega : 67 * monster.stat StatID.MaxLife
          < monster.stat StatID.Life * 100)
      push_cast at h'
      show ((67 : Int) : ℚ) < _
      rw [div_mul_eq_mul_div, lt_div_iff₀ hq]
      push_cast
      exact h'

/-- A pass with the player alive whose target is missing, dead or fails the checks makes
no attack call. -/
theorem sorceressBody_not_engaged_calls (env : SafetyEnv) (cenv : CombatEnv)
    (monsterSelector : GameData → Int × Bool) (skipOnImmunities : List String)
    (st : SorceressLoopState) (tick : Tick) (halive : tick.Data.HPPercent > 0)
    (hnot : ¬ ∃ id monster, monsterSelector tick.Data = (id, true)
      ∧ cenv.preBattleChecks tick.Data id skipOnImmunities = true
      ∧ FindByID tick.Data.Monsters id = some monster
      ∧ monster.stat StatID.Life > 0) :
    attackCount (sorceressBody env cenv monsterSelector skipOnImmunities st tick).2 = 0 := by
  by_cases hfound : (monsterSelector tick.Data).2 = true
  swap
  · rw [sorceressBody_not_found env cenv monsterSelector skipOnImmunities st tick halive
      (by simpa using hfound)]
    rfl
  have hsel : monsterSelector tick.Data = ((monsterSelector tick.Data).1, true) :=
    Prod.ext rfl hfound
  have hdead : isPlayerDead2 tick.Data = false := by
    simp [isPlayerDead2, halive]
  cases hfind : FindByID tick.Data.Monsters (monsterSelector tick.Data).1 with
  | none =>
    by_cases hrepos : (needsRepositioning env.DistanceFromPoint env.dangerDistance
        tick.Data.PlayerPosition tick.Data.Enemies).1 = true
        ∧ tick.Now - st.lastReposition > timeSecond * 1
    · simp only [sorceressBody, hdead, hrepos, hfound, hfind, Bool.false_eq_true, if_false,
        if_true, and_self, Bool.not_true]
      rfl
    · simp only [sorceressBody, hdead, hrepos, Bool.false_eq_true, if_false, sorceressEngage,
        hfound, hfind, Bool.not_true]
      split_ifs <;> rfl
  | some monster =>
    obtain ⟨st1, before, -, -, hbefore, hbody⟩ := sorceressBody_alive env cenv monsterSelector
      skipOnImmunities st tick _ monster halive hsel hfind
    rw [hbody, attackCount_append, hbefore]
    by_cases hpre : cenv.preBattleChecks tick.Data (monsterSelector tick.Data).1
        skipOnImmunities = true
    · have hlife : monster.stat StatID.Life ≤ 0 := by
        by_contra hl
        exact hnot ⟨_, monster, hsel, hpre, hfind, not_le.mp hl⟩
      simp only [sorceressEngage, hfound, hpre, hfind, hlife, Bool.not_true,
        Bool.false_eq_true, if_false, if_true]
      rfl
    · simp only [Bool.not_eq_true] at hpre
      simp only [sorceressEngage, hfound, hpre, Bool.not_true, Bool.not_false,
        Bool.false_eq_true, if_false, if_true]
      rfl

/-- A pass without an attack call casts no Static Field; this is every pass that
returns. -/
theorem sorceressBody_return_calls (env : SafetyEnv) (cenv : CombatEnv)
    (monsterSelector : GameData → Int × Bool) (skipOnImmunities : List String)
    (st : SorceressLoopState) (tick : Tick) (value : Option GoError)
    (h : (sorceressBody env cenv monsterSelector skipOnImmunities st tick).1
      = LoopStep.Return value) :
    attackCount (sorceressBody env cenv monsterSelector skipOnImmunities st tick).2 = 0 := by
  by_cases halive : tick.Data.HPPercent > 0
  swap
  · rw [sorceressBody_dead env cenv monsterSelector skipOnImmunities st tick
      (not_lt.mp halive)]
    rfl
  by_cases heng : ∃ id monster, monsterSelector tick.Data = (id, true)
      ∧ cenv.preBattleChecks tick.Data id skipOnImmunities = true
      ∧ FindByID tick.Data.Monsters id = some monster
      ∧ monster.stat StatID.Life > 0
  · obtain ⟨id, monster, hsel, hpre, hfind, hlife⟩ := heng
    obtain ⟨st1, before, -, -, -, hbody⟩ := sorceressBody_alive env cenv monsterSelector
      skipOnImmunities st tick id monster halive hsel hfind
    obtain ⟨st2, calls, hengage, -⟩ := sorceressEngage_continue cenv monsterSelector
      skipOnImmunities st1 tick id monster hsel hpre hfind hlife
    rw [hbody, hengage] at h
    exact LoopStep.noConfusion h
  · exact sorceressBody_not_engaged_calls env cenv monsterSelector skipOnImmunities st tick
      halive heng

/-- The three ways in which a pass that finds its target alive ends: Static Field cast
with success, Static Field failed and the main attack made, or the main attack alone.
The calls before them hold no attack, and the loop variables `st1` that the pass has
then differ from `st` in `lastReposition` at most. -/
theorem sorceressBody_engaged (env : SafetyEnv) (cenv : CombatEnv)
    (monsterSelector : GameData → Int × Bool) (skipOnImmunities : List String)
    (st : SorceressLoopState) (tick : Tick) (id : Int) (monster : Monster)
    (halive : tick.Data.HPPercent > 0)
    (hsel : monsterSelector tick.Data = (id, true))
    (hpre : cenv.preBattleChecks tick.Data id skipOnImmunities = true)
    (hfind : FindByID tick.Data.Monsters id = some monster)
    (hlife : monster.stat StatID.Life > 0) :
    ∃ st1 before, st1.completedAttackLoops = st.completedAttackLoops
      ∧ st1.staticFieldCast = st.staticFieldCast
      ∧ attackCount before = 0
      ∧ ((st.staticFieldCast = false ∧ shouldCastStaticField monster = true
            ∧ tick.StaticFieldErr = none
            ∧ sorceressBody env cenv monsterSelector skipOnImmunities st tick
              = (LoopStep.Continue { st1 with staticFieldCast := true },
                  before ++ [Action.MonsterSelector,
                    Action.SecondaryAttack SkillID.StaticField monster.UnitID 1
                      [AttackOption.RangedDistance LightningStaticMinDistance
                        LightningStaticMaxDistance]]))
        ∨ (st.staticFieldCast = false ∧ shouldCastStaticField monster = true
            ∧ tick.StaticFieldErr ≠ none
            ∧ sorceressBody env cenv monsterSelector skipOnImmunities st tick
              = (LoopStep.Continue (sorceressAttack cenv st1 tick monster).1,
                  before ++ ([Action.MonsterSelector,
                    Action.SecondaryAttack SkillID.StaticField monster.UnitID 1
                      [AttackOption.RangedDistance LightningStaticMinDistance
                        LightningStaticMaxDistance]]
                    ++ (sorceressAttack cenv st1 tick monster).2)))
        ∨ (¬ (st.staticFieldCast = false ∧ shouldCastStaticField monster = true)
            ∧ sorceressBody env cenv monsterSelector skipOnImmunities st tick
              = (LoopStep.Continue (sorceressAttack cenv st1 tick monster).1,
                  before ++ ([Action.MonsterSelector]
                    ++ (sorceressAttack cenv st1 tick monster).2)))) := by
  obtain ⟨st1, before, hc1, hs1, hbefore, hbody⟩ := sorceressBody_alive env cenv
    monsterSelector skipOnImmunities st tick id monster halive hsel hfind
  have hengage := sorceressEngage_eq cenv monsterSelector skipOnImmunities st1 tick id
    monster hsel hpre hfind hlife
  refine ⟨st1, before, hc1, hs1, hbefore, ?_⟩
  rw [hbody, hengage]
  by_cases hcond : st.staticFieldCast = false ∧ shouldCastStaticField monster = true
  · have hcond1 : (!st1.staticFieldCast) = true ∧ shouldCastStaticField monster = true := by
      rw [hs1, hcond.1]
      exact ⟨rfl, hcond.2⟩
    rw [if_pos hcond1]
    by_cases herr : tick.StaticFieldErr = none
    · rw [if_pos herr]
      exact Or.inl ⟨hcond.1, hcond.2, herr, rfl⟩
    · rw [if_neg herr]
      exact Or.inr (Or.inl ⟨hcond.1, hcond.2, herr, rfl⟩)
  · have hcond1 : ¬ ((!st1.staticFieldCast) = true ∧ shouldCastStaticField monster = true) := by
      rw [hs1]
      rintro ⟨h1, h2⟩
      apply hcond
      refine ⟨?_, h2⟩
      cases hflag : st.staticFieldCast
      · rfl
      · rw [hflag] at h1
        exact Bool.noConfusion h1
    rw [if_neg hcond1]
    exact Or.inr (Or.inr ⟨hcond, rfl⟩)

/-- The account of one pass that does not return. With the credit of a pass defined as
its count of completed attacks, plus 40 while the flag `staticFieldCast` is not set: a
successful cast of Static Field costs 40 of credit, and a completed main attack adds 1
at most. The count stays non-negative. -/
theorem sorceressBody_tally_step (env : SafetyEnv) (cenv : CombatEnv)
    (monsterSelector : GameData → Int × Bool) (skipOnImmunities : List String)
    (st st' : SorceressLoopState) (tick : Tick)
    (h : (sorceressBody env cenv monsterSelector skipOnImmunities st tick).1
      = LoopStep.Continue st')
    (hc : 0 ≤ st.completedAttackLoops) :
    0 ≤ st'.completedAttackLoops
      ∧ 40 * ((successfulCasts
              (sorceressBody env cenv monsterSelector skipOnImmunities st tick).2 tick : Nat) : Int)
            + (st'.completedAttackLoops + if st'.staticFieldCast = true then 0 else 40)
          ≤ ((completedAttacks
              (sorceressBody env cenv monsterSelector skipOnImmunities st tick).2 tick : Nat) : Int)
            + (st.completedAttackLoops + if st.staticFieldCast = true then 0 else 40) := by
  by_cases halive : tick.Data.HPPercent > 0
  swap
  · rw [sorceressBody_dead env cenv monsterSelector skipOnImmunities st tick
      (not_lt.mp halive)] at h
    exact LoopStep.noConfusion h
  by_cases heng : ∃ id monster, monsterSelector tick.Data = (id, true)
      ∧ cenv.preBattleChecks tick.Data id skipOnImmunities = true
      ∧ FindByID tick.Data.Monsters id = some monster
      ∧ monster.stat StatID.Life > 0
  swap
  · rw [sorceressBody_not_engaged env cenv monsterSelector skipOnImmunities st tick halive
      heng] at h
    exact LoopStep.noConfusion h
  obtain ⟨id, monster, hsel, hpre, hfind, hlife⟩ := heng
  obtain ⟨st1, before, hc1, hs1, hbefore, hcases⟩ := sorceressBody_engaged env cenv
    monsterSelector skipOnImmunities st tick id monster halive hsel hpre hfind hlife
  have hbefore' := staticFieldCount_eq_zero_of_attackCount before hbefore
  have hattack := sorceressAttack_calls cenv st1 tick monster
  have hattack' := sorceressAttack_staticFieldCount cenv st1 tick monster
  have hcount := sorceressAttack_count cenv st1 tick monster
  have hflag := sorceressAttack_flag cenv st1 tick monster
  rw [hc1] at hcount hflag
  rw [hs1] at hflag
  simp only [LightningMaxAttacksLoop] at hcount hflag
  rcases hcases with ⟨hf, -, herr, hbody⟩ | ⟨hf, -, herr, hbody⟩ | ⟨-, hbody⟩
  · rw [hbody] at h ⊢
    have hst : st' = { st1 with staticFieldCast := true } := (LoopStep.Continue.inj h).symm
    have hsc : staticFieldCount (before ++ [Action.MonsterSelector,
        Action.SecondaryAttack SkillID.StaticField monster.UnitID 1
          [AttackOption.RangedDistance LightningStaticMinDistance
            LightningStaticMaxDistance]]) = 1 := by
      rw [staticFieldCount_append, hbefore']
      rfl
    have hac : attackCount (before ++ [Action.MonsterSelector,
        Action.SecondaryAttack SkillID.StaticField monster.UnitID 1
          [AttackOption.RangedDistance LightningStaticMinDistance
            LightningStaticMaxDistance]]) = 1 := by
      rw [attackCount_append, hbefore]
      rfl
    have hc' : st'.completedAttackLoops = st.completedAttackLoops := by
      rw [hst]
      exact hc1
    have hf' : st'.staticFieldCast = true := by
      rw [hst]
    simp only [successfulCasts, completedAttacks, hsc, hac, herr, if_true, hc', hf', hf,
      Bool.false_eq_true, if_false]
    constructor
    · exact hc
    · split_ifs <;> omega
  · rw [hbody] at h ⊢
    have hst : st' = (sorceressAttack cenv st1 tick monster).1 := (LoopStep.Continue.inj h).symm
    have hsc : staticFieldCount (before ++ ([Action.MonsterSelector,
        Action.SecondaryAttack SkillID.StaticField monster.UnitID 1
          [AttackOption.RangedDistance LightningStaticMinDistance
            LightningStaticMaxDistance]]
        ++ (sorceressAttack cenv st1 tick monster).2)) = 1 := by
      rw [staticFieldCount_append, staticFieldCount_append, hbefore', hattack']
      rfl
    have hac : attackCount (before ++ ([Action.MonsterSelector,
        Action.SecondaryAttack SkillID.StaticField monster.UnitID 1
          [AttackOption.RangedDistance LightningStaticMinDistance
            LightningStaticMaxDistance]]
        ++ (sorceressAttack cenv st1 tick monster).2)) = 2 := by
      rw [attackCount_append, attackCount_append, hbefore, hattack]
      rfl
    rw [← hst] at hcount hflag
    simp only [successfulCasts, completedAttacks, hsc, hac, herr, if_false, hcount, hflag, hf,
      Bool.false_eq_true]
    constructor
    · split_ifs <;> omega
    · split_ifs <;> simp <;> omega
  · rw [hbody] at h ⊢
    have hst : st' = (sorceressAttack cenv st1 tick monster).1 := (LoopStep.Continue.inj h).symm
    have hsc : staticFieldCount (before ++ ([Action.MonsterSelector]
        ++ (sorceressAttack cenv st1 tick monster).2)) = 0 := by
      rw [staticFieldCount_append, staticFieldCount_append, hbefore', hattack']
      rfl
    have hac : attackCount (before ++ ([Action.MonsterSelector]
        ++ (sorceressAttack cenv st1 tick monster).2)) = 1 := by
      rw [attackCount_append, attackCount_append, hbefore, hattack]
      rfl
    rw [← hst] at hcount hflag
    simp only [successfulCasts, completedAttacks, hsc, hac, hcount, hflag]
    constructor
    · split_ifs <;> omega
    · split_ifs <;> simp <;> omega

/-- The account of a run, from any pass on: forty times the successful casts of Static
Field do not exceed the completed main attacks plus the credit of the loop variables
with which the run is entered. -/
theorem sorceressTally_from (env : SafetyEnv) (cenv : CombatEnv)
    (monsterSelector : GameData → Int × Bool) (skipOnImmunities : List String)
    (ticks : Nat → Tick) (fuel : Nat) :
    ∀ (i : Nat) (st : SorceressLoopState), 0 ≤ st.completedAttackLoops →
      40 * (((sorceressTally env cenv monsterSelector skipOnImmunities ticks fuel i st).1
            : Nat) : Int)
        ≤ (((sorceressTally env cenv monsterSelector skipOnImmunities ticks fuel i st).2
            : Nat) : Int)
          + (st.completedAttackLoops + if st.staticFieldCast = true then 0 else 40) := by
  induction fuel with
  | zero =>
    intro i st hc
    simp only [sorceressTally]
    split_ifs <;> omega
  | succ fuel ih =>
    intro i st hc
    rcases hb : sorceressBody env cenv monsterSelector skipOnImmunities st (ticks i)
      with ⟨step, calls⟩
    cases step with
    | Return value =>
      have hret : (sorceressBody env cenv monsterSelector skipOnImmunities st (ticks i)).1
          = LoopStep.Return value := by rw [hb]
      have hzero := sorceressBody_return_calls env cenv monsterSelector skipOnImmunities st
        (ticks i) value hret
      rw [hb] at hzero
      have hzero' := staticFieldCount_eq_zero_of_attackCount calls hzero
      simp only [sorceressTally, hb, successfulCasts, completedAttacks, hzero, hzero']
      split_ifs <;> omega
    | Continue st' =>
      have hcont : (sorceressBody env cenv monsterSelector skipOnImmunities st (ticks i)).1
          = LoopStep.Continue st' := by rw [hb]
      have hstep := sorceressBody_tally_step env cenv monsterSelector skipOnImmunities st st'
        (ticks i) hcont hc
      rw [hb] at hstep
      have hrest := ih (i + 1) st' hstep.1
      simp only [sorceressTally, hb]
      have h2 := hstep.2
      simp only at h2
      push_cast
      omega

/-- A pass with the player alive and no dangerous monster near: the pause, then the
part after the repositioning block. -/
theorem sorceressBody_no_reposition (env : SafetyEnv) (cenv : CombatEnv)
    (monsterSelector : GameData → Int × Bool) (skipOnImmunities : List String)
    (st : SorceressLoopState) (tick : Tick) (halive : tick.Data.HPPercent > 0)
    (hsafe : (needsRepositioning env.DistanceFromPoint env.dangerDistance
      tick.Data.PlayerPosition tick.Data.Enemies).1 = false) :
    sorceressBody env cenv monsterSelector skipOnImmunities st tick
      = ((sorceressEngage cenv monsterSelector skipOnImmunities st tick).1,
          [Action.PauseIfNotPriority]
            ++ (sorceressEngage cenv monsterSelector skipOnImmunities st tick).2) := by
  have hdead : isPlayerDead2 tick.Data = false := by
    simp [isPlayerDead2, halive]
  simp only [sorceressBody, hdead, hsafe, Bool.false_eq_true, if_false, false_and]

/-- The example monster passes the test of `shouldCastStaticField`. -/
theorem shouldCastStaticField_exampleFullLifeMonster :
    shouldCastStaticField exampleFullLifeMonster = true :=
  (shouldCastStaticField_iff exampleFullLifeMonster (by decide)).mpr ⟨by decide, by decide⟩

/-- A pass of the example run entered with the flag not set: Static Field is cast, with
success, and the flag is set. -/
theorem examplePass_cast (count last : Int) :
    sorceressBody exampleSafetyEnv exampleCombatEnv (fun _ => (8, true)) []
        { completedAttackLoops := count, lastReposition := last, staticFieldCast := false }
        exampleFullLifeTick
      = (LoopStep.Continue
          { completedAttackLoops := count, lastReposition := last, staticFieldCast := true },
          [Action.PauseIfNotPriority, Action.MonsterSelector,
            Action.SecondaryAttack SkillID.StaticField 8 1
              [AttackOption.RangedDistance 1 3]]) := by
  have herr : exampleFullLifeTick.StaticFieldErr = none := rfl
  rw [sorceressBody_no_reposition exampleSafetyEnv exampleCombatEnv (fun _ => (8, true)) [] _
      exampleFullLifeTick (by decide) rfl,
    sorceressEngage_eq exampleCombatEnv (fun _ => (8, true)) [] _ exampleFullLifeTick 8
      exampleFullLifeMonster rfl rfl rfl (by decide),
    if_pos ⟨rfl, shouldCastStaticField_exampleFullLifeMonster⟩, if_pos herr]
  rfl

/-- A pass of the example run entered with the flag set: Chain Lightning, with success;
the count goes up by one, or back to 0 with the flag cleared when it reaches 40. -/
theorem examplePass_attack (count last : Int) :
    sorceressBody exampleSafetyEnv exampleCombatEnv (fun _ => (8, true)) []
        { completedAttackLoops := count, lastReposition := last, staticFieldCast := true }
        exampleFullLifeTick
      = (LoopStep.Continue
          (if count + 1 ≥ 40 then
            { completedAttackLoops := 0, lastReposition := last, staticFieldCast := false }
          else
            { completedAttackLoops := count + 1, lastReposition := last,
              staticFieldCast := true }),
          [Action.PauseIfNotPriority, Action.MonsterSelector,
            Action.SecondaryAttack SkillID.ChainLightning 8 1
              [AttackOption.RangedDistance 10 20]]) := by
  rw [sorceressBody_no_reposition exampleSafetyEnv exampleCombatEnv (fun _ => (8, true)) [] _
      exampleFullLifeTick (by decide) rfl,
    sorceressEngage_eq exampleCombatEnv (fun _ => (8, true)) [] _ exampleFullLifeTick 8
      exampleFullLifeMonster rfl rfl rfl (by decide),
    if_neg (fun h => Bool.noConfusion h.1)]
  have hboss : isLightningBoss exampleCombatEnv.npc exampleFullLifeMonster = false := by decide
  have herr : exampleFullLifeTick.AttackErr = none := rfl
  simp only [sorceressAttack, LightningMaxAttacksLoop, hboss, herr, if_true,
    Bool.false_eq_true, if_false]
  split_ifs <;> rfl

/-- C21, as stated, fails. In one run of `LightningSorceress.KillMonsterSequence` on one
target that keeps its full life (100 of 100), with every primitive successful, the first
pass casts Static Field, the next 40 passes complete 40 Chain Lightning attacks, the
last of which clears the flag, and pass 42 casts Static Field again: after 42 passes the
loop is still running and has made two casts of Static Field, both successful, the
second in a pass entered after the first cast. -/
theorem static_field_cast_twice :
    (LightningSorceress.KillMonsterSequence exampleSafetyEnv exampleCombatEnv
        (fun _ => (8, true)) [] 0 (fun _ => exampleFullLifeTick) 42).1 = none
      ∧ staticFieldCount
          (LightningSorceress.KillMonsterSequence exampleSafetyEnv exampleCombatEnv
            (fun _ => (8, true)) [] 0 (fun _ => exampleFullLifeTick) 42).2 = 2
      ∧ exampleFullLifeTick.StaticFieldErr = none
      ∧ sorceressTally exampleSafetyEnv exampleCombatEnv (fun _ => (8, true)) []
          (fun _ => exampleFullLifeTick) 42 0 (SorceressLoopState.start 0) = (2, 40) := by
  have h1 : exampleFullLifeTick.StaticFieldErr = none := rfl
  have h2 : exampleFullLifeTick.AttackErr = none := rfl
  refine ⟨?_, ?_, h1, ?_⟩
  · simp [LightningSorceress.KillMonsterSequence, SorceressLoopState.start, runLoop,
      examplePass_cast, examplePass_attack]
  · simp [LightningSorceress.KillMonsterSequence, SorceressLoopState.start, runLoop,
      examplePass_cast, examplePass_attack, staticFieldCount, Action.isStaticField]
  · simp [SorceressLoopState.start, sorceressTally, examplePass_cast, examplePass_attack,
      successfulCasts, completedAttacks, attackCount, Action.isAttack, staticFieldCount,
      Action.isStaticField, h1, h2]

/-- The casts of Static Field of one pass. There is none, or there is one, and then: the
flag `staticFieldCast` was not set when the pass was entered, the target was found alive
and passed the test of `shouldCastStaticField`, the cast is on the target, and if the
cast succeeds the pass ends there, setting the flag and leaving the count as it was. -/
theorem sorceressBody_cast_cases (env : SafetyEnv) (cenv : CombatEnv)
    (monsterSelector : GameData → Int × Bool) (skipOnImmunities : List String)
    (st : SorceressLoopState) (tick : Tick) :
    staticFieldCount (sorceressBody env cenv monsterSelector skipOnImmunities st tick).2 = 0
      ∨ (staticFieldCount (sorceressBody env cenv monsterSelector skipOnImmunities st tick).2
            = 1
          ∧ st.staticFieldCast = false
          ∧ ∃ monster,
              FindByID tick.Data.Monsters (monsterSelector tick.Data).1 = some monster
              ∧ monster.stat StatID.Life > 0
              ∧ shouldCastStaticField monster = true
              ∧ Action.SecondaryAttack SkillID.StaticField monster.UnitID 1
                  [AttackOption.RangedDistance LightningStaticMinDistance
                    LightningStaticMaxDistance]
                ∈ (sorceressBody env cenv monsterSelector skipOnImmunities st tick).2
              ∧ (tick.StaticFieldErr = none →
                  ∃ st', (sorceressBody env cenv monsterSelector skipOnImmunities st tick).1
                      = LoopStep.Continue st'
                    ∧ st'.staticFieldCast = true
                    ∧ st'.completedAttackLoops = st.completedAttackLoops
                    ∧ attackCount
                        (sorceressBody env cenv monsterSelector skipOnImmunities st tick).2
                      = 1)) := by
  by_cases halive : tick.Data.HPPercent > 0
  swap
  · left
    rw [sorceressBody_dead env cenv monsterSelector skipOnImmunities st tick
      (not_lt.mp halive)]
    rfl
  by_cases heng : ∃ id monster, monsterSelector tick.Data = (id, true)
      ∧ cenv.preBattleChecks tick.Data id skipOnImmunities = true
      ∧ FindByID tick.Data.Monsters id = some monster
      ∧ monster.stat StatID.Life > 0
  swap
  · left
    exact staticFieldCount_eq_zero_of_attackCount _
      (sorceressBody_not_engaged_calls env cenv monsterSelector skipOnImmunities st tick
        halive heng)
  obtain ⟨id, monster, hsel, hpre, hfind, hlife⟩ := heng
  obtain ⟨st1, before, hc1, hs1, hbefore, hcases⟩ := sorceressBody_engaged env cenv
    monsterSelector skipOnImmunities st tick id monster halive hsel hpre hfind hlife
  have hbefore' := staticFieldCount_eq_zero_of_attackCount before hbefore
  have hattack := sorceressAttack_calls cenv st1 tick monster
  have hattack' := sorceressAttack_staticFieldCount cenv st1 tick monster
  have hid : (monsterSelector tick.Data).1 = id := by rw [hsel]
  rcases hcases with ⟨hf, hshould, herr, hbody⟩ | ⟨hf, hshould, herr, hbody⟩ | ⟨-, hbody⟩
  · right
    rw [hbody, hid]
    refine ⟨?_, hf, monster, hfind, hlife, hshould, ?_, ?_⟩
    · rw [staticFieldCount_append, hbefore']
      rfl
    · exact List.mem_append_right _ (List.mem_cons_of_mem _ (List.mem_singleton_self _))
    · intro _
      refine ⟨_, rfl, rfl, hc1, ?_⟩
      rw [attackCount_append, hbefore]
      rfl
  · right
    rw [hbody, hid]
    refine ⟨?_, hf, monster, hfind, hlife, hshould, ?_, ?_⟩
    · rw [staticFieldCount_append, staticFieldCount_append, hbefore', hattack']
      rfl
    · exact List.mem_append_right _ (List.mem_append_left _
        (List.mem_cons_of_mem _ (List.mem_singleton_self _)))
    · intro hnone
      exact absurd hnone herr
  · left
    rw [hbody, staticFieldCount_append, staticFieldCount_append, hbefore', hattack']
    rfl

/-- A pass entered with the flag `staticFieldCast` set leaves it cleared only by the
reset at `LightningMaxAttacksLoop`: the count, with the attack of the pass, has reached
40, and the pass leaves the count 0. -/
theorem sorceressBody_flag_cleared (env : SafetyEnv) (cenv : CombatEnv)
    (monsterSelector : GameData → Int × Bool) (skipOnImmunities : List String)
    (st st' : SorceressLoopState) (tick : Tick)
    (h : (sorceressBody env cenv monsterSelector skipOnImmunities st tick).1
      = LoopStep.Continue st')
    (hset : st.staticFieldCast = true) (hcleared : st'.staticFieldCast = false) :
    (if tick.AttackErr = none then st.completedAttackLoops + 1
        else st.completedAttackLoops) ≥ 40
      ∧ st'.completedAttackLoops = 0 := by
  by_cases halive : tick.Data.HPPercent > 0
  swap
  · rw [sorceressBody_dead env cenv monsterSelector skipOnImmunities st tick
      (not_lt.mp halive)] at h
    exact LoopStep.noConfusion h
  by_cases heng : ∃ id monster, monsterSelector tick.Data = (id, true)
      ∧ cenv.preBattleChecks tick.Data id skipOnImmunities = true
      ∧ FindByID tick.Data.Monsters id = some monster
      ∧ monster.stat StatID.Life > 0
  swap
  · rw [sorceressBody_not_engaged env cenv monsterSelector skipOnImmunities st tick halive
      heng] at h
    exact LoopStep.noConfusion h
  obtain ⟨id, monster, hsel, hpre, hfind, hlife⟩ := heng
  obtain ⟨st1, before, hc1, hs1, hbefore, hcases⟩ := sorceressBody_engaged env cenv
    monsterSelector skipOnImmunities st tick id monster halive hsel hpre hfind hlife
  have hcount := sorceressAttack_count cenv st1 tick monster
  have hflag := sorceressAttack_flag cenv st1 tick monster
  rw [hc1] at hcount hflag
  rw [hs1, hset] at hflag
  simp only [LightningMaxAttacksLoop] at hcount hflag
  rcases hcases with ⟨hf, -, -, -⟩ | ⟨hf, -, -, -⟩ | ⟨-, hbody⟩
  · rw [hset] at hf
    exact Bool.noConfusion hf
  · rw [hset] at hf
    exact Bool.noConfusion hf
  · rw [hbody] at h
    have hst : st' = (sorceressAttack cenv st1 tick monster).1 := (LoopStep.Continue.inj h).symm
    rw [← hst] at hcount hflag
    rw [hcleared] at hflag
    by_cases hcap : (if tick.AttackErr = none then st.completedAttackLoops + 1
        else st.completedAttackLoops) ≥ 40
    · rw [if_pos hcap] at hcount
      exact ⟨hcap, hcount⟩
    · rw [if_neg hcap] at hflag
      exact Bool.noConfusion hflag

/-- The tally counts the casts of the run: when every cast succeeds, its first number is
the number of casts of Static Field among the calls of the run. -/
theorem sorceressTally_casts (env : SafetyEnv) (cenv : CombatEnv)
    (monsterSelector : GameData → Int × Bool) (skipOnImmunities : List String)
    (ticks : Nat → Tick) (hok : ∀ i, (ticks i).StaticFieldErr = none) (fuel : Nat) :
    ∀ (i : Nat) (st : SorceressLoopState),
      (sorceressTally env cenv monsterSelector skipOnImmunities ticks fuel i st).1
        = staticFieldCount
            (runLoop (sorceressBody env cenv monsterSelector skipOnImmunities) ticks fuel i
              st).2 := by
  induction fuel with
  | zero =>
    intro i st
    rfl
  | succ fuel ih =>
    intro i st
    rcases hb : sorceressBody env cenv monsterSelector skipOnImmunities st (ticks i)
      with ⟨step, calls⟩
    cases step with
    | Return value =>
      simp only [sorceressTally, runLoop, hb, successfulCasts, hok i, if_true]
    | Continue st' =>
      simp only [sorceressTally, runLoop, hb, successfulCasts, hok i, if_true, ih (i + 1) st',
        staticFieldCount_append]

/-- C21, amended. In a run of `LightningSorceress.KillMonsterSequence`:
a pass casts Static Field once at most, and only when it is entered with the flag
`staticFieldCast` not set and finds its target with life above 0, `maxLife` above 0 and
`100 * life > 67 * maxLife` (with `maxLife = 0` there is no cast); a successful cast
sets the flag and ends the pass; a pass entered with the flag set clears it only when
the count of completed attacks reaches `LightningMaxAttacksLoop = 40`, and then the
count is 0 again. So Static Field is cast with success once in every 40 completed main
attacks at most: in the passes of a run, forty times the number of successful casts is
at most the number of completed main attacks plus 40, and a run with fewer than 40
completed main attacks has one successful cast at most. -/
theorem static_field_once_per_forty_attacks (env : SafetyEnv) (cenv : CombatEnv)
    (monsterSelector : GameData → Int × Bool) (skipOnImmunities : List String) :
    (∀ (st : SorceressLoopState) (tick : Tick),
        staticFieldCount (sorceressBody env cenv monsterSelector skipOnImmunities st tick).2
          ≤ 1)
      ∧ (∀ (st : SorceressLoopState) (tick : Tick),
          1 ≤ staticFieldCount
              (sorceressBody env cenv monsterSelector skipOnImmunities st tick).2 →
          st.staticFieldCast = false
            ∧ ∃ monster,
                FindByID tick.Data.Monsters (monsterSelector tick.Data).1 = some monster
                ∧ monster.stat StatID.Life > 0
                ∧ monster.stat StatID.MaxLife > 0
                ∧ 100 * monster.stat StatID.Life > 67 * monster.stat StatID.MaxLife
                ∧ Action.SecondaryAttack SkillID.StaticField monster.UnitID 1
                    [AttackOption.RangedDistance LightningStaticMinDistance
                      LightningStaticMaxDistance]
                  ∈ (sorceressBody env cenv monsterSelector skipOnImmunities st tick).2)
      ∧ (∀ (st : SorceressLoopState) (tick : Tick),
          1 ≤ successfulCasts
              (sorceressBody env cenv monsterSelector skipOnImmunities st tick).2 tick →
          ∃ st', (sorceressBody env cenv monsterSelector skipOnImmunities st tick).1
              = LoopStep.Continue st'
            ∧ st'.staticFieldCast = true
            ∧ st'.completedAttackLoops = st.completedAttackLoops
            ∧ attackCount (sorceressBody env cenv monsterSelector skipOnImmunities st tick).2
              = 1)
      ∧ (∀ (st st' : SorceressLoopState) (tick : Tick),
          (sorceressBody env cenv monsterSelector skipOnImmunities st tick).1
              = LoopStep.Continue st' →
          st.staticFieldCast = true → st'.staticFieldCast = false →
          (if tick.AttackErr = none then st.completedAttackLoops + 1
              else st.completedAttackLoops) ≥ 40
            ∧ st'.completedAttackLoops = 0)
      ∧ (∀ (startNow : Int) (ticks : Nat → Tick) (fuel : Nat),
          40 * (sorceressTally env cenv monsterSelector skipOnImmunities ticks fuel 0
              (SorceressLoopState.start startNow)).1
            ≤ (sorceressTally env cenv monsterSelector skipOnImmunities ticks fuel 0
              (SorceressLoopState.start startNow)).2 + 40)
      ∧ (∀ (startNow : Int) (ticks : Nat → Tick) (fuel : Nat),
          (sorceressTally env cenv monsterSelector skipOnImmunities ticks fuel 0
              (SorceressLoopState.start startNow)).2 < 40 →
          (sorceressTally env cenv monsterSelector skipOnImmunities ticks fuel 0
              (SorceressLoopState.start startNow)).1 ≤ 1) := by
  have hrun : ∀ (startNow : Int) (ticks : Nat → Tick) (fuel : Nat),
      40 * (sorceressTally env cenv monsterSelector skipOnImmunities ticks fuel 0
          (SorceressLoopState.start startNow)).1
        ≤ (sorceressTally env cenv monsterSelector skipOnImmunities ticks fuel 0
          (SorceressLoopState.start startNow)).2 + 40 := by
    intro startNow ticks fuel
    have h := sorceressTally_from env cenv monsterSelector skipOnImmunities ticks fuel 0
      (SorceressLoopState.start startNow) (le_refl _)
    simp only [SorceressLoopState.start, Bool.false_eq_true, if_false, zero_add] at h ⊢
    omega
  refine ⟨?_, ?_, ?_, ?_, hrun, ?_⟩
  · intro st tick
    rcases sorceressBody_cast_cases env cenv monsterSelector skipOnImmunities st tick
      with h | ⟨h, -⟩
    · rw [h]
      exact Nat.zero_le _
    · rw [h]
  · intro st tick hone
    rcases sorceressBody_cast_cases env cenv monsterSelector skipOnImmunities st tick
      with h | ⟨-, hflag, monster, hfind, hlife, hshould, hmem, -⟩
    · rw [h] at hone
      exact absurd hone (by decide)
    · obtain ⟨hmax, hfrac⟩ := (shouldCastStaticField_iff monster hlife).mp hshould
      exact ⟨hflag, monster, hfind, hlife, hmax, hfrac, hmem⟩
  · intro st tick hone
    have herr : tick.StaticFieldErr = none := by
      by_contra hne
      simp only [successfulCasts, hne, if_false] at hone
      exact absurd hone (by decide)
    rcases sorceressBody_cast_cases env cenv monsterSelector skipOnImmunities st tick
      with h | ⟨-, -, monster, -, -, -, -, hsuccess⟩
    · simp only [successfulCasts, herr, if_true, h] at hone
      exact absurd hone (by decide)
    · exact hsuccess herr
  · intro st st' tick hcont hset hcleared
    exact sorceressBody_flag_cleared env cenv monsterSelector skipOnImmunities st st' tick
      hcont hset hcleared
  · intro startNow ticks fuel hfew
    have h := hrun startNow ticks fuel
    omega

/-- Witness of C21, amended: the first pass of the example run casts Static Field; it is
entered with the flag not set, and the target has 100 of 100 life. -/
theorem static_field_once_per_forty_attacks_witness :
    1 ≤ staticFieldCount
        (sorceressBody exampleSafetyEnv exampleCombatEnv (fun _ => (8, true)) []
          { completedAttackLoops := 0, lastReposition := 0, staticFieldCast := false }
          exampleFullLifeTick).2
      ∧ ∃ monster, FindByID exampleFullLifeTick.Data.Monsters 8 = some monster
          ∧ monster.stat StatID.MaxLife > 0
          ∧ 100 * monster.stat StatID.Life > 67 * monster.stat StatID.MaxLife := by
  have hone : 1 ≤ staticFieldCount
      (sorceressBody exampleSafetyEnv exampleCombatEnv (fun _ => (8, true)) []
        { completedAttackLoops := 0, lastReposition := 0, staticFieldCast := false }
        exampleFullLifeTick).2 := by
    rw [examplePass_cast]
    decide
  obtain ⟨-, monster, hfind, -, hmax, hfrac, -⟩ :=
    (static_field_once_per_forty_attacks exampleSafetyEnv exampleCombatEnv
      (fun _ => (8, true)) []).2.1 _ _ hone
  exact ⟨hone, monster, hfind, hmax, hfrac⟩

/-! ## Extending the item collection -/

/-- A requirement that is marked satisfied stays so, with its recorded identifier, in
every pass of the inner loop. -/
theorem checkRequirement_satisfied (itm : Item) (st : CheckState) (req : statRequirement)
    (k : String) (h : st.results.get k false = true) :
    (checkRequirement itm st req).results.get k false = true
      ∧ (checkRequirement itm st req).usedUnitIDs.find? k = st.usedUnitIDs.find? k := by
  by_cases hk : req.Name = k
  · have hrec : ¬ records itm st req := fun hr => by
      have h1 := hr.1
      rw [hk, h] at h1
      exact Bool.noConfusion h1
    rw [checkRequirement_results, checkRequirement_usedUnitIDs, if_neg hrec, if_neg hrec]
    exact ⟨h, rfl⟩
  · have hf := checkRequirement_frame itm st req k hk
    exact ⟨(GoMap.get_congr false hf.1).trans h, hf.2⟩

theorem foldl_checkRequirement_satisfied (itm : Item) (k : String)
    (reqs : List statRequirement) (st : CheckState) (h : st.results.get k false = true) :
    (reqs.foldl (checkRequirement itm) st).results.get k false = true
      ∧ (reqs.foldl (checkRequirement itm) st).usedUnitIDs.find? k
          = st.usedUnitIDs.find? k := by
  induction reqs generalizing st with
  | nil => exact ⟨h, rfl⟩
  | cons r rest ih =>
    have hr := checkRequirement_satisfied itm st r k h
    have hrest := ih (checkRequirement itm st r) hr.1
    simp only [List.foldl_cons]
    exact ⟨hrest.1, hrest.2.trans hr.2⟩

theorem checkItem_satisfied (st : CheckState) (itm : Item) (k : String)
    (h : st.results.get k false = true) :
    (checkItem st itm).results.get k false = true
      ∧ (checkItem st itm).usedUnitIDs.find? k = st.usedUnitIDs.find? k := by
  by_cases hid : itm.UnitID = 0
  · rw [(checkItem_zero st itm hid).1, (checkItem_zero st itm hid).2]
    exact ⟨h, rfl⟩
  · simp only [checkItem, if_neg hid]
    exact foldl_checkRequirement_satisfied itm k requiredChecks _ h

/-- A requirement that is marked satisfied stays so, with its recorded identifier,
whatever items the scan visits next. -/
theorem foldl_checkItem_satisfied (items : List Item) (k : String) (st : CheckState)
    (h : st.results.get k false = true) :
    (items.foldl checkItem st).results.get k false = true
      ∧ (items.foldl checkItem st).usedUnitIDs.find? k = st.usedUnitIDs.find? k := by
  induction items generalizing st with
  | nil => exact ⟨h, rfl⟩
  | cons itm rest ih =>
    have hi := checkItem_satisfied st itm k h
    have hrest := ih (checkItem st itm) hi.1
    simp only [List.foldl_cons]
    exact ⟨hrest.1, hrest.2.trans hi.2⟩

/-- C22. First match wins under extension: for all item collections `xs` and `ys` and
every requirement name `R` that `CheckAllItemsForStats` reports satisfied on `xs`, the
evaluation of `xs ++ ys` reports `R` satisfied too, and its `satisfiedBy` entry for `R`
is the entry of the evaluation of `xs`, which is an identifier. The two evaluations may
start with different logger contents. -/
theorem first_match_stable_under_extension (xs ys : List Item) (log log' : List String)
    (R : String)
    (hsat : (CheckAllItemsForStats ⟨xs, log⟩).1.1.get R false = true) :
    (CheckAllItemsForStats ⟨xs ++ ys, log'⟩).1.1.get R false = true
      ∧ (CheckAllItemsForStats ⟨xs ++ ys, log'⟩).1.2.find? R
          = (CheckAllItemsForStats ⟨xs, log⟩).1.2.find? R
      ∧ ∃ id, (CheckAllItemsForStats ⟨xs, log⟩).1.2.find? R = some id := by
  have hx := CheckAllItemsForStats_maps ⟨xs, log⟩ []
  have hxy := CheckAllItemsForStats_maps ⟨xs ++ ys, log'⟩ []
  simp only [List.foldl_append] at hx hxy
  rw [hx.1] at hsat
  have hkeep := foldl_checkItem_satisfied ys R (xs.foldl checkItem (scanStart [])) hsat
  rw [hxy.1, hxy.2, hx.2]
  refine ⟨hkeep.1, hkeep.2, ?_⟩
  have inv : ScanInv (xs.foldl checkItem (scanStart [])) xs := by
    simpa using ScanInv.foldl xs (ScanInv.start [])
  by_cases hR : R ∈ requirementNames
  · obtain ⟨r, hr, rfl⟩ := List.mem_map.mp hR
    have hs := get_of_find? _ _ _ (inv.sat r hr)
    rw [hsat] at hs
    exact Option.isSome_iff_exists.mp hs.symm
  · have hkeys : R ∉ (xs.foldl checkItem (scanStart [])).results.keys := by
      rw [inv.keys]
      exact hR
    have hnone : (xs.foldl checkItem (scanStart [])).results.find? R = none := by
      cases hfind : (xs.foldl checkItem (scanStart [])).results.find? R with
      | none => rfl
      | some b =>
        exact absurd ((GoMap.find?_isSome_iff _ R).mp (by rw [hfind]; rfl)) hkeys
    simp only [GoMap.get, hnone, Option.getD_none] at hsat
    exact Bool.noConfusion hsat

set_option maxRecDepth 8000 in
/-- Witness of C22: the helmet 501 satisfies the merc helm requirement on its own, and
stays recorded for it when a second helmet with lifesteal follows. -/
theorem first_match_stable_under_extension_witness :
    (CheckAllItemsForStats
        ⟨[⟨501, "H", "helmet", [⟨StatID.LifeSteal, 0, 2⟩]⟩]
          ++ [⟨502, "I", "helmet", [⟨StatID.LifeSteal, 0, 5⟩]⟩], []⟩).1.1.get
          "MercHelm_Lifesteal_Found" false = true
      ∧ (CheckAllItemsForStats
        ⟨[⟨501, "H", "helmet", [⟨StatID.LifeSteal, 0, 2⟩]⟩]
          ++ [⟨502, "I", "helmet", [⟨StatID.LifeSteal, 0, 5⟩]⟩], []⟩).1.2.find?
          "MercHelm_Lifesteal_Found" = some 501 :=
  have h := first_match_stable_under_extension
    [⟨501, "H", "helmet", [⟨StatID.LifeSteal, 0, 2⟩]⟩]
    [⟨502, "I", "helmet", [⟨StatID.LifeSteal, 0, 5⟩]⟩] [] []
    "MercHelm_Lifesteal_Found" (by decide)
  ⟨h.1, h.2.1.trans (by decide)⟩

/-! ## One helmet for both helm requirements -/

/-- The check of the merc helm requirement holds on a helmet with lifesteal at least 1. -/
theorem checkMercHelm_of_stats (itm : Item) (hcode : itm.Code = "helmet")
    (hfound : (itm.FindStat StatID.LifeSteal 0).2 = true)
    (hvalue : (itm.FindStat StatID.LifeSteal 0).1.Value ≥ 1) :
    (checkMercHelm itm).1 = true := by
  rcases h : itm.FindStat StatID.LifeSteal 0 with ⟨s, f⟩
  rw [h] at hfound hvalue
  simp only at hfound hvalue
  simp [checkMercHelm, hcode, h, hfound, hvalue]

/-- The check of the player helm requirement holds on a helmet with all skills 1 and
lightning resistance 35. -/
theorem checkPlayerHelm_of_stats (itm : Item) (hcode : itm.Code = "helmet")
    (hskills : (itm.FindStat StatID.AllSkills 0).2 = true)
    (hskillsValue : (itm.FindStat StatID.AllSkills 0).1.Value = 1)
    (hres : (itm.FindStat StatID.LightningResist 0).2 = true)
    (hresValue : (itm.FindStat StatID.LightningResist 0).1.Value = 35) :
    (checkPlayerHelm itm).1 = true := by
  rcases h1 : itm.FindStat StatID.AllSkills 0 with ⟨s1, f1⟩
  rcases h2 : itm.FindStat StatID.LightningResist 0 with ⟨s2, f2⟩
  rw [h1] at hskills hskillsValue
  rw [h2] at hres hresValue
  simp only at hskills hskillsValue hres hresValue
  simp [checkPlayerHelm, hcode, h1, h2, hskills, hskillsValue, hres, hresValue]

/-- When the six booleans are true, `AreAllRequiredItemsFound` returns true. -/
theorem AreAllRequiredItemsFound_of_all (ctx : Context)
    (h : ∀ name ∈ requirementNames, (CheckAllItemsForStats ctx).1.1.get name false = true) :
    (AreAllRequiredItemsFound ctx).1 = true := by
  obtain ⟨st, inv, hst⟩ := CheckAllItemsForStats_inv ctx
  have hk : (CheckAllItemsForStats ctx).1.1.keys = requirementNames := by
    rw [hst]; exact inv.keys
  have hlen : (CheckAllItemsForStats ctx).1.1.len = requiredChecks.length := by
    have : (CheckAllItemsForStats ctx).1.1.len
        = (CheckAllItemsForStats ctx).1.1.keys.length := by
      simp [GoMap.len, GoMap.keys]
    rw [this, hk]
    rfl
  have hnd : ((CheckAllItemsForStats ctx).1.1.entries.map Prod.fst).Nodup := by
    have := requirementNames_nodup
    rw [← hk] at this
    exact this
  have hres : (AreAllRequiredItemsFound ctx).1
      = (CheckAllItemsForStats ctx).1.1.values.all (fun found => found) := by
    simp only [AreAllRequiredItemsFound, hlen, ne_eq, not_true_eq_false, if_false]
  rw [hres, GoMap.values, all_values_iff _ hnd]
  intro name hname
  exact h name (by rw [← hk]; exact hname)

set_option maxRecDepth 8000 in
/-- C23. The exclusion of one item for two requirements covers the armor pair only. For
every helmet with a non-zero identifier, lifesteal at least 1, all skills 1 and
lightning resistance 35 (the three stats on layer 0): on the collection of that one
item, `CheckAllItemsForStats` marks both `MercHelm_Lifesteal_Found` and
`PlayerHelm_Skill_LightRes_Found` satisfied and records the identifier of the helmet for
both; and on the collection of that helmet and the four items of `exampleOtherItems`,
none of which is a helmet, `AreAllRequiredItemsFound` returns true, the helmet being
recorded for both helm requirements. -/
theorem one_helmet_satisfies_both_helm_requirements (itm : Item) (log : List String)
    (hid : itm.UnitID ≠ 0) (hcode : itm.Code = "helmet")
    (hsteal : (itm.FindStat StatID.LifeSteal 0).2 = true
      ∧ (itm.FindStat StatID.LifeSteal 0).1.Value ≥ 1)
    (hskills : (itm.FindStat StatID.AllSkills 0).2 = true
      ∧ (itm.FindStat StatID.AllSkills 0).1.Value = 1)
    (hres : (itm.FindStat StatID.LightningResist 0).2 = true
      ∧ (itm.FindStat StatID.LightningResist 0).1.Value = 35) :
    ((CheckAllItemsForStats ⟨[itm], log⟩).1.1.get "MercHelm_Lifesteal_Found" false = true
        ∧ (CheckAllItemsForStats ⟨[itm], log⟩).1.1.get "PlayerHelm_Skill_LightRes_Found" false
          = true
        ∧ (CheckAllItemsForStats ⟨[itm], log⟩).1.2.find? "MercHelm_Lifesteal_Found"
          = some itm.UnitID
        ∧ (CheckAllItemsForStats ⟨[itm], log⟩).1.2.find? "PlayerHelm_Skill_LightRes_Found"
          = some itm.UnitID)
      ∧ ((AreAllRequiredItemsFound ⟨itm :: exampleOtherItems, log⟩).1 = true
        ∧ (CheckAllItemsForStats ⟨itm :: exampleOtherItems, log⟩).1.2.find?
            "MercHelm_Lifesteal_Found" = some itm.UnitID
        ∧ (CheckAllItemsForStats ⟨itm :: exampleOtherItems, log⟩).1.2.find?
            "PlayerHelm_Skill_LightRes_Found" = some itm.UnitID
        ∧ ∀ other ∈ exampleOtherItems, other.Code ≠ "helmet") := by
  have pMH : passes ⟨"MercHelm_Lifesteal_Found", checkMercHelm⟩ itm = true := by
    simp [passes, hid, checkMercHelm_of_stats itm hcode hsteal.1 hsteal.2]
  have pPH : passes ⟨"PlayerHelm_Skill_LightRes_Found", checkPlayerHelm⟩ itm = true := by
    simp [passes, hid,
      checkPlayerHelm_of_stats itm hcode hskills.1 hskills.2 hres.1 hres.2]
  have nMW : passes ⟨"MercWeapon_FCR_MinDmg_Found", checkMercWeapon⟩ itm = false := by
    simp [passes, checkMercWeapon, hcode]
  have nMA : passes ⟨"MercArmor_FireRes_Energy_Found", checkMercArmor⟩ itm = false := by
    simp [passes, checkMercArmor, hcode]
  have nPA : passes ⟨"PlayerArmor_FireRes_Energy_Found", checkPlayerArmor⟩ itm = false := by
    simp [passes, checkPlayerArmor, hcode]
  have nPW : passes ⟨"PlayerWeapon_Skills_FCR_Found", checkPlayerWeapon⟩ itm = false := by
    simp [passes, checkPlayerWeapon, hcode]
  constructor
  · obtain ⟨st, inv, hst⟩ := CheckAllItemsForStats_inv ⟨[itm], log⟩
    rw [hst]
    have hMH := inv.first ⟨"MercHelm_Lifesteal_Found", checkMercHelm⟩
      (by simp [requiredChecks]) (by simp)
    have hPH := inv.first ⟨"PlayerHelm_Skill_LightRes_Found", checkPlayerHelm⟩
      (by simp [requiredChecks]) (by simp)
    simp only [List.find?_cons, pMH, Option.map_some'] at hMH
    simp only [List.find?_cons, pPH, Option.map_some'] at hPH
    have s1 := get_of_find? _ _ _ (inv.sat ⟨"MercHelm_Lifesteal_Found", checkMercHelm⟩
      (by simp [requiredChecks]))
    have s6 := get_of_find? _ _ _
      (inv.sat ⟨"PlayerHelm_Skill_LightRes_Found", checkPlayerHelm⟩
        (by simp [requiredChecks]))
    simp only at s1 s6 hMH hPH
    rw [hMH] at s1
    rw [hPH] at s6
    exact ⟨s1, s6, hMH, hPH⟩
  · obtain ⟨st, inv, hst⟩ := CheckAllItemsForStats_inv ⟨itm :: exampleOtherItems, log⟩
    have a := inv.armor
    have hMH := inv.first ⟨"MercHelm_Lifesteal_Found", checkMercHelm⟩
      (by simp [requiredChecks]) (by simp)
    have hPH := inv.first ⟨"PlayerHelm_Skill_LightRes_Found", checkPlayerHelm⟩
      (by simp [requiredChecks]) (by simp)
    have hMW := inv.first ⟨"MercWeapon_FCR_MinDmg_Found", checkMercWeapon⟩
      (by simp [requiredChecks]) (by simp)
    have hPW := inv.first ⟨"PlayerWeapon_Skills_FCR_Found", checkPlayerWeapon⟩
      (by simp [requiredChecks]) (by simp)
    have hMA := a.firstM
    have hPA := a.firstP
    have eMW : exampleOtherItems.find? (passes ⟨"MercWeapon_FCR_MinDmg_Found", checkMercWeapon⟩)
        = some ⟨2, "B", "polearm",
            [⟨StatID.FasterCastRate, 0, 35⟩, ⟨StatID.MinDamage, 0, 9⟩]⟩ := by decide
    have eMA : exampleOtherItems.find?
        (passes ⟨"MercArmor_FireRes_Energy_Found", checkMercArmor⟩)
        = some ⟨3, "C", "armor", [⟨StatID.FireResist, 0, 50⟩, ⟨StatID.Energy, 0, 10⟩]⟩ := by
      decide
    have ePA : exampleOtherItems.find?
        (fun i => passes ⟨"PlayerArmor_FireRes_Energy_Found", checkPlayerArmor⟩ i
          && decide (some i.UnitID ≠ some 3))
        = some ⟨4, "D", "armor", [⟨StatID.FireResist, 0, 50⟩, ⟨StatID.Energy, 0, 10⟩]⟩ := by
      decide
    have ePW : exampleOtherItems.find?
        (passes ⟨"PlayerWeapon_Skills_FCR_Found", checkPlayerWeapon⟩)
        = some ⟨5, "E", "sword",
            [⟨StatID.AllSkills, 0, 2⟩, ⟨StatID.FasterCastRate, 0, 30⟩]⟩ := by decide
    simp only [List.find?_cons, pMH, Option.map_some'] at hMH
    simp only [List.find?_cons, pPH, Option.map_some'] at hPH
    simp only [List.find?_cons, nMW, eMW, Option.map_some'] at hMW
    simp only [List.find?_cons, nPW, ePW, Option.map_some'] at hPW
    simp only [List.find?_cons, nMA, eMA, Option.map_some'] at hMA
    rw [hMA] at hPA
    simp only [List.find?_cons, nPA, Bool.false_and, ePA, Option.map_some'] at hPA
    have s1 := get_of_find? _ _ _ (inv.sat ⟨"MercHelm_Lifesteal_Found", checkMercHelm⟩
      (by simp [requiredChecks]))
    have s2 := get_of_find? _ _ _ (inv.sat ⟨"MercWeapon_FCR_MinDmg_Found", checkMercWeapon⟩
      (by simp [requiredChecks]))
    have s3 := get_of_find? _ _ _ a.satM
    have s4 := get_of_find? _ _ _ a.satP
    have s5 := get_of_find? _ _ _
      (inv.sat ⟨"PlayerWeapon_Skills_FCR_Found", checkPlayerWeapon⟩
        (by simp [requiredChecks]))
    have s6 := get_of_find? _ _ _
      (inv.sat ⟨"PlayerHelm_Skill_LightRes_Found", checkPlayerHelm⟩
        (by simp [requiredChecks]))
    simp only at s1 s2 s3 s4 s5 s6 hMH hPH hMW hPW hMA hPA
    rw [hMH] at s1
    rw [hMW] at s2
    rw [hMA] at s3
    rw [hPA] at s4
    rw [hPW] at s5
    rw [hPH] at s6
    refine ⟨?_, ?_, ?_, by decide⟩
    · apply AreAllRequiredItemsFound_of_all
      intro k hk
      rw [hst]
      show st.results.get k false = true
      simp only [requirementNames, requiredChecks, List.map_cons, List.map_nil,
        List.mem_cons, List.mem_singleton, List.not_mem_nil, or_false] at hk
      rcases hk with rfl | rfl | rfl | rfl | rfl | rfl
      · exact s1
      · exact s2
      · exact s3
      · exact s4
      · exact s5
      · exact s6
    · rw [hst]
      exact hMH
    · rw [hst]
      exact hPH

set_option maxRecDepth 8000 in
/-- Witness of C23: the helmet 7 with lifesteal 3, all skills 1 and lightning resistance
35 is recorded for both helm requirements, and with the four other items all six
requirements are met. -/
theorem one_helmet_satisfies_both_helm_requirements_witness :
    ((CheckAllItemsForStats
          ⟨[⟨7, "H", "helmet", [⟨StatID.LifeSteal, 0, 3⟩, ⟨StatID.AllSkills, 0, 1⟩,
            ⟨StatID.LightningResist, 0, 35⟩]⟩], []⟩).1.2.find? "MercHelm_Lifesteal_Found"
        = some 7
      ∧ (CheckAllItemsForStats
          ⟨[⟨7, "H", "helmet", [⟨StatID.LifeSteal, 0, 3⟩, ⟨StatID.AllSkills, 0, 1⟩,
            ⟨StatID.LightningResist, 0, 35⟩]⟩], []⟩).1.2.find?
            "PlayerHelm_Skill_LightRes_Found"
        = some 7)
      ∧ (AreAllRequiredItemsFound
          ⟨⟨7, "H", "helmet", [⟨StatID.LifeSteal, 0, 3⟩, ⟨StatID.AllSkills, 0, 1⟩,
            ⟨StatID.LightningResist, 0, 35⟩]⟩ :: exampleOtherItems, []⟩).1 = true :=
  have h := one_helmet_satisfies_both_helm_requirements
    ⟨7, "H", "helmet", [⟨StatID.LifeSteal, 0, 3⟩, ⟨StatID.AllSkills, 0, 1⟩,
      ⟨StatID.LightningResist, 0, 35⟩]⟩ []
    (by decide) rfl ⟨by decide, by decide⟩ ⟨by decide, by decide⟩ ⟨by decide, by decide⟩
  ⟨⟨h.1.2.2.1, h.1.2.2.2⟩, h.2.1⟩

/-! ## Attack failures and the next pass -/

end Koolo
